import Mathlib

/-!
sedutil: device identification and transport dispatch.

A shallow embedding of the hardware-facing layer of sedutil
(`src/Common/DtaDevOSDrive.h`, `src/linux/DtaDevLinuxScsi.cpp`,
`src/*/DtaDevOSFactory.cpp`) together with theorems about it.

Bytes are natural numbers below 256, buffers are lists of bytes, and the
operating system (the `SG_IO` ioctl, the transport getters) is an explicit
parameter of the functions that call it.
-/

namespace Sedutil

/-! ## Transport command codec (`DtaDevLinuxScsi::sendCmd`) -/

/-- The `ATACOMMAND` enumeration as seen by the `switch` in `sendCmd`: the two
enumerators that have a `case`, and every other value (which reaches `default`). -/
inductive ATACOMMAND where
  | IF_RECV : ATACOMMAND
  | IF_SEND : ATACOMMAND
  | other (code : Nat) : ATACOMMAND
  deriving DecidableEq, Repr

/-- Modelled from the spec: `CScsiCmdSecurityProtocolIn::OPCODE` is declared in
`DtaStructures.h`; it is the fixed opcode of SECURITY PROTOCOL IN (A2h). -/
def CScsiCmdSecurityProtocolIn_OPCODE : Nat := 0xA2

/-- Modelled from the spec: `CScsiCmdSecurityProtocolOut::OPCODE` is declared in
`DtaStructures.h`; it is the fixed opcode of SECURITY PROTOCOL OUT (B5h). -/
def CScsiCmdSecurityProtocolOut_OPCODE : Nat := 0xB5

/-- Transfer direction `PSC_FROM_DEV` / `PSC_TO_DEV`. -/
inductive DxferDirection where
  | PSC_FROM_DEV : DxferDirection
  | PSC_TO_DEV : DxferDirection
  deriving DecidableEq, Repr

/-- Masked target status `GOOD` of `<scsi/sg.h>`. -/
def GOOD : Nat := 0x00

/-- Masked target status `CHECK_CONDITION` of `<scsi/scsi.h>`. -/
def CHECK_CONDITION : Nat := 0x01

/-- The errno value `EBADF`. -/
def EBADF : Int := 9

/-- Modelled from the spec: `INVALID_HANDLE_VALUE` is declared in `os.h`; a handle
is a machine integer and the invalid one is -1. -/
def INVALID_HANDLE_VALUE : Int := -1

/-- Bytes of `htons x` as they lie in memory: the 16-bit value in network order. -/
def htons (x : Nat) : List Nat := [x / 256 % 256, x % 256]

/-- Bytes of `htonl x` as they lie in memory: the 32-bit value in network order. -/
def htonl (x : Nat) : List Nat :=
  [x / 16777216 % 256, x / 65536 % 256, x / 256 % 256, x % 256]

/-- Value of a big-endian byte string. -/
def beValue (bs : List Nat) : Nat := bs.foldl (fun acc b => acc * 256 + b) 0

/-- Modelled from the spec: the packed 12-byte layout shared by
`CScsiCmdSecurityProtocolIn` and `CScsiCmdSecurityProtocolOut` (declared in
`DtaStructures.h`): opcode, security protocol, 2-byte protocol specific field,
a byte whose top bit is `INC_512`, a reserved byte, the 4-byte
allocation/transfer length, a reserved byte and the control byte.  The record
holds the fields `sendCmd` assigns; every other bit stays as `memset` left it. -/
def securityProtocolCdb (opcode : Nat) (protocol : Nat) (specific : List Nat)
    (inc512 : Nat) (length : List Nat) : List Nat :=
  [opcode % 256, protocol % 256] ++ specific ++ [inc512 % 2 * 128, 0] ++ length ++ [0, 0]

/-- The CDB and transfer direction set up by the `switch` of `sendCmd`
(`none` for the `default` branch).  Both cases assign
`CScsiCmdSecurityProtocolIn::OPCODE`, as the source does. -/
def sendCmdCdb (cmd : ATACOMMAND) (protocol comID bufferlen : Nat) :
    Option (DxferDirection × List Nat) :=
  match cmd with
  | .IF_RECV =>
      some (.PSC_FROM_DEV,
        securityProtocolCdb CScsiCmdSecurityProtocolIn_OPCODE (protocol % 256)
          (htons (comID % 65536)) 1 (htonl (bufferlen % 4294967296 / 512)))
  | .IF_SEND =>
      some (.PSC_TO_DEV,
        securityProtocolCdb CScsiCmdSecurityProtocolIn_OPCODE (protocol % 256)
          (htons (comID % 65536)) 1 (htonl (bufferlen % 4294967296 / 512)))
  | .other _ => none

/-- The `sg_io_hdr_t` fields that `PerformSCSICommand` fills in before the ioctl. -/
structure SgIoHdr where
  dxfer_direction : DxferDirection
  cmd_len : Nat
  mx_sb_len : Nat
  dxfer_len : Nat
  dxferp : List Nat
  cmdp : List Nat
  timeout : Nat
  deriving DecidableEq, Repr

/-- What the `SG_IO` ioctl hands back: its return value, the fields of the header
the kernel writes, and the contents of the data buffer afterwards. -/
structure SgReply where
  result : Int
  resid : Int
  sb_len_wr : Nat
  masked_status : Nat
  data : List Nat
  deriving DecidableEq, Repr

/-- State of the by-reference arguments of `PerformSCSICommand` after the call,
its return value, and the submissions it made. -/
structure PerformResult where
  result : Int
  buffer : List Nat
  bufferlen : Nat
  senselen : Nat
  masked_status : Nat
  submissions : List SgIoHdr
  deriving DecidableEq, Repr

/-- Embedding of `DtaDevLinuxScsi::PerformSCSICommand`. -/
def PerformSCSICommand (ioctl : Int → SgIoHdr → SgReply) (osDeviceHandle : Int)
    (dxfer_direction : DxferDirection) (cdb : List Nat) (cdb_len : Nat)
    (buffer : List Nat) (bufferlen : Nat) (senselen : Nat) (masked_status : Nat)
    (timeout : Nat) : PerformResult :=
  if osDeviceHandle = INVALID_HANDLE_VALUE then
    { result := EBADF, buffer := buffer, bufferlen := bufferlen, senselen := senselen,
      masked_status := masked_status, submissions := [] }
  else
    let sg : SgIoHdr :=
      { dxfer_direction := dxfer_direction, cmd_len := cdb_len, mx_sb_len := senselen,
        dxfer_len := bufferlen, dxferp := buffer, cmdp := cdb, timeout := timeout }
    let reply := ioctl osDeviceHandle sg
    { result := reply.result
      buffer := reply.data
      bufferlen := (((bufferlen : Int) - reply.resid) % 4294967296).toNat
      senselen := reply.sb_len_wr % 256
      masked_status := reply.masked_status % 256
      submissions := [sg] }

/-- Result of `sendCmd`: the status byte, the caller's buffer afterwards, and the
pass-through submissions made. -/
structure SendCmdResult where
  status : Nat
  buffer : List Nat
  submissions : List SgIoHdr
  deriving DecidableEq, Repr

/-- The `PerformSCSICommand` call made by `sendCmd` once the CDB is built:
12-byte CDB, `transferlen = bufferlen`, a 32-byte sense buffer and
`masked_status` initialised to `GOOD`.  The member overload called here is
declared in `DtaDevLinuxScsi.h`; it passes the drive's own `osDeviceHandle` and
its timeout to the static function. -/
def sendCmdPerform (ioctl : Int → SgIoHdr → SgReply) (timeout : Nat) (osDeviceHandle : Int)
    (dir : DxferDirection) (cdb : List Nat) (buffer : List Nat) (bufferlen : Nat) :
    PerformResult :=
  PerformSCSICommand ioctl osDeviceHandle dir cdb 12 buffer (bufferlen % 4294967296) 32 GOOD
    timeout

/-- Embedding of `DtaDevLinuxScsi::sendCmd`. -/
def sendCmd (ioctl : Int → SgIoHdr → SgReply) (timeout : Nat) (osDeviceHandle : Int)
    (cmd : ATACOMMAND) (protocol comID : Nat) (buffer : List Nat) (bufferlen : Nat) :
    SendCmdResult :=
  match sendCmdCdb cmd protocol comID bufferlen with
  | none => { status := 0xff, buffer := buffer, submissions := [] }
  | some (dir, cdb) =>
      let r := sendCmdPerform ioctl timeout osDeviceHandle dir cdb buffer bufferlen
      if r.result < 0 then
        { status := 0xff, buffer := r.buffer, submissions := r.submissions }
      else if r.masked_status ≠ GOOD then
        { status := 0xff, buffer := r.buffer, submissions := r.submissions }
      else
        { status := 0x00, buffer := r.buffer, submissions := r.submissions }

/-- A kernel that rejects every submission: the ioctl returns -1 and leaves the
data buffer alone. -/
def rejectingIoctl (_fd : Int) (sg : SgIoHdr) : SgReply :=
  { result := -1, resid := 0, sb_len_wr := 0, masked_status := 0, data := sg.dxferp }

/-! ## Copy policy (`safecopy`, `softcopy` of `DtaDevOSDrive.h`) -/

/-- The `n` elements read from the start of `src`; elements past the end of the
list read as zero. -/
def readBytes (src : List Nat) (n : Nat) : List Nat :=
  (src ++ List.replicate (n - src.length) 0).take n

/-- Effect of `memcpy(dst, src, n)` on the array at `dst`. -/
def memcpy (dst src : List Nat) (n : Nat) : List Nat :=
  readBytes src n ++ dst.drop n

/-- Effect of `memset(dst + off, c, n)` on the array at `dst`. -/
def memset (dst : List Nat) (off c n : Nat) : List Nat :=
  dst.take off ++ List.replicate n c ++ dst.drop (off + n)

/-- Modelled from the spec: `__is_all_NULs(b, n)` is defined outside the files at
hand; it holds when the `n` elements at `b` are entirely zero. -/
def __is_all_NULs (src : List Nat) : Bool := src.all (fun b => b == 0)

/-- Embedding of `safecopy(dst, dstsize, src, srcsize, fill)`: `dst` stands for the
`dstsize` elements at `dst` and `src` for the `srcsize` elements at `src`. -/
def safecopy (dst src : List Nat) (fill : Nat) : List Nat :=
  if __is_all_NULs src then dst
  else if dst.length ≤ src.length then memcpy dst src dst.length
  else memset (memcpy dst src src.length) src.length fill (dst.length - src.length)

/-- Embedding of `softcopy(dst, dstsize, src, srcsize, fill)`.  The pointer `p` of
the two `while` loops is represented by the part of `dst` from `p` to `e`, so
`p != e` reads as that part being non-empty. -/
def softcopy (dst src : List Nat) (fill : Nat) : List Nat :=
  if __is_all_NULs src then dst
  else
    let p1 := dst.dropWhile (fun c => c == 32)
    let p2 := p1.dropWhile (fun c => c == 0)
    if p2 ≠ [] then dst
    else if dst.length ≤ src.length then memcpy dst src dst.length
    else memset (memcpy dst src src.length) src.length fill (dst.length - src.length)

/-- A field is blank when it is some leading blanks followed only by NULs up to
its full width. -/
def IsBlankField (dst : List Nat) : Prop :=
  ∃ k m : Nat, dst = List.replicate k 32 ++ List.replicate m 0

/-! ## Device information record and quirks -/

/-- Modelled from the spec: the `DTA_DEVICE_TYPE` enumeration is declared in
`DtaStructures.h`; the values are those of the data model. -/
inductive DTA_DEVICE_TYPE where
  | DEVICE_TYPE_ATA
  | DEVICE_TYPE_SATA
  | DEVICE_TYPE_SAS
  | DEVICE_TYPE_SCSI
  | DEVICE_TYPE_NVME
  | DEVICE_TYPE_USB
  | DEVICE_TYPE_OTHER
  | DEVICE_TYPE_UNKNOWN
  deriving DecidableEq, Repr

/-- Modelled from the spec: `DTA_DEVICE_INFO` is declared in `DtaStructures.h`.
Each fixed-width field is the list of its bytes, so `sizeof` of a field is the
length of the list. -/
structure DTA_DEVICE_INFO where
  devType : DTA_DEVICE_TYPE
  devSize : Nat
  vendorID : List Nat
  modelNum : List Nat
  firmwareRev : List Nat
  serialNum : List Nat
  passwordSalt : List Nat
  deriving DecidableEq, Repr

/-- The special actions a device fingerprint can call for. -/
inductive SpecialAction where
  | reverseInquiryPage80SerialNumber
  | avoidSlowSATATimeout
  | avoidSlowSASTimeout
  | acceptPseudoDeviceImmediately
  deriving DecidableEq, Repr

/-! ## Inquiry page 80h (`parseInquiryPage80Response`) -/

/-- Value of `strlen`: the number of bytes before the first NUL. -/
def strlen (s : List Nat) : Nat := (s.takeWhile (fun c => c != 0)).length

/-- The `do ... while (++p<--q)` loop of `strrev`, `p` and `q` being indices into
the string; the first argument bounds the number of iterations. -/
def strrevLoop : Nat → List Nat → Nat → Nat → List Nat
  | 0, s, _, _ => s
  | fuel + 1, s, p, q =>
      let temp := s.getD p 0
      let s1 := s.set p (s.getD q 0)
      let s2 := s1.set q temp
      if p + 1 < q - 1 then strrevLoop fuel s2 (p + 1) (q - 1) else s2

/-- Embedding of the static `strrev`. -/
def strrev (cString : List Nat) : List Nat :=
  let n := strlen cString
  if 1 < n then strrevLoop n cString 0 (n - 1) else cString

/-- The field `PAGE_LENGTH` of `SCSICmd_INQUIRY_Page80_Header` (byte 3). -/
def page80PageLength (response : List Nat) : Nat := response.getD 3 0 % 256

/-- The local buffer `serialNumber[257]` of `parseInquiryPage80Response` after the
`memset` and the `memcpy` from `PRODUCT_SERIAL_NUMBER` (byte 4 onwards). -/
def page80SerialNumber (response : List Nat) : List Nat :=
  memcpy (memset (List.replicate 257 0) 0 0 257) (response.drop 4) (page80PageLength response)

/-- Embedding of `DtaDevLinuxScsi::parseInquiryPage80Response`; the result is the
device information record afterwards. -/
def parseInquiryPage80Response (deviceNeedsSpecialAction : List Nat → SpecialAction → Bool)
    (interfaceDeviceIdentification : List Nat) (response : List Nat)
    (di : DTA_DEVICE_INFO) : DTA_DEVICE_INFO :=
  let serialNumber := page80SerialNumber response
  let di1 := { di with
    passwordSalt := memcpy di.passwordSalt serialNumber di.passwordSalt.length }
  let serialNumber1 :=
    if deviceNeedsSpecialAction interfaceDeviceIdentification
        .reverseInquiryPage80SerialNumber
    then strrev serialNumber else serialNumber
  { di1 with serialNum := memcpy di1.serialNum serialNumber1 di1.serialNum.length }

/-- Reversal of a C string held in a field: the characters before the first NUL
are reversed, the bytes from the first NUL on stay. -/
def cstrReverse (s : List Nat) : List Nat :=
  (s.takeWhile (fun c => c != 0)).reverse ++ s.dropWhile (fun c => c != 0)

/-! ## Device factory dispatch (`DtaDevOSFactory.cpp`) -/

/-- The transport variants named in `trySubclass` / `skipSubclass`. -/
inductive Variant where
  | Sata
  | Scsi
  | Nvme
  | Ata
  | BlockStorageDevice
  deriving DecidableEq, Repr

/-- The collaborators of the factory: the quirk lookup and the per-variant
getters `getDtaDev<OS><variant>(devref, device_info)`, which may change the
device information and the state of the world. -/
structure FactoryHost (Drive W : Type) where
  deviceNeedsSpecialAction : List Nat → SpecialAction → Bool
  getSubclass : Variant → String → DTA_DEVICE_INFO → W → Option Drive × DTA_DEVICE_INFO × W

/-- State of the factory while it runs the `switch`: the local `drive`, the
caller's `device_info`, the world, and the transport attempts made so far. -/
structure Dispatch (Drive W : Type) where
  drive : Option Drive
  device_info : DTA_DEVICE_INFO
  world : W
  attempts : List Variant

/-- The assignment `drive = getDtaDev<OS><variant>(devref, device_info)` inside the
`trySubclass` macro. -/
def trySubclass {Drive W : Type} (host : FactoryHost Drive W) (variant : Variant)
    (devref : String) (st : Dispatch Drive W) : Dispatch Drive W :=
  let r := host.getSubclass variant devref st.device_info st.world
  { drive := r.1, device_info := r.2.1, world := r.2.2, attempts := st.attempts ++ [variant] }

/-- The `switch (device_info.devType)` of `DtaDevLinuxDrive::getDtaDevLinuxDrive`. -/
def getDtaDevLinuxDrive_switch {Drive W : Type} (host : FactoryHost Drive W) (devref : String)
    (interfaceDeviceIdentification : List Nat) (st : Dispatch Drive W) : Dispatch Drive W :=
  match st.device_info.devType with
  | .DEVICE_TYPE_SCSI | .DEVICE_TYPE_SAS => trySubclass host .Scsi devref st
  | .DEVICE_TYPE_USB =>
      let scsiPart := fun (s : Dispatch Drive W) =>
        if !host.deviceNeedsSpecialAction interfaceDeviceIdentification .avoidSlowSASTimeout
        then trySubclass host .Scsi devref s else s
      if !host.deviceNeedsSpecialAction interfaceDeviceIdentification .avoidSlowSATATimeout
      then
        let st1 := trySubclass host .Sata devref st
        if st1.drive.isSome then st1 else scsiPart st1
      else scsiPart st
  | .DEVICE_TYPE_NVME =>
      if host.deviceNeedsSpecialAction interfaceDeviceIdentification
          .acceptPseudoDeviceImmediately
      then trySubclass host .Scsi devref st
      else trySubclass host .Scsi devref st
  | .DEVICE_TYPE_ATA => st
  | .DEVICE_TYPE_OTHER => st
  | _ => st

/-- The `switch (device_info.devType)` of `DtaDevMacOSDrive::getDtaDevMacOSDrive`. -/
def getDtaDevMacOSDrive_switch {Drive W : Type} (host : FactoryHost Drive W) (devref : String)
    (interfaceDeviceIdentification : List Nat) (st : Dispatch Drive W) : Dispatch Drive W :=
  match st.device_info.devType with
  | .DEVICE_TYPE_SCSI | .DEVICE_TYPE_SAS => trySubclass host .Scsi devref st
  | .DEVICE_TYPE_USB =>
      let scsiPart := fun (s : Dispatch Drive W) =>
        if !host.deviceNeedsSpecialAction interfaceDeviceIdentification .avoidSlowSASTimeout
        then trySubclass host .Scsi devref s else s
      if !host.deviceNeedsSpecialAction interfaceDeviceIdentification .avoidSlowSATATimeout
      then
        let st1 := trySubclass host .Sata devref st
        if st1.drive.isSome then st1 else scsiPart st1
      else scsiPart st
  | .DEVICE_TYPE_NVME =>
      if host.deviceNeedsSpecialAction interfaceDeviceIdentification
          .acceptPseudoDeviceImmediately
      then trySubclass host .BlockStorageDevice devref st
      else trySubclass host .BlockStorageDevice devref st
  | .DEVICE_TYPE_ATA => st
  | .DEVICE_TYPE_OTHER => st
  | _ => st

/-- The `switch (device_info.devType)` of `DtaDevWindowsDrive::getDtaDevWindowsDrive`. -/
def getDtaDevWindowsDrive_switch {Drive W : Type} (host : FactoryHost Drive W)
    (devref : String) (interfaceDeviceIdentification : List Nat) (st : Dispatch Drive W) :
    Dispatch Drive W :=
  match st.device_info.devType with
  | .DEVICE_TYPE_SCSI | .DEVICE_TYPE_SAS => trySubclass host .Scsi devref st
  | .DEVICE_TYPE_USB =>
      let scsiPart := fun (s : Dispatch Drive W) =>
        if !host.deviceNeedsSpecialAction interfaceDeviceIdentification .avoidSlowSASTimeout
        then trySubclass host .Scsi devref s else s
      if !host.deviceNeedsSpecialAction interfaceDeviceIdentification .avoidSlowSATATimeout
      then
        let st1 := trySubclass host .Sata devref st
        if st1.drive.isSome then st1 else scsiPart st1
      else scsiPart st
  | .DEVICE_TYPE_NVME =>
      if host.deviceNeedsSpecialAction interfaceDeviceIdentification
          .acceptPseudoDeviceImmediately
      then trySubclass host .Scsi devref st
      else st
  | .DEVICE_TYPE_ATA => st
  | .DEVICE_TYPE_OTHER => st
  | _ => st

/-- The state in which the `switch` is entered: `drive` is `NULL` and no transport
has been attempted. -/
def Dispatch.start {Drive W : Type} (device_info : DTA_DEVICE_INFO) (world : W) :
    Dispatch Drive W :=
  { drive := none, device_info := device_info, world := world, attempts := [] }

/-! ## Inquiry / VPD identification chain (`identifyUsingSCSIInquiry`) -/

/-- Modelled from the spec: `CScsiCmdInquiry::OPCODE` is declared in
`DtaStructures.h`; it is the opcode of INQUIRY (12h). -/
def CScsiCmdInquiry_OPCODE : Nat := 0x12

/-- Page code of the Supported VPD Pages page. -/
def kINQUIRY_Page00_PageCode : Nat := 0x00

/-- Page code of the Unit Serial Number page. -/
def kINQUIRY_Page80_PageCode : Nat := 0x80

/-- Page code of the Device Identification page. -/
def kINQUIRY_Page83_PageCode : Nat := 0x83

/-- Page code of the ATA Information page. -/
def kINQUIRY_Page89_PageCode : Nat := 0x89

/-- Modelled from the spec: `sizeof(InterfaceDeviceID)`, the 8-byte vendor, 16-byte
product and 4-byte revision fields of the Standard Inquiry data in a row. -/
def sizeof_InterfaceDeviceID : Nat := 28

/-- Modelled from the spec: the packed 6-byte layout of `CScsiCmdInquiry` (declared
in `DtaStructures.h`) as `__inquiry` fills it: opcode, the byte whose low bit is
`EVPD`, page code, 2-byte allocation length in network order, control. -/
def inquiryCdb (evpd page_code dataSize : Nat) : List Nat :=
  [CScsiCmdInquiry_OPCODE, evpd % 2, page_code % 256] ++ htons (dataSize % 65536) ++ [0]

/-- What the inquiry chain needs from its surroundings: the `SG_IO` ioctl, the
default timeout of `PerformSCSICommand`, `sizeof(CScsiCmdInquiry_StandardData)`,
the outcome of each call of `alloc_aligned_MIN_BUFFER_LENGTH_buffer` (no buffer,
or a buffer with whatever bytes it holds), and the quirk table.  The inquiries of
one run have different CDBs, so an ioctl that is a function of the request can
answer each of them in its own way. -/
structure InquiryHost where
  ioctl : Int → SgIoHdr → SgReply
  timeout : Nat
  sizeofStandardData : Nat
  allocStandard : Option (List Nat)
  allocPage00 : Option (List Nat)
  allocPage80 : Option (List Nat)
  deviceNeedsSpecialAction : List Nat → SpecialAction → Bool

/-- Embedding of `DtaDevLinuxScsi::__inquiry`; the local `masked_status` starts
out as 0 and is not looked at afterwards. -/
def __inquiry (host : InquiryHost) (osDeviceHandle : Int) (evpd page_code : Nat)
    (inquiryResponse : List Nat) (dataSize : Nat) : PerformResult :=
  PerformSCSICommand host.ioctl osDeviceHandle .PSC_FROM_DEV
    (inquiryCdb evpd page_code dataSize) 6 inquiryResponse dataSize 32 0 host.timeout

/-- Embedding of `DtaDevLinuxScsi::inquiryStandardDataAll_SCSI`. -/
def inquiryStandardDataAll_SCSI (host : InquiryHost) (osDeviceHandle : Int)
    (inquiryResponse : List Nat) (dataSize : Nat) : PerformResult :=
  __inquiry host osDeviceHandle 0x00 0x00 inquiryResponse dataSize

/-- Embedding of `DtaDevLinuxScsi::__inquiry__EVPD`. -/
def __inquiry__EVPD (host : InquiryHost) (osDeviceHandle : Int) (page_code : Nat)
    (inquiryResponse : List Nat) (dataSize : Nat) : PerformResult :=
  __inquiry host osDeviceHandle 0x01 page_code inquiryResponse dataSize

/-- Embedding of `DtaDevLinuxScsi::inquiryPage00_SCSI`. -/
def inquiryPage00_SCSI (host : InquiryHost) (osDeviceHandle : Int) (buffer : List Nat)
    (dataSize : Nat) : PerformResult :=
  __inquiry__EVPD host osDeviceHandle kINQUIRY_Page00_PageCode buffer dataSize

/-- Embedding of `DtaDevLinuxScsi::inquiryPage80_SCSI`. -/
def inquiryPage80_SCSI (host : InquiryHost) (osDeviceHandle : Int) (buffer : List Nat)
    (dataSize : Nat) : PerformResult :=
  __inquiry__EVPD host osDeviceHandle kINQUIRY_Page80_PageCode buffer dataSize

/-- Embedding of `DtaDevLinuxScsi::parseInquiryStandardDataAllResponse`: the
fingerprint and the device information afterwards.  Modelled from the spec: in
`CScsiCmdInquiry_StandardData` the vendor identification is bytes 8-15, the
product identification bytes 16-31 and the product revision level bytes 32-35. -/
def parseInquiryStandardDataAllResponse (response : List Nat)
    (interfaceDeviceIdentification : List Nat) (di : DTA_DEVICE_INFO) :
    List Nat × DTA_DEVICE_INFO :=
  let id1 := memcpy interfaceDeviceIdentification (response.drop 8)
    interfaceDeviceIdentification.length
  let di1 := { di with vendorID := safecopy di.vendorID (readBytes (response.drop 8) 8) 0 }
  let di2 := { di1 with
    firmwareRev := safecopy di1.firmwareRev (readBytes (response.drop 32) 4) 0 }
  let di3 := { di2 with modelNum := safecopy di2.modelNum (readBytes (response.drop 16) 16) 0 }
  (id1, di3)

/-- Outcome of one stage of the chain: the stage's verdict, the fingerprint and
the device information afterwards, and the submissions the stage made. -/
structure IdentifyResult where
  result : Bool
  interfaceDeviceIdentification : List Nat
  disk_info : DTA_DEVICE_INFO
  submissions : List SgIoHdr
  deriving DecidableEq, Repr

/-- Embedding of `DtaDevLinuxScsi::deviceIsStandardSCSI`. -/
def deviceIsStandardSCSI (host : InquiryHost) (osDeviceHandle : Int)
    (interfaceDeviceIdentification : List Nat) (di : DTA_DEVICE_INFO) : IdentifyResult :=
  match host.allocStandard with
  | none =>
      { result := false, interfaceDeviceIdentification := interfaceDeviceIdentification,
        disk_info := di, submissions := [] }
  | some raw =>
      let inquiryResponse := memset raw 0 0 host.sizeofStandardData
      let r := inquiryStandardDataAll_SCSI host osDeviceHandle inquiryResponse
        host.sizeofStandardData
      if r.result = 0 then
        let parsed := parseInquiryStandardDataAllResponse r.buffer
          interfaceDeviceIdentification di
        { result := true, interfaceDeviceIdentification := parsed.1, disk_info := parsed.2,
          submissions := r.submissions }
      else
        { result := false, interfaceDeviceIdentification := interfaceDeviceIdentification,
          disk_info := di, submissions := r.submissions }

/-- The four flags that `parseInquiryPage00Response` sets. -/
structure Page00Flags where
  deviceSupportsPage00 : Bool
  deviceSupportsPage80 : Bool
  deviceSupportsPage83 : Bool
  deviceSupportsPage89 : Bool
  deriving DecidableEq, Repr

/-- The `switch (pageCode)` in the loop of `parseInquiryPage00Response`. -/
def page00Switch (flags : Page00Flags) (pageCode : Nat) : Page00Flags :=
  if pageCode = kINQUIRY_Page00_PageCode then { flags with deviceSupportsPage00 := true }
  else if pageCode = kINQUIRY_Page80_PageCode then { flags with deviceSupportsPage80 := true }
  else if pageCode = kINQUIRY_Page83_PageCode then { flags with deviceSupportsPage83 := true }
  else if pageCode = kINQUIRY_Page89_PageCode then { flags with deviceSupportsPage89 := true }
  else flags

/-- The field `PAGE_LENGTH` of `SCSICmd_INQUIRY_Page00_Header` (byte 3). -/
def page00PageLength (response : List Nat) : Nat := response.getD 3 0 % 256

/-- The page codes the loop of `parseInquiryPage00Response` visits: `p` runs from
the byte after `PAGE_LENGTH` to `pLast`, `PAGE_LENGTH` bytes further. -/
def page00PageCodes (response : List Nat) : List Nat :=
  readBytes (response.drop 4) (page00PageLength response)

/-- Embedding of `DtaDevLinuxScsi::parseInquiryPage00Response`: the flags
afterwards. -/
def parseInquiryPage00Response (response : List Nat) (flags : Page00Flags) : Page00Flags :=
  (page00PageCodes response).foldl page00Switch flags

/-- Outcome of `deviceIsPage00SCSI`: its verdict, the two by-reference flags
afterwards and the submissions it made. -/
structure Page00Result where
  result : Bool
  deviceSupportsPage80 : Bool
  deviceSupportsPage89 : Bool
  submissions : List SgIoHdr
  deriving DecidableEq, Repr

/-- Embedding of `DtaDevLinuxScsi::deviceIsPage00SCSI`. -/
def deviceIsPage00SCSI (host : InquiryHost) (osDeviceHandle : Int)
    (deviceSupportsPage80 deviceSupportsPage89 : Bool) : Page00Result :=
  match host.allocPage00 with
  | none =>
      { result := false, deviceSupportsPage80 := deviceSupportsPage80,
        deviceSupportsPage89 := deviceSupportsPage89, submissions := [] }
  | some raw =>
      let inquiryResponse := memset raw 0 0 260
      let r := inquiryPage00_SCSI host osDeviceHandle inquiryResponse 260
      if r.result = 0 then
        let flags := parseInquiryPage00Response r.buffer
          { deviceSupportsPage00 := false, deviceSupportsPage80 := deviceSupportsPage80,
            deviceSupportsPage83 := false, deviceSupportsPage89 := deviceSupportsPage89 }
        if !(flags.deviceSupportsPage00 && flags.deviceSupportsPage83) then
          { result := false, deviceSupportsPage80 := flags.deviceSupportsPage80,
            deviceSupportsPage89 := flags.deviceSupportsPage89, submissions := r.submissions }
        else
          { result := true, deviceSupportsPage80 := flags.deviceSupportsPage80,
            deviceSupportsPage89 := flags.deviceSupportsPage89, submissions := r.submissions }
      else
        { result := false, deviceSupportsPage80 := deviceSupportsPage80,
          deviceSupportsPage89 := deviceSupportsPage89, submissions := r.submissions }

/-- Embedding of `DtaDevLinuxScsi::deviceIsPage80SCSI`. -/
def deviceIsPage80SCSI (host : InquiryHost) (osDeviceHandle : Int)
    (interfaceDeviceIdentification : List Nat) (di : DTA_DEVICE_INFO) : IdentifyResult :=
  match host.allocPage80 with
  | none =>
      { result := false, interfaceDeviceIdentification := interfaceDeviceIdentification,
        disk_info := di, submissions := [] }
  | some raw =>
      let inquiryResponse := memset raw 0 0 256
      let r := inquiryPage80_SCSI host osDeviceHandle inquiryResponse 256
      if r.result = 0 then
        { result := true, interfaceDeviceIdentification := interfaceDeviceIdentification,
          disk_info := parseInquiryPage80Response host.deviceNeedsSpecialAction
            interfaceDeviceIdentification r.buffer di,
          submissions := r.submissions }
      else
        { result := false, interfaceDeviceIdentification := interfaceDeviceIdentification,
          disk_info := di, submissions := r.submissions }

/-- Embedding of `DtaDevLinuxScsi::identifyUsingSCSIInquiry` as it is compiled:
`USE_INQUIRY_PAGE_00h`, `ALLOW_INQUIRY_PAGE_00_FAILURES` and
`USE_INQUIRY_PAGE_80h` are defined, the page 83h and 89h stages are not. -/
def identifyUsingSCSIInquiry (host : InquiryHost) (osDeviceHandle : Int)
    (interfaceDeviceIdentification : List Nat) (disk_info : DTA_DEVICE_INFO) :
    IdentifyResult :=
  let std := deviceIsStandardSCSI host osDeviceHandle interfaceDeviceIdentification disk_info
  if !std.result then { std with result := false }
  else
    let p00 := deviceIsPage00SCSI host osDeviceHandle false false
    if !p00.result then
      { std with result := true, submissions := std.submissions ++ p00.submissions }
    else if p00.deviceSupportsPage80 then
      let p80 := deviceIsPage80SCSI host osDeviceHandle std.interfaceDeviceIdentification
        std.disk_info
      if p80.result then
        { p80 with result := true,
                   submissions := std.submissions ++ p00.submissions ++ p80.submissions }
      else
        { p80 with result := false,
                   submissions := std.submissions ++ p00.submissions ++ p80.submissions }
    else
      { std with result := true, submissions := std.submissions ++ p00.submissions }

/-- The Standard Inquiry as `deviceIsStandardSCSI` issues it: `none` when no buffer
could be allocated. -/
def standardInquiry (host : InquiryHost) (osDeviceHandle : Int) : Option PerformResult :=
  host.allocStandard.map (fun raw =>
    inquiryStandardDataAll_SCSI host osDeviceHandle (memset raw 0 0 host.sizeofStandardData)
      host.sizeofStandardData)

/-- The page 00h inquiry as `deviceIsPage00SCSI` issues it: `none` when no buffer
could be allocated. -/
def page00Inquiry (host : InquiryHost) (osDeviceHandle : Int) : Option PerformResult :=
  host.allocPage00.map (fun raw =>
    inquiryPage00_SCSI host osDeviceHandle (memset raw 0 0 260) 260)

/-- The page 80h inquiry as `deviceIsPage80SCSI` issues it: `none` when no buffer
could be allocated. -/
def page80Inquiry (host : InquiryHost) (osDeviceHandle : Int) : Option PerformResult :=
  host.allocPage80.map (fun raw =>
    inquiryPage80_SCSI host osDeviceHandle (memset raw 0 0 256) 256)

/-- A submission is a page 80h inquiry when its CDB is an INQUIRY with `EVPD` set
and page code 80h. -/
def isPage80Submission (sg : SgIoHdr) : Bool :=
  sg.cmdp.getD 0 0 == CScsiCmdInquiry_OPCODE && sg.cmdp.getD 1 0 == 1
    && sg.cmdp.getD 2 0 == kINQUIRY_Page80_PageCode

/-! ## Handles, device-reference filters and enumerators -/

/-- What the operating system is asked to do, in order: an attempt to open a
device reference, the release of a handle, a pass-through submission, a registry
lookup by BSD name. -/
inductive OsEvent where
  | openCall (devref : String) : OsEvent
  | closeCall (osDeviceHandle : Int) : OsEvent
  | submission (sg : SgIoHdr) : OsEvent
  | registryLookup (bsdName : String) : OsEvent
  deriving DecidableEq, Repr

/-- Whether an event opens or releases a handle. -/
def OsEvent.isHandleEvent : OsEvent → Bool
  | .openCall _ => true
  | .closeCall _ => true
  | _ => false

/-- The errno value `EACCES`. -/
def EACCES : Nat := 13

/-- The errno value `ENOENT`. -/
def ENOENT : Nat := 2

/-- The Windows error code `ERROR_ACCESS_DENIED`. -/
def ERROR_ACCESS_DENIED : Nat := 5

/-- The Linux system as the drive layer sees it: `open(devref, O_RDWR)` (the
descriptor and, when it is -1, `errno`), `access(devref, R_OK | W_OK)`, the
entries of `/dev` as `readdir` lists them (`none` when `opendir` fails), and the
device-reference predicate of the NVMe class, which is defined in
`DtaDevLinuxNvme.cpp`. -/
structure LinuxHost where
  openRdwr : String → Int × Nat
  access : String → Int
  readdirDev : Option (List String)
  isDtaDevLinuxNvmeDevRef : String → Bool

/-- Embedding of `DtaDevLinuxScsi::isDtaDevLinuxScsiDevRef`:
`fnmatch("/dev/sd[a-z]", devref, 0)` succeeds on `/dev/sd` followed by one
lower-case letter. -/
def isDtaDevLinuxScsiDevRef (devref : String) : Bool :=
  devref.toList.length == 8 && devref.toList.take 7 == "/dev/sd".toList
    && (devref.toList.getD 7 ' ').isLower

/-- Embedding of `DtaDevLinuxDrive::isDtaDevLinuxDriveDevRef`. -/
def DtaDevLinuxDrive.isDtaDevLinuxDriveDevRef (os : LinuxHost) (devref : String) : Bool :=
  os.isDtaDevLinuxNvmeDevRef devref || isDtaDevLinuxScsiDevRef devref

/-- Embedding of `DtaDevLinuxDrive::openDeviceHandle`: the handle and the value of
`accessDenied` afterwards.  A handle is its descriptor. -/
def DtaDevLinuxDrive.openDeviceHandle (os : LinuxHost) (devref : String)
    (accessDenied : Bool) : Int × Bool :=
  let descriptor := (os.openRdwr devref).1
  if descriptor = -1 then
    if (os.openRdwr devref).2 = EACCES then (INVALID_HANDLE_VALUE, true)
    else (INVALID_HANDLE_VALUE, accessDenied)
  else (descriptor, accessDenied)

/-- Outcome of a device-reference filter: its verdict, `accessDenied` afterwards,
and what it asked of the operating system. -/
structure DevRefResult where
  result : Bool
  accessDenied : Bool
  events : List OsEvent
  deriving DecidableEq, Repr

/-- Embedding of `DtaDevOSDrive::isDtaDevOSDriveDevRef` of the Linux build. -/
def Linux.isDtaDevOSDriveDevRef (os : LinuxHost) (devref : String) (accessDenied : Bool) :
    DevRefResult :=
  let result := DtaDevLinuxDrive.isDtaDevLinuxDriveDevRef os devref
  if result then
    let opened := DtaDevLinuxDrive.openDeviceHandle os devref accessDenied
    { result := opened.1 != INVALID_HANDLE_VALUE && !opened.2
      accessDenied := opened.2
      events := [OsEvent.openCall devref] ++
        (if opened.1 ≠ INVALID_HANDLE_VALUE then [OsEvent.closeCall opened.1] else []) }
  else { result := result, accessDenied := accessDenied, events := [] }

/-- The body of the scanning loop shared by the enumerators: the candidate is
pushed when the filter accepts it, and otherwise the flag is raised when this
candidate was denied.  The accumulator is `devrefs` and `accessDenied`. -/
def enumerateStep (filter : String → Bool → DevRefResult) (acc : List String × Bool)
    (str_devref : String) : List String × Bool :=
  let accessDeniedThisTime := false
  let f := filter str_devref accessDeniedThisTime
  if f.result then (acc.1 ++ [str_devref], acc.2)
  else if f.accessDenied then (acc.1, true)
  else acc

/-- Effect of `std::sort(devrefs.begin(), devrefs.end())`: the strings in
non-decreasing order. -/
def std_sort (devrefs : List String) : List String :=
  devrefs.insertionSort (fun a b => a ≤ b)

/-- Embedding of `DtaDevLinuxDrive::enumerateDtaDevLinuxDriveDevRefs`: the list
returned and `accessDenied` afterwards. -/
def DtaDevLinuxDrive.enumerateDtaDevLinuxDriveDevRefs (os : LinuxHost) (accessDenied : Bool) :
    List String × Bool :=
  match os.readdirDev with
  | none => ([], accessDenied)
  | some entries =>
      let scanned := (entries.map (fun d_name => "/dev/" ++ d_name)).foldl
        (enumerateStep (Linux.isDtaDevOSDriveDevRef os)) ([], accessDenied)
      (std_sort scanned.1, scanned.2)

/-- The Windows system as the drive layer sees it: `CreateFile` for read and write
(the handle and, when it is invalid, `GetLastError()`), and `MAX_DISKS`. -/
structure WindowsHost where
  createFile : String → Int × Nat
  MAX_DISKS : Nat

/-- Embedding of `DtaDevWindowsDrive::isDtaDevWindowsDriveDevRef`: the regular
expression matches `\\.\PhysicalDrive` followed by one or more digits. -/
def DtaDevWindowsDrive.isDtaDevWindowsDriveDevRef (devref : String) : Bool :=
  devref.toList.take 17 == "\\\\.\\PhysicalDrive".toList
    && !(devref.toList.drop 17).isEmpty && (devref.toList.drop 17).all Char.isDigit

/-- Embedding of `DtaDevWindowsDrive::openDeviceHandle`. -/
def DtaDevWindowsDrive.openDeviceHandle (os : WindowsHost) (devref : String)
    (accessDenied : Bool) : Int × Bool :=
  let osDeviceHandle := (os.createFile devref).1
  if INVALID_HANDLE_VALUE ≠ osDeviceHandle then (osDeviceHandle, accessDenied)
  else (osDeviceHandle, (os.createFile devref).2 == ERROR_ACCESS_DENIED)

/-- Embedding of `DtaDevOSDrive::isDtaDevOSDriveDevRef` of the Windows build. -/
def Windows.isDtaDevOSDriveDevRef (os : WindowsHost) (devref : String)
    (accessDenied : Bool) : DevRefResult :=
  let opened := DtaDevWindowsDrive.openDeviceHandle os devref accessDenied
  let result := opened.1 != INVALID_HANDLE_VALUE && !opened.2
  { result := result && DtaDevWindowsDrive.isDtaDevWindowsDriveDevRef devref
    accessDenied := opened.2
    events := [OsEvent.openCall devref] ++
      (if opened.1 ≠ INVALID_HANDLE_VALUE then [OsEvent.closeCall opened.1] else []) }

/-- The candidate of the Windows enumerator for disk number `i`. -/
def windowsCandidate (i : Nat) : String := "\\\\.\\PhysicalDrive" ++ toString i

/-- Embedding of `DtaDevWindowsDrive::enumerateDtaDevWindowsDriveDevRefs`. -/
def DtaDevWindowsDrive.enumerateDtaDevWindowsDriveDevRefs (os : WindowsHost)
    (accessDenied : Bool) : List String × Bool :=
  ((List.range os.MAX_DISKS).map windowsCandidate).foldl
    (enumerateStep (Windows.isDtaDevOSDriveDevRef os)) ([], accessDenied)

/-- The macOS system as the drive layer sees it: the registry lookups
`findBSDName` and `findParent` (0 is `IO_OBJECT_NULL`),
`conformsToBlockStorageDeviceClass`, and the handle that the registry walk of
`DtaDevMacOSDrive::openDeviceHandle` arrives at for a device reference. -/
structure MacOSHost where
  findBSDName : String → Nat
  findParent : Nat → Nat
  conformsToBlockStorageDeviceClass : Nat → Bool
  openByRegistryWalk : String → Int

/-- The two `fnmatch` patterns of `isDtaDevMacOSBlockStorageDeviceDevRef`:
`/dev/disk[0-9]` and `/dev/disk[1-9][0-9]`. -/
def matchesMacOSDiskPattern (devref : String) : Bool :=
  (devref.toList.length == 10 && devref.toList.take 9 == "/dev/disk".toList
      && (devref.toList.getD 9 ' ').isDigit)
  || (devref.toList.length == 11 && devref.toList.take 9 == "/dev/disk".toList
      && (devref.toList.getD 9 ' ').isDigit && devref.toList.getD 9 ' ' != '0'
      && (devref.toList.getD 10 ' ').isDigit)

/-- Embedding of
`DtaDevMacOSBlockStorageDevice::isDtaDevMacOSBlockStorageDeviceDevRef`: the
verdict and the registry lookups made. -/
def isDtaDevMacOSBlockStorageDeviceDevRef (os : MacOSHost) (devref : String) :
    Bool × List OsEvent :=
  if !matchesMacOSDiskPattern devref then (false, [])
  else
    let bsdName := devref.drop 5
    let media := os.findBSDName bsdName
    let parent := if media = 0 then 0 else os.findParent media
    let grandparent := if parent = 0 then 0 else os.findParent parent
    (grandparent != 0 && os.conformsToBlockStorageDeviceClass grandparent,
      [OsEvent.registryLookup bsdName])

/-- Embedding of `DtaDevMacOSDrive::isDtaDevMacOSDriveDevRef`. -/
def DtaDevMacOSDrive.isDtaDevMacOSDriveDevRef (os : MacOSHost) (devref : String) :
    Bool × List OsEvent :=
  isDtaDevMacOSBlockStorageDeviceDevRef os devref

/-- The part of `DtaDevMacOSDrive::openDeviceHandle` that matters to its callers:
it hands back the handle found by the registry walk and does not write
`accessDenied` (the parameter is unnamed in the source). -/
def DtaDevMacOSDrive.openDeviceHandle (os : MacOSHost) (devref : String)
    (accessDenied : Bool) : Int × Bool :=
  (os.openByRegistryWalk devref, accessDenied)

/-- Embedding of `DtaDevOSDrive::isDtaDevOSDriveDevRef` of the macOS build. -/
def MacOS.isDtaDevOSDriveDevRef (os : MacOSHost) (devref : String) (accessDenied : Bool) :
    DevRefResult :=
  let matched := DtaDevMacOSDrive.isDtaDevMacOSDriveDevRef os devref
  if !matched.1 then { result := false, accessDenied := accessDenied, events := matched.2 }
  else
    let opened := DtaDevMacOSDrive.openDeviceHandle os devref accessDenied
    { result := INVALID_HANDLE_VALUE != opened.1 && !opened.2
      accessDenied := opened.2
      events := matched.2 ++ [OsEvent.openCall devref] ++
        (if INVALID_HANDLE_VALUE ≠ opened.1 then [OsEvent.closeCall opened.1] else []) }

/-! ## The SCSI getter (`DtaDevLinuxScsi::getDtaDevLinuxScsi`) -/

/-- The two objects `getDtaDevLinuxScsi` can construct, each owning the handle. -/
inductive LinuxScsiDrive where
  | DtaDevLinuxSata (osDeviceHandle : Int) : LinuxScsiDrive
  | DtaDevLinuxScsi (osDeviceHandle : Int) : LinuxScsiDrive
  deriving DecidableEq, Repr

/-- Outcome of `getDtaDevLinuxScsi`: the object returned (`none` for `NULL`), the
caller's device information afterwards, and what was asked of the system. -/
structure GetScsiResult where
  drive : Option LinuxScsiDrive
  disk_info : DTA_DEVICE_INFO
  events : List OsEvent
  deriving DecidableEq, Repr

/-- Embedding of `DtaDevLinuxScsi::getDtaDevLinuxScsi`.  The ATA identification
`DtaDevLinuxSata::identifyUsingATAIdentifyDevice` is defined in
`DtaDevLinuxSata.cpp` and is a parameter: it yields its verdict, the device
information afterwards and the submissions it made. -/
def getDtaDevLinuxScsi (os : LinuxHost) (host : InquiryHost)
    (identifyUsingATAIdentifyDevice :
      Int → List Nat → DTA_DEVICE_INFO → Bool × DTA_DEVICE_INFO × List SgIoHdr)
    (devref : String) (di : DTA_DEVICE_INFO) : GetScsiResult :=
  let accessDenied := false
  let osDeviceHandle := (DtaDevLinuxDrive.openDeviceHandle os devref accessDenied).1
  if osDeviceHandle = INVALID_HANDLE_VALUE then
    { drive := none, disk_info := di, events := [OsEvent.openCall devref] }
  else
    let interfaceDeviceIdentification := List.replicate sizeof_InterfaceDeviceID 0
    let r := identifyUsingSCSIInquiry host osDeviceHandle interfaceDeviceIdentification di
    if !r.result then
      { drive := none
        disk_info := { r.disk_info with devType := .DEVICE_TYPE_OTHER }
        events := [OsEvent.openCall devref] ++ r.submissions.map OsEvent.submission
          ++ [OsEvent.closeCall osDeviceHandle] }
    else
      let a := identifyUsingATAIdentifyDevice osDeviceHandle r.interfaceDeviceIdentification
        r.disk_info
      if a.1 then
        { drive := some (.DtaDevLinuxSata osDeviceHandle)
          disk_info := { a.2.1 with devType := .DEVICE_TYPE_SATA }
          events := [OsEvent.openCall devref] ++ r.submissions.map OsEvent.submission
            ++ a.2.2.map OsEvent.submission }
      else
        { drive := some (.DtaDevLinuxScsi osDeviceHandle)
          disk_info := { a.2.1 with devType := .DEVICE_TYPE_SAS }
          events := [OsEvent.openCall devref] ++ r.submissions.map OsEvent.submission
            ++ a.2.2.map OsEvent.submission }

/-! ## The page 00h loop with its pointer -/

/-- The `for` loop of `parseInquiryPage00Response` with the pointer `p` as an index
into the response: `++p <= pLast` is tested, then the byte at `p` is read and
switched on.  The first argument bounds the number of iterations; the last
component collects the indices read. -/
def parseInquiryPage00Loop : Nat → List Nat → Nat → Nat → Page00Flags → List Nat →
    Page00Flags × List Nat
  | 0, _, _, _, flags, reads => (flags, reads)
  | fuel + 1, response, p, pLast, flags, reads =>
      if p + 1 ≤ pLast then
        parseInquiryPage00Loop fuel response (p + 1) pLast
          (page00Switch flags (response.getD (p + 1) 0)) (reads ++ [p + 1])
      else (flags, reads)

/-- `parseInquiryPage00Response` as the source runs it: `p` starts at
`PAGE_LENGTH` (byte 3, which is read for `pLast = p + *p`). -/
def parseInquiryPage00Trace (fuel : Nat) (response : List Nat) (flags : Page00Flags) :
    Page00Flags × List Nat :=
  parseInquiryPage00Loop fuel response 3 (3 + page00PageLength response) flags [3]

/-- The flags as `deviceIsPage00SCSI` and `identifyUsingSCSIInquiry` initialise
them. -/
def page00FlagsInit : Page00Flags :=
  { deviceSupportsPage00 := false, deviceSupportsPage80 := false,
    deviceSupportsPage83 := false, deviceSupportsPage89 := false }

/-! ## Result codes, `discovery0` and the identification entry point -/

/-- Modelled from the spec: the result codes of the identification entry point,
declared in `DtaConstants.h`. -/
inductive DTAERROR where
  | DTAERROR_SUCCESS
  | DTAERROR_COMMAND_ERROR
  | DTAERROR_DEVICE_ACCESS_DENIED
  | DTAERROR_DEVICE_NOT_OPEN
  | DTAERROR_DEVICE_TYPE_UNKNOWN
  deriving DecidableEq, Repr

/-- The arguments of one call of the drive's `sendCmd`. -/
structure SendCmdCall where
  cmd : ATACOMMAND
  protocol : Nat
  comID : Nat
  buffer : List Nat
  bufferlen : Nat
  deriving DecidableEq, Repr

/-- What `discovery0` needs from its surroundings: `MIN_BUFFER_LENGTH`, the
outcome of `alloc_aligned_MIN_BUFFER_LENGTH_buffer` (no buffer, or a buffer with
whatever bytes it holds), the drive's virtual `sendCmd` (status byte and buffer
afterwards) and the feature parser `parseDiscovery0Features`. -/
structure Discovery0Host where
  MIN_BUFFER_LENGTH : Nat
  alloc : Option (List Nat)
  sendCmd : ATACOMMAND → Nat → Nat → List Nat → Nat → Nat × List Nat
  parseDiscovery0Features : List Nat → DTA_DEVICE_INFO → DTA_DEVICE_INFO

/-- Outcome of `discovery0`: the code returned, the device information afterwards,
the calls of `sendCmd` and of the feature parser that were made, and whether the
buffer was freed. -/
structure Discovery0Result where
  rc : DTAERROR
  disk_info : DTA_DEVICE_INFO
  sendCmdCalls : List SendCmdCall
  parserCalls : List (List Nat)
  freed : Bool
  deriving DecidableEq, Repr

/-- Embedding of `DtaDevLinuxDrive::discovery0`. -/
def DtaDevLinuxDrive.discovery0 (host : Discovery0Host) (disk_info : DTA_DEVICE_INFO) :
    Discovery0Result :=
  match host.alloc with
  | none =>
      { rc := .DTAERROR_COMMAND_ERROR, disk_info := disk_info, sendCmdCalls := [],
        parserCalls := [], freed := false }
  | some raw =>
      let d0Response := memset raw 0 0 host.MIN_BUFFER_LENGTH
      let sent := host.sendCmd .IF_RECV 0x01 0x0001 d0Response host.MIN_BUFFER_LENGTH
      let call : SendCmdCall :=
        { cmd := .IF_RECV, protocol := 0x01, comID := 0x0001, buffer := d0Response,
          bufferlen := host.MIN_BUFFER_LENGTH }
      if sent.1 ≠ 0 then
        { rc := .DTAERROR_COMMAND_ERROR, disk_info := disk_info, sendCmdCalls := [call],
          parserCalls := [], freed := false }
      else
        { rc := .DTAERROR_SUCCESS,
          disk_info := host.parseDiscovery0Features sent.2 disk_info,
          sendCmdCalls := [call], parserCalls := [sent.2], freed := true }

/-- Embedding of `DtaDevWindowsDrive::discovery0`. -/
def DtaDevWindowsDrive.discovery0 (host : Discovery0Host) (disk_info : DTA_DEVICE_INFO) :
    Discovery0Result :=
  match host.alloc with
  | none =>
      { rc := .DTAERROR_COMMAND_ERROR, disk_info := disk_info, sendCmdCalls := [],
        parserCalls := [], freed := false }
  | some raw =>
      let d0Response := memset raw 0 0 host.MIN_BUFFER_LENGTH
      let sent := host.sendCmd .IF_RECV 0x01 0x0001 d0Response host.MIN_BUFFER_LENGTH
      let call : SendCmdCall :=
        { cmd := .IF_RECV, protocol := 0x01, comID := 0x0001, buffer := d0Response,
          bufferlen := host.MIN_BUFFER_LENGTH }
      if sent.1 ≠ 0 then
        { rc := .DTAERROR_COMMAND_ERROR, disk_info := disk_info, sendCmdCalls := [call],
          parserCalls := [], freed := false }
      else
        { rc := .DTAERROR_SUCCESS,
          disk_info := host.parseDiscovery0Features sent.2 disk_info,
          sendCmdCalls := [call], parserCalls := [sent.2], freed := true }

/-- The collaborators of `DtaDevOS::getDtaDevOS(devref, pdev, genericIfNotTPer)`:
the zeroed `device_info`, the drive acquisition `DtaDevOSDrive::getDtaDevOSDrive`
(the drive, the device information and `accessDenied` afterwards) and the
overload `getDtaDevOS(devref, drive, device_info, genericIfNotTPer)` that makes
the device object; the overload is defined outside the files at hand. -/
structure EntryHost (Drive Dev : Type) where
  zeroedDeviceInfo : DTA_DEVICE_INFO
  getDtaDevOSDrive : String → DTA_DEVICE_INFO → Bool → Option Drive × DTA_DEVICE_INFO × Bool
  getDtaDevOS_withDrive : String → Drive → DTA_DEVICE_INFO → Bool → Option Dev

/-- Outcome of `getDtaDevOS`: the code returned, `*pdev` afterwards and the drives
deleted. -/
structure GetDtaDevOSResult (Drive Dev : Type) where
  rc : DTAERROR
  pdev : Option Dev
  deleted : List Drive

/-- Embedding of `DtaDevOS::getDtaDevOS(devref, pdev, genericIfNotTPer)`. -/
def DtaDevOS.getDtaDevOS {Drive Dev : Type} (host : EntryHost Drive Dev) (devref : String)
    (genericIfNotTPer : Bool) : GetDtaDevOSResult Drive Dev :=
  let accessDenied := false
  let acquired := host.getDtaDevOSDrive devref host.zeroedDeviceInfo accessDenied
  match acquired.1 with
  | none =>
      { rc := if acquired.2.2 then .DTAERROR_DEVICE_ACCESS_DENIED
              else .DTAERROR_COMMAND_ERROR,
        pdev := none, deleted := [] }
  | some drive =>
      if acquired.2.2 then
        { rc := .DTAERROR_DEVICE_ACCESS_DENIED, pdev := none, deleted := [] }
      else
        match host.getDtaDevOS_withDrive devref drive acquired.2.1 genericIfNotTPer with
        | none =>
            { rc := if acquired.2.2 then .DTAERROR_DEVICE_ACCESS_DENIED
                    else .DTAERROR_COMMAND_ERROR,
              pdev := none, deleted := [drive] }
        | some dev => { rc := .DTAERROR_SUCCESS, pdev := some dev, deleted := [] }

/-! ## Handle release (`closeDrive` and the destructors) -/

/-- The drive object as far as its handle goes. -/
structure DriveState where
  osDeviceHandle : Int
  deriving DecidableEq, Repr

/-- The class whose `isOpen` a virtual call reaches. -/
inductive DriveClass where
  | DtaDevOSDrive
  | DtaDevLinuxDrive
  | DtaDevWindowsDrive
  | DtaDevMacOSDrive
  deriving DecidableEq, Repr

/-- Embedding of `DtaDevOSDrive::isOpen`. -/
def DtaDevOSDrive.isOpen (d : DriveState) : Bool :=
  d.osDeviceHandle != INVALID_HANDLE_VALUE

/-- The virtual `isOpen()`: `DtaDevLinuxDrive` adds the `fcntl` liveness test
(`descriptorAlive` says whether `fcntl(fd, F_GETFL) != -1 || errno != EBADF`),
`DtaDevWindowsDrive` repeats the base test, `DtaDevMacOSDrive` inherits it. -/
def isOpen (cls : DriveClass) (descriptorAlive : Int → Bool) (d : DriveState) : Bool :=
  match cls with
  | .DtaDevLinuxDrive => DtaDevOSDrive.isOpen d && descriptorAlive d.osDeviceHandle
  | .DtaDevWindowsDrive => d.osDeviceHandle != INVALID_HANDLE_VALUE
  | _ => DtaDevOSDrive.isOpen d

/-- Embedding of `DtaDevOSDrive::closeDrive`, called on an object whose dynamic
class is `cls`: the drive afterwards and the calls of `closeDeviceHandle`. -/
def closeDrive (cls : DriveClass) (descriptorAlive : Int → Bool) (d : DriveState) :
    DriveState × List OsEvent :=
  if isOpen cls descriptorAlive d then
    ({ osDeviceHandle := INVALID_HANDLE_VALUE }, [OsEvent.closeCall d.osDeviceHandle])
  else (d, [])

/-- Destruction of a drive of class `cls`: `~DtaDevWindowsDrive` calls
`closeDrive`, and then, as for every class, `~DtaDevOSDrive` calls `closeDrive`
on what is by then a plain `DtaDevOSDrive`. -/
def destroyDrive (cls : DriveClass) (descriptorAlive : Int → Bool) (d : DriveState) :
    DriveState × List OsEvent :=
  match cls with
  | .DtaDevWindowsDrive =>
      let first := closeDrive .DtaDevWindowsDrive descriptorAlive d
      let second := closeDrive .DtaDevOSDrive descriptorAlive first.1
      (second.1, first.2 ++ second.2)
  | _ => closeDrive .DtaDevOSDrive descriptorAlive d

/-- One step in the life of a drive: an explicit `closeDrive` or the destruction,
each with the answer the liveness test would give at that moment. -/
inductive DriveOp where
  | close (cls : DriveClass) (descriptorAlive : Int → Bool) : DriveOp
  | destroy (cls : DriveClass) (descriptorAlive : Int → Bool) : DriveOp

/-- A sequence of steps applied to a drive. -/
def runDriveOps : List DriveOp → DriveState → DriveState × List OsEvent
  | [], d => (d, [])
  | .close cls alive :: ops, d =>
      let r := closeDrive cls alive d
      let rest := runDriveOps ops r.1
      (rest.1, r.2 ++ rest.2)
  | .destroy cls alive :: ops, d =>
      let r := destroyDrive cls alive d
      let rest := runDriveOps ops r.1
      (rest.1, r.2 ++ rest.2)

/-! ## `DtaDevLinuxDrive::openAndCheckDeviceHandle` -/

/-- The errno value `EPERM`. -/
def EPERM : Int := 1

/-- Embedding of `DtaDevLinuxDrive::openAndCheckDeviceHandle`: the handle
returned, `accessDenied` afterwards, and the opens made. -/
def DtaDevLinuxDrive.openAndCheckDeviceHandle (os : LinuxHost) (devref : String)
    (accessDenied : Bool) : Int × Bool × List OsEvent :=
  if DtaDevLinuxDrive.isDtaDevLinuxDriveDevRef os devref then
    (INVALID_HANDLE_VALUE, accessDenied, [])
  else if os.access devref ≠ 0 then (INVALID_HANDLE_VALUE, true, [])
  else
    let opened := DtaDevLinuxDrive.openDeviceHandle os devref false
    if opened.2 then (INVALID_HANDLE_VALUE, opened.2, [OsEvent.openCall devref])
    else
      let descriptor := opened.1
      if descriptor < 0 then
        if -EPERM = descriptor then (INVALID_HANDLE_VALUE, true, [OsEvent.openCall devref])
        else (INVALID_HANDLE_VALUE, opened.2, [OsEvent.openCall devref])
      else (opened.1, opened.2, [OsEvent.openCall devref])

/-! ## Linux property introspection (`getOSSpecificInformation`) and the factory -/

/-- The operating-system services used by the Linux introspector:
`ioctl(fd, BLKGETSIZE64, &devSize)` (result and `devSize` afterwards, starting
from 0) and `sd_device_new_from_devname` followed by the property iteration
(result and the properties in iteration order). -/
structure UdevHost where
  blkgetsize64 : Int → Int × Nat
  sd_device_new_from_devname : String → Int × List (String × String)

/-- The `dictionary` (`std::map<std::string, std::string>`) as an association list
with one entry per key. -/
abbrev dictionary := List (String × String)

/-- The assignment `deviceProperties[key] = value`. -/
def dictionary.assign (d : dictionary) (key value : String) : dictionary :=
  if d.any (fun kv => kv.1 == key) then
    d.map (fun kv => if kv.1 == key then (key, value) else kv)
  else d ++ [(key, value)]

/-- The member `count(key)`. -/
def dictionary.count (d : dictionary) (key : String) : Nat :=
  if (d.lookup key).isSome then 1 else 0

/-- The value of `deviceProperties[key]` read as an rvalue: the stored string, or
the empty string for a key that was absent. -/
def dictionary.index (d : dictionary) (key : String) : String :=
  (d.lookup key).getD ""

/-- The dictionary after `deviceProperties[key]` was evaluated: an absent key is
inserted with the empty string. -/
def dictionary.afterIndex (d : dictionary) (key : String) : dictionary :=
  if (d.lookup key).isSome then d else d ++ [(key, "")]

/-- The bytes `c_str()` yields up to `strlen`: the UTF-8 bytes of the property
value, up to the first NUL. -/
def c_str (s : String) : List Nat :=
  ((s.toList.flatMap String.utf8EncodeChar).map UInt8.toNat).takeWhile (fun c => c != 0)

/-- The macro `getDeviceProperty(key, field)` of `getOSSpecificInformation`. -/
def getDeviceProperty (deviceProperties : dictionary) (key : String) (field : List Nat) :
    List Nat :=
  if dictionary.count deviceProperties key = 1 then
    safecopy field (c_str (dictionary.index deviceProperties key)) 0
  else field

/-- Effect of `memcpy(dst + off, src, n)` on the array at `dst`. -/
def memcpyAt (dst : List Nat) (off : Nat) (src : List Nat) (n : Nat) : List Nat :=
  dst.take off ++ readBytes src n ++ dst.drop (off + n)

/-- Modelled from the spec: the widths of the Standard Inquiry identification
fields, declared outside the files at hand: vendor 8 bytes. -/
def INQUIRY_VENDOR_IDENTIFICATION_Length : Nat := 8

/-- Modelled from the spec: product identification, 16 bytes. -/
def INQUIRY_PRODUCT_IDENTIFICATION_Length : Nat := 16

/-- Modelled from the spec: product revision level, 4 bytes. -/
def INQUIRY_PRODUCT_REVISION_LEVEL_Length : Nat := 4

/-- Outcome of `getOSSpecificInformation`: the dictionary returned (`none` for
`NULL`), the identification blob and the device information afterwards. -/
structure OsSpecificInformation where
  parameters : Option dictionary
  interfaceDeviceIdentification : List Nat
  device_info : DTA_DEVICE_INFO
  deriving DecidableEq, Repr

/-- The `if (bus == ...)` cascade at the end of `getOSSpecificInformation`, which
starts from the `DEVICE_TYPE_OTHER` assigned on entry. -/
def devTypeOfBus (bus usbDriver : String) (entry : DTA_DEVICE_TYPE) : DTA_DEVICE_TYPE :=
  if bus == "scsi" then .DEVICE_TYPE_SCSI
  else if bus == "usb" then
    if usbDriver == "uas" then .DEVICE_TYPE_SAS else entry
  else if bus == "ata" then
    if usbDriver == "uas" then .DEVICE_TYPE_SATA else .DEVICE_TYPE_ATA
  else if bus == "nvme" then .DEVICE_TYPE_NVME
  else entry

/-- Embedding of the Linux `getOSSpecificInformation` (`linux/DtaDevOSFactory.cpp`).
The handle is its own descriptor. -/
def Linux.getOSSpecificInformation (udev : UdevHost) (osDeviceHandle : Int) (devref : String)
    (interfaceDeviceIdentification : List Nat) (device_info : DTA_DEVICE_INFO) :
    OsSpecificInformation :=
  let di0 := { device_info with devType := .DEVICE_TYPE_OTHER }
  let sized := udev.blkgetsize64 osDeviceHandle
  -- a negative result is reported on stderr, nothing else
  let di1 := { di0 with devSize := sized.2 }
  let device := udev.sd_device_new_from_devname devref
  if device.1 < 0 then
    { parameters := none, interfaceDeviceIdentification := interfaceDeviceIdentification,
      device_info := di1 }
  else
    let deviceProperties : dictionary :=
      device.2.foldl (fun d kv => dictionary.assign d kv.1 kv.2) []
    let di2 := { di1 with
      serialNum := getDeviceProperty deviceProperties "ID_SERIAL_SHORT" di1.serialNum }
    let di3 := { di2 with
      modelNum := getDeviceProperty deviceProperties "ID_MODEL" di2.modelNum }
    let di4 := { di3 with
      firmwareRev := getDeviceProperty deviceProperties "ID_REVISION" di3.firmwareRev }
    let di5 := { di4 with
      vendorID := getDeviceProperty deviceProperties "ID_VENDOR" di4.vendorID }
    let di6 := { di5 with
      passwordSalt := memcpy di5.passwordSalt di5.serialNum di5.passwordSalt.length }
    let id1 := memcpyAt interfaceDeviceIdentification 0 di6.vendorID
      INQUIRY_VENDOR_IDENTIFICATION_Length
    let id2 := memcpyAt id1 INQUIRY_VENDOR_IDENTIFICATION_Length di6.modelNum
      INQUIRY_PRODUCT_IDENTIFICATION_Length
    let id3 := memcpyAt id2
      (INQUIRY_VENDOR_IDENTIFICATION_Length + INQUIRY_PRODUCT_IDENTIFICATION_Length)
      di6.firmwareRev INQUIRY_PRODUCT_REVISION_LEVEL_Length
    let bus := dictionary.index deviceProperties "ID_BUS"
    let props1 := dictionary.afterIndex deviceProperties "ID_BUS"
    let usbDriver := dictionary.index props1 "ID_USB_DRIVER"
    let props2 :=
      if bus == "usb" || bus == "ata" then
        dictionary.afterIndex props1 "ID_USB_DRIVER"
      else props1
    { parameters := some props2, interfaceDeviceIdentification := id3,
      device_info := { di6 with devType := devTypeOfBus bus usbDriver di6.devType } }

/-- Outcome of `DtaDevLinuxDrive::getDtaDevLinuxDrive`: the drive returned,
`device_info` and `accessDenied` afterwards, the world the subclass getters
acted on, the transports attempted and the opens and closes made by the factory
itself. -/
structure LinuxDriveResult (Drive W : Type) where
  drive : Option Drive
  device_info : DTA_DEVICE_INFO
  accessDenied : Bool
  world : W
  attempts : List Variant
  events : List OsEvent

/-- Embedding of `DtaDevLinuxDrive::getDtaDevLinuxDrive`. -/
def DtaDevLinuxDrive.getDtaDevLinuxDrive {Drive W : Type} (os : LinuxHost) (udev : UdevHost)
    (host : FactoryHost Drive W) (devref : String) (device_info : DTA_DEVICE_INFO)
    (accessDenied : Bool) (world : W) : LinuxDriveResult Drive W :=
  let opened := DtaDevLinuxDrive.openDeviceHandle os devref accessDenied
  if opened.1 = INVALID_HANDLE_VALUE ∨ opened.2 = true then
    { drive := none, device_info := device_info, accessDenied := opened.2, world := world,
      attempts := [], events := [OsEvent.openCall devref] }
  else
    let interfaceDeviceIdentification := List.replicate sizeof_InterfaceDeviceID 0
    let info := Linux.getOSSpecificInformation udev opened.1 devref
      interfaceDeviceIdentification device_info
    let events := [OsEvent.openCall devref, OsEvent.closeCall opened.1]
    match info.parameters with
    | none =>
        { drive := none, device_info := info.device_info, accessDenied := opened.2,
          world := world, attempts := [], events := events }
    | some _ =>
        let st := getDtaDevLinuxDrive_switch host devref info.interfaceDeviceIdentification
          (Dispatch.start info.device_info world)
        { drive := st.drive, device_info := st.device_info, accessDenied := opened.2,
          world := st.world, attempts := st.attempts, events := events }

/-! ## Sample data -/

/-- A zero-valued device information record of type USB with the usual field
widths: 8-byte vendor, 40-byte model, 8-byte firmware revision, 20-byte serial
number and 20-byte password salt. -/
def sampleDeviceInfo : DTA_DEVICE_INFO :=
  { devType := .DEVICE_TYPE_USB, devSize := 0, vendorID := List.replicate 8 0,
    modelNum := List.replicate 40 0, firmwareRev := List.replicate 8 0,
    serialNum := List.replicate 20 0, passwordSalt := List.replicate 20 0 }

/-- A 256-byte page 80h response reporting the 21-character serial number
`ABCDEFGHIJKLMNOPQRSTU`. -/
def longSerialResponse : List Nat :=
  [0, 0x80, 0, 21] ++
    [65, 66, 67, 68, 69, 70, 71, 72, 73, 74, 75, 76, 77, 78, 79, 80, 81, 82, 83, 84, 85] ++
    List.replicate 231 0

/-- A 256-byte page 80h response reporting the 4-character serial number `ABCD`. -/
def shortSerialResponse : List Nat :=
  [0, 0x80, 0, 4, 65, 66, 67, 68] ++ List.replicate 248 0

/-- A fingerprint without quirks. -/
def plainId : List Nat := List.replicate 28 0

/-- A fingerprint for which the quirk table asks for every special action. -/
def quirkyId : List Nat := List.replicate 28 1

/-- A quirk table that flags exactly `quirkyId`. -/
def sampleQuirks (id : List Nat) (_action : SpecialAction) : Bool := id == quirkyId

/-- A host whose SCSI getter yields drive 1 and whose other getters yield no
drive; its quirk table is `sampleQuirks`. -/
def sampleHost : FactoryHost Nat Unit :=
  { deviceNeedsSpecialAction := sampleQuirks
    getSubclass := fun variant _ di w => (if variant = .Scsi then some 1 else none, di, w) }

/-- A zero-valued device information record of type NVMe. -/
def sampleNvmeInfo : DTA_DEVICE_INFO :=
  { sampleDeviceInfo with devType := .DEVICE_TYPE_NVME }

/-- A 36-byte Standard Inquiry response: vendor `ATA`, product `SAMPLE DISK`,
revision `1.0`. -/
def sampleStandardData : List Nat :=
  [0, 0, 5, 2, 31, 0, 0, 0] ++ [65, 84, 65, 32, 32, 32, 32, 32]
    ++ [83, 65, 77, 80, 76, 69, 32, 68, 73, 83, 75, 32, 32, 32, 32, 32] ++ [49, 46, 48, 32]

/-- A successful transfer that puts `response` at the start of the data buffer. -/
def answeringReply (response : List Nat) (sg : SgIoHdr) : SgReply :=
  { result := 0, resid := 0, sb_len_wr := 0, masked_status := 0,
    data := response ++ sg.dxferp.drop response.length }

/-- A device that answers the Standard Inquiry with `sampleStandardData` and the
page 00h and page 80h inquiries with the given responses, or rejects them when
none is given. -/
def sampleScsiIoctl (page00 page80 : Option (List Nat)) (fd : Int) (sg : SgIoHdr) : SgReply :=
  if sg.cmdp.getD 1 0 = 0 then answeringReply sampleStandardData sg
  else if sg.cmdp.getD 2 0 = 0 then
    match page00 with
    | some response => answeringReply response sg
    | none => rejectingIoctl fd sg
  else
    match page80 with
    | some response => answeringReply response sg
    | none => rejectingIoctl fd sg

/-- The inquiry surroundings for `sampleScsiIoctl`: every allocation yields a
zeroed 2048-byte buffer and the Standard Inquiry data is 36 bytes. -/
def sampleInquiryHost (page00 page80 : Option (List Nat)) : InquiryHost :=
  { ioctl := sampleScsiIoctl page00 page80, timeout := 0, sizeofStandardData := 36,
    allocStandard := some (List.replicate 2048 0),
    allocPage00 := some (List.replicate 2048 0),
    allocPage80 := some (List.replicate 2048 0),
    deviceNeedsSpecialAction := sampleQuirks }

/-- The reply to a command the device rejects: the ioctl itself returns 0, the
target status is CHECK CONDITION, 18 sense bytes are written and no data is
transferred. -/
def checkConditionReply (sg : SgIoHdr) : SgReply :=
  { result := 0, resid := sg.dxfer_len, sb_len_wr := 18, masked_status := CHECK_CONDITION,
    data := sg.dxferp }

/-- A device that answers the Standard Inquiry with `sampleStandardData`, the page
00h inquiry with a list declaring 00h, 80h and 83h, and rejects the page 80h
inquiry with CHECK CONDITION. -/
def page80CheckConditionIoctl (_fd : Int) (sg : SgIoHdr) : SgReply :=
  if sg.cmdp.getD 1 0 = 0 then answeringReply sampleStandardData sg
  else if sg.cmdp.getD 2 0 = 0 then answeringReply [0, 0, 0, 3, 0x00, 0x80, 0x83] sg
  else checkConditionReply sg

/-- The inquiry surroundings for `page80CheckConditionIoctl`. -/
def page80CheckConditionHost : InquiryHost :=
  { ioctl := page80CheckConditionIoctl, timeout := 0, sizeofStandardData := 36,
    allocStandard := some (List.replicate 2048 0),
    allocPage00 := some (List.replicate 2048 0),
    allocPage80 := some (List.replicate 2048 0),
    deviceNeedsSpecialAction := sampleQuirks }

/-- A device that rejects the Standard Inquiry with CHECK CONDITION, answers the
page 00h inquiry with a list declaring 00h, 80h and 83h, and answers the page 80h
inquiry with the serial number `ABCD`. -/
def standardCheckConditionIoctl (_fd : Int) (sg : SgIoHdr) : SgReply :=
  if sg.cmdp.getD 1 0 = 0 then checkConditionReply sg
  else if sg.cmdp.getD 2 0 = 0 then answeringReply [0, 0, 0, 3, 0x00, 0x80, 0x83] sg
  else answeringReply [0, 0x80, 0, 4, 65, 66, 67, 68] sg

/-- The inquiry surroundings for `standardCheckConditionIoctl`. -/
def standardCheckConditionHost : InquiryHost :=
  { ioctl := standardCheckConditionIoctl, timeout := 0, sizeofStandardData := 36,
    allocStandard := some (List.replicate 2048 0),
    allocPage00 := some (List.replicate 2048 0),
    allocPage80 := some (List.replicate 2048 0),
    deviceNeedsSpecialAction := sampleQuirks }

/-- A page 00h response that declares pages 00h and 80h but not 83h. -/
def page00WithoutPage83 : List Nat := [0, 0, 0, 2, 0x00, 0x80]

/-- A page 00h response that declares pages 00h, 80h and 83h. -/
def page00Complete : List Nat := [0, 0, 0, 3, 0x00, 0x80, 0x83]

/-- A Linux system where `/dev/sdb` opens as descriptor 3, opening `/dev/sdc` is
refused with `EACCES`, nothing else exists, and no reference is an NVMe one. -/
def sampleLinuxHost : LinuxHost :=
  { openRdwr := fun devref =>
      if devref == "/dev/sdb" then (3, 0)
      else if devref == "/dev/sdc" then (-1, EACCES) else (-1, ENOENT)
    access := fun _ => 0
    readdirDev := some [".", "..", "sdc", "sdb", "tty0"]
    isDtaDevLinuxNvmeDevRef := fun _ => false }

/-- An ATA identification that never recognises the device. -/
def sampleAtaIdentify (_osDeviceHandle : Int) (_id : List Nat) (di : DTA_DEVICE_INFO) :
    Bool × DTA_DEVICE_INFO × List SgIoHdr :=
  (false, di, [])

/-- A Windows system with four disk numbers where drive 0 opens as handle 7,
opening drive 1 is refused with `ERROR_ACCESS_DENIED`, the volume `\\.\C:` opens
as handle 9, and nothing else exists (error 2). -/
def sampleWindowsHost : WindowsHost :=
  { createFile := fun devref =>
      if devref == "\\\\.\\PhysicalDrive0" then (7, 0)
      else if devref == "\\\\.\\PhysicalDrive1" then (-1, ERROR_ACCESS_DENIED)
      else if devref == "\\\\.\\C:" then (9, 0) else (-1, 2)
    MAX_DISKS := 4 }

/-- A page 80h transfer whose `PAGE_LENGTH` byte is 255: the 256 bytes requested
hold the header and 252 characters `A`; `tail` is what lies in the buffer
behind them. -/
def fullLengthSerialResponse (tail : List Nat) : List Nat :=
  [0, 0x80, 0, 255] ++ List.replicate 252 65 ++ tail

/-- A device information record that the property introspector has filled in:
vendor `OLDVEND`, model `OLD MODEL`, revision `0.9`, serial number `SER0001`. -/
def identifiedDeviceInfo : DTA_DEVICE_INFO :=
  { devType := .DEVICE_TYPE_SCSI, devSize := 0,
    vendorID := [79, 76, 68, 86, 69, 78, 68, 32],
    modelNum := [79, 76, 68, 32, 77, 79, 68, 69, 76] ++ List.replicate 31 32,
    firmwareRev := [48, 46, 57, 32, 32, 32, 32, 32],
    serialNum := [83, 69, 82, 48, 48, 48, 49] ++ List.replicate 13 32,
    passwordSalt := [83, 69, 82, 48, 48, 48, 49] ++ List.replicate 13 32 }

/-- A Discovery host with a 2048-byte buffer holding stale bytes, whose `sendCmd`
reports status `status` and leaves the buffer as it found it, and whose feature
parser records the first response byte as the device size. -/
def sampleDiscovery0Host (status : Nat) : Discovery0Host :=
  { MIN_BUFFER_LENGTH := 2048
    alloc := some (List.replicate 2048 0xAA)
    sendCmd := fun _ _ _ buffer _ => (status, buffer)
    parseDiscovery0Features := fun response di => { di with devSize := response.getD 0 0 + 1 } }

/-- A Linux system like `sampleLinuxHost` on which `/dev/tty0` too opens read-write,
as descriptor 4. -/
def sampleLinuxHostTty : LinuxHost :=
  { openRdwr := fun devref =>
      if devref == "/dev/sdb" then (3, 0)
      else if devref == "/dev/tty0" then (4, 0) else (-1, ENOENT)
    access := fun _ => 0
    readdirDev := some [".", "..", "sdb", "tty0"]
    isDtaDevLinuxNvmeDevRef := fun _ => false }

/-- A udev whose size ioctl fails with `-ENOTTY` while the device record is found,
with bus `scsi`. -/
def failingSizeUdev : UdevHost :=
  { blkgetsize64 := fun _ => (-25, 0)
    sd_device_new_from_devname := fun _ =>
      (0, [("ID_BUS", "scsi"), ("ID_MODEL", "SAMPLE DISK"), ("ID_SERIAL_SHORT", "S123")]) }

/-- A udev whose size ioctl succeeds while no device record can be allocated. -/
def failingRecordUdev : UdevHost :=
  { blkgetsize64 := fun _ => (0, 1000204886016)
    sd_device_new_from_devname := fun _ => (-12, []) }

/-- A udev reporting the given properties. -/
def sampleUdev (properties : List (String × String)) : UdevHost :=
  { blkgetsize64 := fun _ => (0, 1000204886016)
    sd_device_new_from_devname := fun _ => (0, properties) }

/-! ## Theorems -/

/-! ### Transport command codec -/

theorem sendCmdCdb_recv_eq (p c n : Nat) (hp : p < 256) (hc : c < 65536)
    (hn : n < 4294967296) :
    sendCmdCdb .IF_RECV p c n = some (.PSC_FROM_DEV,
      [CScsiCmdSecurityProtocolIn_OPCODE, p, c / 256, c % 256, 128, 0,
        n / 512 / 16777216 % 256, n / 512 / 65536 % 256, n / 512 / 256 % 256,
        n / 512 % 256, 0, 0]) := by
  have h1 : p % 256 = p := Nat.mod_eq_of_lt hp
  have h2 : c % 65536 = c := Nat.mod_eq_of_lt hc
  have h3 : n % 4294967296 = n := Nat.mod_eq_of_lt hn
  have h4 : c / 256 % 256 = c / 256 := by omega
  simp [sendCmdCdb, securityProtocolCdb, htons, htonl,
    CScsiCmdSecurityProtocolIn_OPCODE, h1, h2, h3, h4]

theorem sendCmd_submissions_of_cdb (ioctl : Int → SgIoHdr → SgReply) (timeout : Nat)
    (h : Int) (cmd : ATACOMMAND) (p c : Nat) (buf : List Nat) (n : Nat)
    (dir : DxferDirection) (cdb : List Nat) (hh : h ≠ INVALID_HANDLE_VALUE)
    (hcdb : sendCmdCdb cmd p c n = some (dir, cdb)) :
    (sendCmd ioctl timeout h cmd p c buf n).submissions =
      [{ dxfer_direction := dir, cmd_len := 12, mx_sb_len := 32,
         dxfer_len := n % 4294967296, dxferp := buf, cmdp := cdb, timeout := timeout }] := by
  unfold sendCmd
  rw [hcdb]
  simp only [sendCmdPerform, PerformSCSICommand, if_neg hh]
  split_ifs <;> rfl

/-- C1: for every protocol `p`, ComID `c` and buffer length `n`,
`sendCmd(IF_RECV, p, c, buf, n)` builds the 12-byte CDB whose byte 0 is the
SECURITY PROTOCOL IN opcode, byte 1 is `p`, bytes 2-3 are `c` big-endian, byte 4
has only the `INC_512` bit set, bytes 6-9 are `n / 512` big-endian and all other
bits are zero; on an open handle exactly this CDB is submitted. -/
theorem C1_sendCmd_recv_cdb (p c n : Nat) (hp : p < 256) (hc : c < 65536)
    (hn : n < 4294967296) :
    sendCmdCdb .IF_RECV p c n =
        some (.PSC_FROM_DEV,
          [CScsiCmdSecurityProtocolIn_OPCODE, p, c / 256, c % 256, 128, 0,
            n / 512 / 16777216 % 256, n / 512 / 65536 % 256, n / 512 / 256 % 256,
            n / 512 % 256, 0, 0])
      ∧ beValue [c / 256, c % 256] = c
      ∧ beValue [n / 512 / 16777216 % 256, n / 512 / 65536 % 256, n / 512 / 256 % 256,
          n / 512 % 256] = n / 512
      ∧ ∀ (ioctl : Int → SgIoHdr → SgReply) (timeout : Nat) (h : Int) (buf : List Nat),
          h ≠ INVALID_HANDLE_VALUE →
          (sendCmd ioctl timeout h .IF_RECV p c buf n).submissions =
            [{ dxfer_direction := .PSC_FROM_DEV, cmd_len := 12, mx_sb_len := 32,
               dxfer_len := n, dxferp := buf,
               cmdp := [CScsiCmdSecurityProtocolIn_OPCODE, p, c / 256, c % 256, 128, 0,
                 n / 512 / 16777216 % 256, n / 512 / 65536 % 256, n / 512 / 256 % 256,
                 n / 512 % 256, 0, 0],
               timeout := timeout }] := by
  have hcdb := sendCmdCdb_recv_eq p c n hp hc hn
  refine ⟨hcdb, ?_, ?_, ?_⟩
  · simp only [beValue, List.foldl]
    omega
  · simp only [beValue, List.foldl]
    omega
  · intro ioctl timeout h buf hh
    have := sendCmd_submissions_of_cdb ioctl timeout h .IF_RECV p c buf n _ _ hh hcdb
    rw [Nat.mod_eq_of_lt hn] at this
    exact this

/-- C1 at `p = 0x01`, `c = 0x0001`, `n = 512`: the protocol specific bytes are
`00 01` and the length field is `00 00 00 01`. -/
theorem C1_sendCmd_recv_cdb_witness :
    sendCmdCdb .IF_RECV 1 1 512 =
      some (.PSC_FROM_DEV, [0xA2, 0x01, 0x00, 0x01, 0x80, 0, 0x00, 0x00, 0x00, 0x01, 0, 0]) :=
  (C1_sendCmd_recv_cdb 1 1 512 (by decide) (by decide) (by decide)).1

/-- C2 (evaluation of the code): for every protocol, ComID and buffer length the
CDB built for `IF_SEND` has in byte 0 the SECURITY PROTOCOL IN opcode, the same
byte as the CDB built for `IF_RECV`, and not the SECURITY PROTOCOL OUT opcode. -/
theorem C2_sendCmd_send_opcode (p c n : Nat) :
    (sendCmdCdb .IF_SEND p c n).map (fun r => r.2.head?)
        = some (some CScsiCmdSecurityProtocolIn_OPCODE)
      ∧ (sendCmdCdb .IF_SEND p c n).map (fun r => r.2.head?)
        = (sendCmdCdb .IF_RECV p c n).map (fun r => r.2.head?)
      ∧ (sendCmdCdb .IF_SEND 1 1 512).map (fun r => r.2.head?)
        ≠ some (some CScsiCmdSecurityProtocolOut_OPCODE) := by
  refine ⟨?_, ?_, ?_⟩
  · simp [sendCmdCdb, securityProtocolCdb, CScsiCmdSecurityProtocolIn_OPCODE]
  · simp [sendCmdCdb, securityProtocolCdb]
  · decide

/-- C3: for `IF_RECV` and `IF_SEND`, `sendCmd` returns only `0x00` or `0xff`; it
returns `0xff` when the result of the pass-through submission is negative, `0xff`
when the result is non-negative and the masked status is not `GOOD`, and `0x00`
exactly when the result is non-negative and the status is `GOOD`. -/
theorem C3_sendCmd_status (ioctl : Int → SgIoHdr → SgReply) (timeout : Nat) (h : Int)
    (cmd : ATACOMMAND) (p c : Nat) (buf : List Nat) (n : Nat)
    (hcmd : cmd = .IF_RECV ∨ cmd = .IF_SEND) :
    ∃ dir cdb, sendCmdCdb cmd p c n = some (dir, cdb) ∧
      ((sendCmd ioctl timeout h cmd p c buf n).status = 0x00
        ∨ (sendCmd ioctl timeout h cmd p c buf n).status = 0xff)
      ∧ ((sendCmdPerform ioctl timeout h dir cdb buf n).result < 0 →
          (sendCmd ioctl timeout h cmd p c buf n).status = 0xff)
      ∧ (0 ≤ (sendCmdPerform ioctl timeout h dir cdb buf n).result →
          (sendCmdPerform ioctl timeout h dir cdb buf n).masked_status ≠ GOOD →
          (sendCmd ioctl timeout h cmd p c buf n).status = 0xff)
      ∧ ((sendCmd ioctl timeout h cmd p c buf n).status = 0x00 ↔
          0 ≤ (sendCmdPerform ioctl timeout h dir cdb buf n).result
            ∧ (sendCmdPerform ioctl timeout h dir cdb buf n).masked_status = GOOD) := by
  have key : ∀ dir cdb, sendCmdCdb cmd p c n = some (dir, cdb) →
      ((sendCmd ioctl timeout h cmd p c buf n).status = 0x00
        ∨ (sendCmd ioctl timeout h cmd p c buf n).status = 0xff)
      ∧ ((sendCmdPerform ioctl timeout h dir cdb buf n).result < 0 →
          (sendCmd ioctl timeout h cmd p c buf n).status = 0xff)
      ∧ (0 ≤ (sendCmdPerform ioctl timeout h dir cdb buf n).result →
          (sendCmdPerform ioctl timeout h dir cdb buf n).masked_status ≠ GOOD →
          (sendCmd ioctl timeout h cmd p c buf n).status = 0xff)
      ∧ ((sendCmd ioctl timeout h cmd p c buf n).status = 0x00 ↔
          0 ≤ (sendCmdPerform ioctl timeout h dir cdb buf n).result
            ∧ (sendCmdPerform ioctl timeout h dir cdb buf n).masked_status = GOOD) := by
    intro dir cdb hcdb
    unfold sendCmd
    rw [hcdb]
    dsimp only
    by_cases h1 : (sendCmdPerform ioctl timeout h dir cdb buf n).result < 0
    · rw [if_pos h1]
      refine ⟨Or.inr rfl, fun _ => rfl, fun _ _ => rfl, ?_⟩
      constructor
      · intro hx; exact absurd hx (show (255 : Nat) ≠ 0 by decide)
      · intro hx; omega
    · by_cases h2 : (sendCmdPerform ioctl timeout h dir cdb buf n).masked_status ≠ GOOD
      · rw [if_neg h1, if_pos h2]
        refine ⟨Or.inr rfl, fun _ => rfl, fun _ _ => rfl, ?_⟩
        constructor
        · intro hx; exact absurd hx (show (255 : Nat) ≠ 0 by decide)
        · intro hx; exact absurd hx.2 h2
      · rw [if_neg h1, if_neg h2]
        refine ⟨Or.inl rfl, fun hx => absurd hx h1, fun _ hx => absurd hx h2, ?_⟩
        constructor
        · intro _; exact ⟨by omega, not_not.mp h2⟩
        · intro _; rfl
  rcases hcmd with rfl | rfl
  · exact ⟨_, _, rfl, key _ _ rfl⟩
  · exact ⟨_, _, rfl, key _ _ rfl⟩

/-- C3 on a submission that the kernel rejects (result -1): the status is `0xff`. -/
theorem C3_sendCmd_status_witness :
    (sendCmd rejectingIoctl 0 3 .IF_RECV 1 1 [0, 0] 512).status = 0xff := by
  obtain ⟨dir, cdb, hcdb, -, hneg, -, -⟩ :=
    C3_sendCmd_status rejectingIoctl 0 3 .IF_RECV 1 1 [0, 0] 512 (Or.inl rfl)
  apply hneg
  simp only [sendCmdCdb] at hcdb
  obtain ⟨rfl, rfl⟩ := Prod.mk.inj (Option.some.inj hcdb).symm
  decide

/-- C4: for every command value other than `IF_RECV` and `IF_SEND`, `sendCmd`
returns `0xff`, makes no pass-through submission and leaves the caller's buffer
as it was. -/
theorem C4_sendCmd_unknown (ioctl : Int → SgIoHdr → SgReply) (timeout : Nat) (h : Int)
    (code : Nat) (p c : Nat) (buf : List Nat) (n : Nat) :
    sendCmd ioctl timeout h (.other code) p c buf n
      = { status := 0xff, buffer := buf, submissions := [] } := by
  rfl

/-! ### Copy policy -/

theorem isAllNULs_eq_true_iff (src : List Nat) :
    __is_all_NULs src = true ↔ ∀ b ∈ src, b = 0 := by
  simp [__is_all_NULs, List.all_eq_true]

theorem readBytes_of_le (src : List Nat) (n : Nat) (h : n ≤ src.length) :
    readBytes src n = src.take n := by
  have h0 : n - src.length = 0 := by omega
  simp [readBytes, h0]

/-- Closed form of the copy shared by `safecopy` and `softcopy`. -/
theorem copy_closed_form (dst src : List Nat) (fill : Nat) :
    (if dst.length ≤ src.length then memcpy dst src dst.length
      else memset (memcpy dst src src.length) src.length fill (dst.length - src.length))
    = if dst.length ≤ src.length then src.take dst.length
      else src ++ List.replicate (dst.length - src.length) fill := by
  split_ifs with h
  · simp [memcpy, readBytes_of_le src dst.length h]
  · have h1 : src.length + (dst.length - src.length) = dst.length := by omega
    have h2 : readBytes src src.length = src := by
      rw [readBytes_of_le src src.length le_rfl]; simp
    have h3 : dst.length - src.length - (dst.length - src.length) = 0 := by omega
    simp [memcpy, memset, h1, h2, h3]

/-- C5: hard copy of a source whose bytes are all zero, whatever its length,
leaves every byte of the destination unchanged. -/
theorem C5_safecopy_all_zero (dst src : List Nat) (fill : Nat)
    (hsrc : ∀ b ∈ src, b = 0) : safecopy dst src fill = dst := by
  unfold safecopy
  rw [if_pos ((isAllNULs_eq_true_iff src).mpr hsrc)]

/-- C5 on an 8-byte field and a 4-byte all-zero source. -/
theorem C5_safecopy_all_zero_witness :
    safecopy [65, 66, 67, 32, 32, 32, 0, 0] [0, 0, 0, 0] 0 = [65, 66, 67, 32, 32, 32, 0, 0] :=
  C5_safecopy_all_zero [65, 66, 67, 32, 32, 32, 0, 0] [0, 0, 0, 0] 0 (by decide)

/-- C6: hard copy of a source with at least one non-zero byte makes the
destination the first `dstsize` bytes of the source when `dstsize <= srcsize`, and
the whole source followed by `dstsize - srcsize` fill bytes otherwise; the width
is kept and the result does not depend on the old content of the destination. -/
theorem C6_safecopy_nonzero (dst src : List Nat) (fill : Nat)
    (hsrc : ∃ b ∈ src, b ≠ 0) :
    safecopy dst src fill =
        (if dst.length ≤ src.length then src.take dst.length
          else src ++ List.replicate (dst.length - src.length) fill)
      ∧ (safecopy dst src fill).length = dst.length
      ∧ ∀ dst2 : List Nat, dst2.length = dst.length →
          safecopy dst2 src fill = safecopy dst src fill := by
  have hnz : ¬ (__is_all_NULs src = true) := by
    rw [isAllNULs_eq_true_iff]
    obtain ⟨b, hb, hb0⟩ := hsrc
    exact fun hall => hb0 (hall b hb)
  have hform : ∀ d : List Nat, safecopy d src fill =
      (if d.length ≤ src.length then src.take d.length
        else src ++ List.replicate (d.length - src.length) fill) := by
    intro d
    unfold safecopy
    rw [if_neg hnz]
    exact copy_closed_form d src fill
  refine ⟨hform dst, ?_, ?_⟩
  · rw [hform dst]
    split_ifs with h
    · simp [List.length_take, h]
    · simp only [List.length_append, List.length_replicate]
      omega
  · intro dst2 hlen
    rw [hform dst2, hform dst, hlen]

/-- C6 on a 6-byte field, a 2-byte source and the default fill byte. -/
theorem C6_safecopy_nonzero_witness :
    safecopy [1, 2, 3, 4, 5, 6] [65, 0] 0 = [65, 0, 0, 0, 0, 0] :=
  (C6_safecopy_nonzero [1, 2, 3, 4, 5, 6] [65, 0] 0 ⟨65, by decide, by decide⟩).1

theorem isBlankField_of_dropWhile_nil (dst : List Nat)
    (h : (dst.dropWhile (fun c => c == 32)).dropWhile (fun c => c == 0) = []) :
    IsBlankField dst := by
  refine ⟨(dst.takeWhile (fun c => c == 32)).length,
    (dst.dropWhile (fun c => c == 32)).length, ?_⟩
  have h1 : dst.takeWhile (fun c => c == 32)
      = List.replicate (dst.takeWhile (fun c => c == 32)).length 32 := by
    rw [List.eq_replicate_iff]
    refine ⟨rfl, ?_⟩
    intro b hb
    simpa using List.mem_takeWhile_imp hb
  have h2 : dst.dropWhile (fun c => c == 32)
      = List.replicate (dst.dropWhile (fun c => c == 32)).length 0 := by
    rw [List.eq_replicate_iff]
    refine ⟨rfl, ?_⟩
    intro b hb
    rw [List.dropWhile_eq_nil_iff] at h
    simpa using h b hb
  calc dst = dst.takeWhile (fun c => c == 32) ++ dst.dropWhile (fun c => c == 32) :=
        (List.takeWhile_append_dropWhile _ dst).symm
    _ = _ := by rw [← h1, ← h2]

/-- C7: soft copy into a destination that is not blank (not some leading blanks
followed only by NULs up to its full width) leaves every byte of the destination
unchanged, whatever the source. -/
theorem C7_softcopy_nonblank (dst src : List Nat) (fill : Nat)
    (hdst : ¬ IsBlankField dst) : softcopy dst src fill = dst := by
  have hp : (dst.dropWhile (fun c => c == 32)).dropWhile (fun c => c == 0) ≠ [] :=
    fun h => hdst (isBlankField_of_dropWhile_nil dst h)
  unfold softcopy
  by_cases h1 : __is_all_NULs src = true
  · rw [if_pos h1]
  · rw [if_neg h1]
    dsimp only
    rw [if_pos hp]

/-- C7 on a field that holds `A`, a blank and a NUL. -/
theorem C7_softcopy_nonblank_witness : softcopy [65, 32, 0] [66, 67, 68] 0 = [65, 32, 0] :=
  C7_softcopy_nonblank [65, 32, 0] [66, 67, 68] 0 (by
    rintro ⟨k, m, h⟩
    rcases k with _ | k <;> rcases m with _ | m <;> simp [List.replicate_succ] at h)

/-! ### In-place string reversal -/

theorem swap_getElem_opt (s : List Nat) (p q : Nat) (hp : p < s.length) (hq : q < s.length)
    (j : Nat) :
    ((s.set p (s.getD q 0)).set q (s.getD p 0))[j]?
      = if j = q then s[p]? else if j = p then s[q]? else s[j]? := by
  have e1 : s.getD p 0 = s[p] := by
    rw [List.getD_eq_getElem?_getD, List.getElem?_eq_getElem hp]; rfl
  have e2 : s.getD q 0 = s[q] := by
    rw [List.getD_eq_getElem?_getD, List.getElem?_eq_getElem hq]; rfl
  rw [List.getElem?_set, List.getElem?_set, List.length_set, e1, e2,
    List.getElem?_eq_getElem hp, List.getElem?_eq_getElem hq]
  by_cases h1 : j = q
  · subst h1; simp [hq]
  · by_cases h2 : j = p
    · subst h2; simp [hp, h1, Ne.symm h1]
    · simp [h1, h2, Ne.symm h1, Ne.symm h2]

theorem strrevLoop_getElem_opt (fuel : Nat) : ∀ (s : List Nat) (p q : Nat),
    p < q → q < s.length → q - p < 2 * fuel → ∀ i : Nat,
    (strrevLoop fuel s p q)[i]? = if p ≤ i ∧ i ≤ q then s[p + q - i]? else s[i]? := by
  induction fuel with
  | zero => intro s p q _ _ h; omega
  | succ fuel ih =>
    intro s p q hpq hq hfuel i
    have hp : p < s.length := by omega
    unfold strrevLoop
    dsimp only
    by_cases hlt : p + 1 < q - 1
    · rw [if_pos hlt]
      have hlen : ((s.set p (s.getD q 0)).set q (s.getD p 0)).length = s.length := by
        simp
      rw [ih _ (p + 1) (q - 1) hlt (by rw [hlen]; omega) (by omega) i]
      rw [swap_getElem_opt s p q hp hq, swap_getElem_opt s p q hp hq]
      by_cases hi : p + 1 ≤ i ∧ i ≤ q - 1
      · have e : p + 1 + (q - 1) - i = p + q - i := by omega
        rw [if_pos hi, e, if_neg (by omega), if_neg (by omega), if_pos (by omega)]
      · rw [if_neg hi]
        by_cases hiq : i = q
        · subst hiq
          rw [if_pos rfl, if_pos (by omega)]
          congr 1; omega
        · rw [if_neg hiq]
          by_cases hip : i = p
          · subst hip
            rw [if_pos rfl, if_pos (by omega)]
            congr 1; omega
          · rw [if_neg hip, if_neg (by omega)]
    · rw [if_neg hlt, swap_getElem_opt s p q hp hq]
      by_cases hiq : i = q
      · subst hiq
        rw [if_pos rfl, if_pos (by omega)]
        congr 1; omega
      · rw [if_neg hiq]
        by_cases hip : i = p
        · subst hip
          rw [if_pos rfl, if_pos (by omega)]
          congr 1; omega
        · rw [if_neg hip]
          by_cases hmid : p ≤ i ∧ i ≤ q
          · rw [if_pos hmid]
            congr 1; omega
          · rw [if_neg hmid]

theorem strlen_le_length (s : List Nat) : strlen s ≤ s.length := by
  have h := List.takeWhile_append_dropWhile (fun c => c != 0) s
  have h2 := congrArg List.length h
  simp only [List.length_append] at h2
  unfold strlen
  omega

/-- The swap loop of `strrev` reverses the characters before the first NUL and
leaves the rest of the buffer alone. -/
theorem strrev_eq_cstrReverse (s : List Nat) : strrev s = cstrReverse s := by
  have hsplit := List.takeWhile_append_dropWhile (fun c => c != 0) s
  have hn := strlen_le_length s
  unfold strrev cstrReverse
  dsimp only
  have hs : ∀ j : Nat, s[j]? = if j < strlen s then (s.takeWhile (fun c => c != 0))[j]?
      else (s.dropWhile (fun c => c != 0))[j - strlen s]? := by
    intro j
    conv_lhs => rw [← hsplit]
    exact List.getElem?_append
  by_cases h1 : 1 < strlen s
  · rw [if_pos h1]
    apply List.ext_getElem?
    intro i
    rw [strrevLoop_getElem_opt _ s 0 (strlen s - 1) (by omega) (by omega) (by omega) i]
    by_cases hi : i < strlen s
    · have hi2 : i < (s.takeWhile (fun c => c != 0)).length := hi
      have e : 0 + (strlen s - 1) - i = strlen s - 1 - i := by omega
      rw [if_pos (by omega), List.getElem?_append_left (by simpa using hi2),
        List.getElem?_reverse hi2, e, hs, if_pos (by omega)]
      rfl
    · have hi2 : (s.takeWhile (fun c => c != 0)).reverse.length ≤ i := by
        rw [List.length_reverse]; exact not_lt.mp hi
      rw [if_neg (by omega), List.getElem?_append_right hi2, hs, if_neg hi,
        List.length_reverse]
      rfl
  · rw [if_neg h1]
    have hrev : (s.takeWhile (fun c => c != 0)).reverse = s.takeWhile (fun c => c != 0) := by
      have hl : (s.takeWhile (fun c => c != 0)).length ≤ 1 := by
        unfold strlen at h1; omega
      match hm : s.takeWhile (fun c => c != 0), hl with
      | [], _ => rfl
      | [_], _ => rfl
      | _ :: _ :: _, hl => simp at hl
    rw [hrev, hsplit]


/-! ### Inquiry page 80h -/

theorem readBytes_length (src : List Nat) (n : Nat) : (readBytes src n).length = n := by
  simp only [readBytes, List.length_take, List.length_append, List.length_replicate]
  omega

theorem readBytes_getElem_opt (src : List Nat) (n i : Nat) :
    (readBytes src n)[i]? = if i < n then some (src.getD i 0) else none := by
  unfold readBytes
  rw [List.getElem?_take, List.getD_eq_getElem?_getD]
  by_cases hi : i < n
  · rw [if_pos hi, if_pos hi, List.getElem?_append]
    by_cases hs : i < src.length
    · rw [if_pos hs, List.getElem?_eq_getElem hs]; rfl
    · rw [if_neg hs, List.getElem?_replicate, if_pos (by omega),
        List.getElem?_eq_none (by omega)]
      rfl
  · rw [if_neg hi, if_neg hi]

theorem memcpy_full (dst src : List Nat) :
    memcpy dst src dst.length = readBytes src dst.length := by
  simp [memcpy]

theorem takeWhile_dropWhile_nil (p : Nat → Bool) (l : List Nat) :
    (l.dropWhile p).takeWhile p = [] := by
  induction l with
  | nil => rfl
  | cons x l ih =>
    by_cases h : p x = true
    · simp [List.dropWhile_cons, h, ih]
    · simp [List.dropWhile_cons, List.takeWhile_cons, h]

theorem takeWhile_take_nil (p : Nat → Bool) (l : List Nat) (k : Nat)
    (h : l.takeWhile p = []) : (l.take k).takeWhile p = [] := by
  cases l with
  | nil => simp
  | cons x l =>
    cases k with
    | zero => simp
    | succ k =>
      by_cases hx : p x = true
      · simp [List.takeWhile_cons, hx] at h
      · simp [List.takeWhile_cons, hx]

theorem takeWhile_append_nil (p : Nat → Bool) (l₁ l₂ : List Nat)
    (h₁ : l₁.takeWhile p = []) (h₂ : l₂.takeWhile p = []) :
    (l₁ ++ l₂).takeWhile p = [] := by
  cases l₁ with
  | nil => simpa using h₂
  | cons x l =>
    by_cases hx : p x = true
    · simp [List.takeWhile_cons, hx] at h₁
    · simp [List.takeWhile_cons, hx]

theorem takeWhile_replicate_zero_nil (m : Nat) :
    (List.replicate m 0).takeWhile (fun c => c != 0) = [] := by
  cases m with
  | zero => rfl
  | succ m => simp [List.replicate_succ, List.takeWhile_cons]

theorem cstrReverse_append (a t : List Nat) (ha : ∀ x ∈ a, (fun c : Nat => c != 0) x = true)
    (ht : t.takeWhile (fun c => c != 0) = []) :
    cstrReverse (a ++ t) = a.reverse ++ t := by
  have hd : t.dropWhile (fun c => c != 0) = t := by
    have := List.takeWhile_append_dropWhile (fun c : Nat => c != 0) t
    rw [ht] at this
    simpa using this
  unfold cstrReverse
  rw [List.takeWhile_append_of_pos ha, List.dropWhile_append_of_pos ha, ht, hd]
  simp

theorem cstrReverse_length (s : List Nat) : (cstrReverse s).length = s.length := by
  have h := congrArg List.length (List.takeWhile_append_dropWhile (fun c : Nat => c != 0) s)
  simp only [List.length_append] at h
  simp only [cstrReverse, List.length_append, List.length_reverse]
  exact h

/-- Reading `w` bytes of a reversed C string that fits in `w` bytes gives the
reversal of the `w` bytes read from the string itself. -/
theorem readBytes_cstrReverse (s : List Nat) (w : Nat) (h : strlen s ≤ w) :
    readBytes (cstrReverse s) w = cstrReverse (readBytes s w) := by
  have hsplit := List.takeWhile_append_dropWhile (fun c : Nat => c != 0) s
  have ha : ∀ x ∈ s.takeWhile (fun c => c != 0), (fun c : Nat => c != 0) x = true :=
    fun x hx => List.mem_takeWhile_imp (p := fun c : Nat => c != 0) hx
  have hlen : (s.takeWhile (fun c => c != 0)).length ≤ w := h
  have ht : ((s.dropWhile (fun c => c != 0) ++ List.replicate (w - s.length) 0).take
      (w - (s.takeWhile (fun c => c != 0)).length)).takeWhile (fun c => c != 0) = [] :=
    takeWhile_take_nil _ _ _
      (takeWhile_append_nil _ _ _ (takeWhile_dropWhile_nil _ s)
        (takeWhile_replicate_zero_nil _))
  have e1 : readBytes s w = s.takeWhile (fun c => c != 0) ++
      (s.dropWhile (fun c => c != 0) ++ List.replicate (w - s.length) 0).take
        (w - (s.takeWhile (fun c => c != 0)).length) := by
    unfold readBytes
    conv_lhs => rw [← hsplit]
    rw [List.append_assoc, List.take_append_eq_append_take, List.take_of_length_le hlen,
      hsplit]
  have e2 : readBytes (cstrReverse s) w = (s.takeWhile (fun c => c != 0)).reverse ++
      (s.dropWhile (fun c => c != 0) ++ List.replicate (w - s.length) 0).take
        (w - (s.takeWhile (fun c => c != 0)).length) := by
    unfold readBytes
    rw [cstrReverse_length]
    unfold cstrReverse
    rw [List.append_assoc, List.take_append_eq_append_take,
      List.take_of_length_le (by rw [List.length_reverse]; exact hlen), List.length_reverse]
  rw [e2, e1, cstrReverse_append _ _ ha ht]

theorem parse80_serialNum (needs : List Nat → SpecialAction → Bool) (id response : List Nat)
    (di : DTA_DEVICE_INFO) :
    (parseInquiryPage80Response needs id response di).serialNum =
      readBytes (if needs id .reverseInquiryPage80SerialNumber
        then cstrReverse (page80SerialNumber response) else page80SerialNumber response)
        di.serialNum.length := by
  unfold parseInquiryPage80Response
  dsimp only
  rw [memcpy_full, strrev_eq_cstrReverse]

theorem parse80_passwordSalt (needs : List Nat → SpecialAction → Bool)
    (id response : List Nat) (di : DTA_DEVICE_INFO) :
    (parseInquiryPage80Response needs id response di).passwordSalt =
      readBytes (page80SerialNumber response) di.passwordSalt.length := by
  unfold parseInquiryPage80Response
  dsimp only
  rw [memcpy_full]

theorem memset_replicate_zero (n : Nat) :
    memset (List.replicate n 0) 0 0 n = List.replicate n 0 := by
  simp [memset]

theorem page80SerialNumber_eq (response : List Nat) :
    page80SerialNumber response =
      readBytes (response.drop 4) (page80PageLength response)
        ++ List.replicate (257 - page80PageLength response) 0 := by
  unfold page80SerialNumber
  rw [memset_replicate_zero, memcpy, List.drop_replicate]

theorem page80SerialNumber_getD (response : List Nat) (i : Nat) :
    (page80SerialNumber response).getD i 0 =
      if i < page80PageLength response then response.getD (4 + i) 0 else 0 := by
  rw [page80SerialNumber_eq, List.getD_eq_getElem?_getD, List.getElem?_append,
    readBytes_length]
  by_cases hi : i < page80PageLength response
  · rw [if_pos hi, if_pos hi, readBytes_getElem_opt, if_pos hi, List.getD_eq_getElem?_getD,
      List.getD_eq_getElem?_getD, List.getElem?_drop]
    rfl
  · rw [if_neg hi, if_neg hi, List.getElem?_replicate]
    split_ifs <;> rfl

/-- C8 (the claim as stated fails): for the 21-character serial number
`ABCDEFGHIJKLMNOPQRSTU` and a 20-byte `serialNum` field, the field stored with the
reversal quirk is `UTSRQPONMLKJIHGFEDCB`, which is neither the C-string reversal
nor the byte reversal of `ABCDEFGHIJKLMNOPQRST`, the field stored without it. -/
theorem C8_serialNum_reversal_counterexample :
    (parseInquiryPage80Response sampleQuirks quirkyId longSerialResponse
        sampleDeviceInfo).serialNum
      = [85, 84, 83, 82, 81, 80, 79, 78, 77, 76, 75, 74, 73, 72, 71, 70, 69, 68, 67, 66]
    ∧ (parseInquiryPage80Response sampleQuirks plainId longSerialResponse
        sampleDeviceInfo).serialNum
      = [65, 66, 67, 68, 69, 70, 71, 72, 73, 74, 75, 76, 77, 78, 79, 80, 81, 82, 83, 84]
    ∧ (parseInquiryPage80Response sampleQuirks quirkyId longSerialResponse
        sampleDeviceInfo).serialNum
      ≠ cstrReverse (parseInquiryPage80Response sampleQuirks plainId longSerialResponse
        sampleDeviceInfo).serialNum
    ∧ (parseInquiryPage80Response sampleQuirks quirkyId longSerialResponse
        sampleDeviceInfo).serialNum
      ≠ (parseInquiryPage80Response sampleQuirks plainId longSerialResponse
        sampleDeviceInfo).serialNum.reverse := by
  decide

/-- C8 (amended): when the reported serial number, up to its first NUL, is no
longer than the `serialNum` field, the field stored for a fingerprint with the
reversal quirk is the character reversal of the field stored, from the same
response, for a fingerprint without it: the characters before the first NUL are
reversed and the bytes from the first NUL on are the same. -/
theorem C8_serialNum_reversal (needs : List Nat → SpecialAction → Bool)
    (idT idF response : List Nat) (di : DTA_DEVICE_INFO)
    (hT : needs idT .reverseInquiryPage80SerialNumber = true)
    (hF : needs idF .reverseInquiryPage80SerialNumber = false)
    (hfit : strlen (page80SerialNumber response) ≤ di.serialNum.length) :
    (parseInquiryPage80Response needs idT response di).serialNum
      = cstrReverse (parseInquiryPage80Response needs idF response di).serialNum := by
  rw [parse80_serialNum, parse80_serialNum, hT, hF]
  simp only [if_true, Bool.false_eq_true, if_false]
  exact readBytes_cstrReverse _ _ hfit

/-- C8 (amended) on the serial number `ABCD`: the field stored with the quirk is
`DCBA` followed by NULs. -/
theorem C8_serialNum_reversal_witness :
    (parseInquiryPage80Response sampleQuirks quirkyId shortSerialResponse
        sampleDeviceInfo).serialNum
      = cstrReverse (parseInquiryPage80Response sampleQuirks plainId shortSerialResponse
        sampleDeviceInfo).serialNum :=
  C8_serialNum_reversal sampleQuirks quirkyId plainId shortSerialResponse sampleDeviceInfo
    (by decide) (by decide) (by decide)

/-- C9: the `passwordSalt` stored by `parseInquiryPage80Response` keeps its width,
its byte `i` is byte `i` of the reported serial number for `i < PAGE_LENGTH` and
zero from there on, and it is the same whatever the quirk table says about the
fingerprint. -/
theorem C9_passwordSalt_verbatim (needs : List Nat → SpecialAction → Bool)
    (id response : List Nat) (di : DTA_DEVICE_INFO) :
    (parseInquiryPage80Response needs id response di).passwordSalt.length
        = di.passwordSalt.length
      ∧ (∀ i : Nat, i < di.passwordSalt.length →
          (parseInquiryPage80Response needs id response di).passwordSalt.getD i 0
            = if i < page80PageLength response then response.getD (4 + i) 0 else 0)
      ∧ ∀ (needs2 : List Nat → SpecialAction → Bool) (id2 : List Nat),
          (parseInquiryPage80Response needs2 id2 response di).passwordSalt
            = (parseInquiryPage80Response needs id response di).passwordSalt := by
  refine ⟨?_, ?_, ?_⟩
  · rw [parse80_passwordSalt, readBytes_length]
  · intro i hi
    rw [parse80_passwordSalt, List.getD_eq_getElem?_getD, readBytes_getElem_opt, if_pos hi]
    exact page80SerialNumber_getD response i
  · intro needs2 id2
    rw [parse80_passwordSalt, parse80_passwordSalt]

/-! ### Factory dispatch -/

/-- C10: for `devType = USB`, in the Linux, macOS and Windows factories, the
transport attempts are SATA (only if `avoidSlowSATATimeout` is not set) followed by
SCSI (only if `avoidSlowSASTimeout` is not set and the SATA attempt was skipped or
yielded no device); the drive returned is that of the first successful attempt;
without quirks SATA comes before SCSI, with `avoidSlowSATATimeout` SATA is never
attempted, and with both flags no device is returned after zero attempts. -/
theorem C10_usb_dispatch {Drive W : Type} (host : FactoryHost Drive W) (devref : String)
    (id : List Nat) (di : DTA_DEVICE_INFO) (w : W)
    (f : FactoryHost Drive W → String → List Nat → Dispatch Drive W → Dispatch Drive W)
    (hf : f = getDtaDevLinuxDrive_switch ∨ f = getDtaDevMacOSDrive_switch
      ∨ f = getDtaDevWindowsDrive_switch)
    (hUSB : di.devType = .DEVICE_TYPE_USB) :
    (f host devref id (Dispatch.start di w)).attempts =
        (if host.deviceNeedsSpecialAction id .avoidSlowSATATimeout = true then []
          else [Variant.Sata])
        ++ (if host.deviceNeedsSpecialAction id .avoidSlowSASTimeout = false
              ∧ (host.deviceNeedsSpecialAction id .avoidSlowSATATimeout = true
                ∨ (host.getSubclass .Sata devref di w).1.isNone = true)
            then [Variant.Scsi] else [])
      ∧ (host.deviceNeedsSpecialAction id .avoidSlowSATATimeout = false →
          (host.getSubclass .Sata devref di w).1 ≠ none →
          (f host devref id (Dispatch.start di w)).drive
            = (host.getSubclass .Sata devref di w).1)
      ∧ (host.deviceNeedsSpecialAction id .avoidSlowSATATimeout = false →
          (host.getSubclass .Sata devref di w).1 = none →
          host.deviceNeedsSpecialAction id .avoidSlowSASTimeout = false →
          (f host devref id (Dispatch.start di w)).drive
            = (host.getSubclass .Scsi devref (host.getSubclass .Sata devref di w).2.1
                (host.getSubclass .Sata devref di w).2.2).1)
      ∧ (host.deviceNeedsSpecialAction id .avoidSlowSATATimeout = true →
          host.deviceNeedsSpecialAction id .avoidSlowSASTimeout = false →
          (f host devref id (Dispatch.start di w)).drive
            = (host.getSubclass .Scsi devref di w).1)
      ∧ (host.deviceNeedsSpecialAction id .avoidSlowSASTimeout = true →
          (host.deviceNeedsSpecialAction id .avoidSlowSATATimeout = true
            ∨ (host.getSubclass .Sata devref di w).1 = none) →
          (f host devref id (Dispatch.start di w)).drive = none)
      ∧ (host.deviceNeedsSpecialAction id .avoidSlowSATATimeout = false →
          host.deviceNeedsSpecialAction id .avoidSlowSASTimeout = false →
          (f host devref id (Dispatch.start di w)).attempts = [Variant.Sata]
            ∨ (f host devref id (Dispatch.start di w)).attempts
                = [Variant.Sata, Variant.Scsi])
      ∧ (host.deviceNeedsSpecialAction id .avoidSlowSATATimeout = true →
          Variant.Sata ∉ (f host devref id (Dispatch.start di w)).attempts)
      ∧ (host.deviceNeedsSpecialAction id .avoidSlowSATATimeout = true →
          host.deviceNeedsSpecialAction id .avoidSlowSASTimeout = true →
          (f host devref id (Dispatch.start di w)).drive = none
            ∧ (f host devref id (Dispatch.start di w)).attempts = []) := by
  rcases hf with rfl | rfl | rfl
  all_goals
    simp only [getDtaDevLinuxDrive_switch, getDtaDevMacOSDrive_switch,
      getDtaDevWindowsDrive_switch, Dispatch.start, hUSB]
    cases ha : host.deviceNeedsSpecialAction id .avoidSlowSATATimeout <;>
    cases hb : host.deviceNeedsSpecialAction id .avoidSlowSASTimeout <;>
    cases hs : (host.getSubclass .Sata devref di w).1 <;>
    simp [trySubclass, hs]

/-- C10 on a USB device without quirks whose SATA attempt fails and whose SCSI
attempt succeeds, in the Linux factory. -/
theorem C10_usb_dispatch_witness :
    (getDtaDevLinuxDrive_switch sampleHost "/dev/sdb" plainId
        (Dispatch.start sampleDeviceInfo ())).attempts = [Variant.Sata, Variant.Scsi] :=
  (C10_usb_dispatch sampleHost "/dev/sdb" plainId sampleDeviceInfo ()
    getDtaDevLinuxDrive_switch (Or.inl rfl) rfl).1

/-- C11: in the Linux, macOS and Windows factories, for `devType` SCSI or SAS
exactly one transport attempt (SCSI) is made and its outcome is returned; for
ATA, OTHER, UNKNOWN and every other value without a transport case no attempt
is made and no device is returned. -/
theorem C11_scsi_and_unsupported_dispatch {Drive W : Type} (host : FactoryHost Drive W)
    (devref : String) (id : List Nat) (di : DTA_DEVICE_INFO) (w : W)
    (f : FactoryHost Drive W → String → List Nat → Dispatch Drive W → Dispatch Drive W)
    (hf : f = getDtaDevLinuxDrive_switch ∨ f = getDtaDevMacOSDrive_switch
      ∨ f = getDtaDevWindowsDrive_switch) :
    ((di.devType = .DEVICE_TYPE_SCSI ∨ di.devType = .DEVICE_TYPE_SAS) →
        (f host devref id (Dispatch.start di w)).attempts = [Variant.Scsi]
          ∧ (f host devref id (Dispatch.start di w)).drive
              = (host.getSubclass .Scsi devref di w).1)
      ∧ ((di.devType = .DEVICE_TYPE_ATA ∨ di.devType = .DEVICE_TYPE_OTHER
            ∨ di.devType = .DEVICE_TYPE_UNKNOWN ∨ di.devType = .DEVICE_TYPE_SATA) →
        (f host devref id (Dispatch.start di w)).attempts = []
          ∧ (f host devref id (Dispatch.start di w)).drive = none) := by
  rcases hf with rfl | rfl | rfl
  all_goals
    refine ⟨?_, ?_⟩
    · rintro (h | h) <;>
        simp [getDtaDevLinuxDrive_switch, getDtaDevMacOSDrive_switch,
          getDtaDevWindowsDrive_switch, Dispatch.start, h, trySubclass]
    · rintro (h | h | h | h) <;>
        simp [getDtaDevLinuxDrive_switch, getDtaDevMacOSDrive_switch,
          getDtaDevWindowsDrive_switch, Dispatch.start, h]

/-- C11 on a SCSI device in the Windows factory: one attempt, SCSI, and its drive
is returned. -/
theorem C11_scsi_and_unsupported_dispatch_witness :
    (getDtaDevWindowsDrive_switch sampleHost "\\\\.\\PhysicalDrive1" plainId
        (Dispatch.start { sampleDeviceInfo with devType := .DEVICE_TYPE_SCSI } ())).attempts
      = [Variant.Scsi] :=
  ((C11_scsi_and_unsupported_dispatch sampleHost "\\\\.\\PhysicalDrive1" plainId
    { sampleDeviceInfo with devType := .DEVICE_TYPE_SCSI } ()
    getDtaDevWindowsDrive_switch (Or.inr (Or.inr rfl))).1 (Or.inl rfl)).1

/-- C12 (the claim as stated fails): in the Windows factory an NVMe device whose
fingerprint does not resolve `acceptPseudoDeviceImmediately` gets no transport
attempt and no drive, while with the flag the SCSI wrapper is attempted and its
drive returned. -/
theorem C12_nvme_dispatch_counterexample :
    (getDtaDevWindowsDrive_switch sampleHost "\\\\.\\PhysicalDrive1" plainId
        (Dispatch.start sampleNvmeInfo ())).attempts = []
    ∧ (getDtaDevWindowsDrive_switch sampleHost "\\\\.\\PhysicalDrive1" plainId
        (Dispatch.start sampleNvmeInfo ())).drive = none
    ∧ (getDtaDevWindowsDrive_switch sampleHost "\\\\.\\PhysicalDrive1" quirkyId
        (Dispatch.start sampleNvmeInfo ())).attempts = [Variant.Scsi]
    ∧ (getDtaDevWindowsDrive_switch sampleHost "\\\\.\\PhysicalDrive1" quirkyId
        (Dispatch.start sampleNvmeInfo ())).drive = some 1 := by
  refine ⟨?_, ?_, ?_, ?_⟩ <;> decide

/-- C12 (amended): for `devType = NVMe`, the Linux factory attempts the SCSI
wrapper once and the macOS factory attempts the block storage device wrapper
once, whether or not the fingerprint resolves `acceptPseudoDeviceImmediately`,
and return its outcome; the Windows factory attempts the SCSI wrapper once when
the flag is resolved, and otherwise makes no attempt and returns no device. -/
theorem C12_nvme_dispatch {Drive W : Type} (host : FactoryHost Drive W) (devref : String)
    (id : List Nat) (di : DTA_DEVICE_INFO) (w : W)
    (hNVMe : di.devType = .DEVICE_TYPE_NVME) :
    ((getDtaDevLinuxDrive_switch host devref id (Dispatch.start di w)).attempts
          = [Variant.Scsi]
        ∧ (getDtaDevLinuxDrive_switch host devref id (Dispatch.start di w)).drive
          = (host.getSubclass .Scsi devref di w).1)
      ∧ ((getDtaDevMacOSDrive_switch host devref id (Dispatch.start di w)).attempts
          = [Variant.BlockStorageDevice]
        ∧ (getDtaDevMacOSDrive_switch host devref id (Dispatch.start di w)).drive
          = (host.getSubclass .BlockStorageDevice devref di w).1)
      ∧ (host.deviceNeedsSpecialAction id .acceptPseudoDeviceImmediately = true →
          (getDtaDevWindowsDrive_switch host devref id (Dispatch.start di w)).attempts
            = [Variant.Scsi]
          ∧ (getDtaDevWindowsDrive_switch host devref id (Dispatch.start di w)).drive
            = (host.getSubclass .Scsi devref di w).1)
      ∧ (host.deviceNeedsSpecialAction id .acceptPseudoDeviceImmediately = false →
          (getDtaDevWindowsDrive_switch host devref id (Dispatch.start di w)).attempts = []
          ∧ (getDtaDevWindowsDrive_switch host devref id (Dispatch.start di w)).drive
            = none) := by
  refine ⟨?_, ?_, ?_, ?_⟩
  · cases hq : host.deviceNeedsSpecialAction id .acceptPseudoDeviceImmediately <;>
      simp [getDtaDevLinuxDrive_switch, Dispatch.start, hNVMe, trySubclass, hq]
  · cases hq : host.deviceNeedsSpecialAction id .acceptPseudoDeviceImmediately <;>
      simp [getDtaDevMacOSDrive_switch, Dispatch.start, hNVMe, trySubclass, hq]
  · intro hq
    simp [getDtaDevWindowsDrive_switch, Dispatch.start, hNVMe, trySubclass, hq]
  · intro hq
    simp [getDtaDevWindowsDrive_switch, Dispatch.start, hNVMe, hq]

/-- C12 (amended) on an NVMe device without quirks: the Linux factory attempts the
SCSI wrapper once. -/
theorem C12_nvme_dispatch_witness :
    (getDtaDevLinuxDrive_switch sampleHost "/dev/nvme0" plainId
        (Dispatch.start sampleNvmeInfo ())).attempts = [Variant.Scsi] :=
  (C12_nvme_dispatch sampleHost "/dev/nvme0" plainId sampleNvmeInfo () rfl).1.1

/-! ### Inquiry / VPD identification chain -/

theorem inquiry_submissions_cdb (host : InquiryHost) (h : Int) (evpd page_code : Nat)
    (buf : List Nat) (n : Nat) :
    ∀ sg ∈ (__inquiry host h evpd page_code buf n).submissions,
      sg.cmdp = inquiryCdb evpd page_code n := by
  intro sg hsg
  unfold __inquiry PerformSCSICommand at hsg
  split_ifs at hsg with hh
  · simp at hsg
  · simp only [List.mem_singleton] at hsg
    rw [hsg]

theorem standard_not_page80 (host : InquiryHost) (h : Int) (buf : List Nat) (n : Nat) :
    ∀ sg ∈ (inquiryStandardDataAll_SCSI host h buf n).submissions,
      isPage80Submission sg = false := by
  intro sg hsg
  have hc := inquiry_submissions_cdb host h 0 0 buf n sg hsg
  simp [isPage80Submission, hc, inquiryCdb]

theorem page00_not_page80 (host : InquiryHost) (h : Int) (buf : List Nat) (n : Nat) :
    ∀ sg ∈ (inquiryPage00_SCSI host h buf n).submissions,
      isPage80Submission sg = false := by
  intro sg hsg
  have hc := inquiry_submissions_cdb host h 1 kINQUIRY_Page00_PageCode buf n sg hsg
  simp [isPage80Submission, hc, inquiryCdb, kINQUIRY_Page00_PageCode,
    kINQUIRY_Page80_PageCode]

theorem parseStandard_keeps_serial (response id : List Nat) (di : DTA_DEVICE_INFO) :
    (parseInquiryStandardDataAllResponse response id di).2.serialNum = di.serialNum
      ∧ (parseInquiryStandardDataAllResponse response id di).2.passwordSalt
          = di.passwordSalt := by
  simp [parseInquiryStandardDataAllResponse]

/-- What `deviceIsStandardSCSI` yields when the Standard Inquiry succeeds. -/
theorem deviceIsStandardSCSI_of_success (host : InquiryHost) (h : Int) (id : List Nat)
    (di : DTA_DEVICE_INFO) (r0 : PerformResult) (hstd : standardInquiry host h = some r0)
    (hr0 : r0.result = 0) :
    deviceIsStandardSCSI host h id di =
      { result := true
        interfaceDeviceIdentification :=
          (parseInquiryStandardDataAllResponse r0.buffer id di).1
        disk_info := (parseInquiryStandardDataAllResponse r0.buffer id di).2
        submissions := r0.submissions } := by
  unfold standardInquiry at hstd
  unfold deviceIsStandardSCSI
  cases ha : host.allocStandard with
  | none => rw [ha] at hstd; simp at hstd
  | some raw =>
    rw [ha] at hstd
    simp only [Option.map_some', Option.some.injEq] at hstd
    simp only [hstd, hr0, if_true]

/-- What `deviceIsStandardSCSI` yields when the Standard Inquiry does not succeed. -/
theorem deviceIsStandardSCSI_of_failure (host : InquiryHost) (h : Int) (id : List Nat)
    (di : DTA_DEVICE_INFO)
    (hstd : ∀ r0, standardInquiry host h = some r0 → r0.result ≠ 0) :
    (deviceIsStandardSCSI host h id di).result = false
      ∧ (deviceIsStandardSCSI host h id di).disk_info = di
      ∧ ∀ sg ∈ (deviceIsStandardSCSI host h id di).submissions,
          isPage80Submission sg = false := by
  unfold standardInquiry at hstd
  unfold deviceIsStandardSCSI
  cases ha : host.allocStandard with
  | none => simp
  | some raw =>
    rw [ha] at hstd
    have hne := hstd _ rfl
    simp only [if_neg hne, true_and]
    exact standard_not_page80 host h _ _

theorem standardInquiry_cases (host : InquiryHost) (h : Int) :
    (∃ r0, standardInquiry host h = some r0 ∧ r0.result = 0)
      ∨ (∀ r0, standardInquiry host h = some r0 → r0.result ≠ 0) := by
  cases hs : standardInquiry host h with
  | none => right; intro r0 h0; simp at h0
  | some r =>
    by_cases hr : r.result = 0
    · left; exact ⟨r, rfl, hr⟩
    · right; intro r0 h0; simp only [Option.some.injEq] at h0; rw [← h0]; exact hr

theorem standardInquiry_submissions (host : InquiryHost) (h : Int) (r0 : PerformResult)
    (hstd : standardInquiry host h = some r0) :
    ∀ sg ∈ r0.submissions, isPage80Submission sg = false := by
  unfold standardInquiry at hstd
  cases ha : host.allocStandard with
  | none => rw [ha] at hstd; simp at hstd
  | some raw =>
    rw [ha] at hstd
    simp only [Option.map_some', Option.some.injEq] at hstd
    rw [← hstd]
    exact standard_not_page80 host h _ _

theorem page00Switch_foldl (codes : List Nat) : ∀ flags : Page00Flags,
    (codes.foldl page00Switch flags).deviceSupportsPage00
        = (flags.deviceSupportsPage00 || decide (kINQUIRY_Page00_PageCode ∈ codes))
      ∧ (codes.foldl page00Switch flags).deviceSupportsPage80
        = (flags.deviceSupportsPage80 || decide (kINQUIRY_Page80_PageCode ∈ codes))
      ∧ (codes.foldl page00Switch flags).deviceSupportsPage83
        = (flags.deviceSupportsPage83 || decide (kINQUIRY_Page83_PageCode ∈ codes))
      ∧ (codes.foldl page00Switch flags).deviceSupportsPage89
        = (flags.deviceSupportsPage89 || decide (kINQUIRY_Page89_PageCode ∈ codes)) := by
  induction codes with
  | nil => intro flags; simp
  | cons c cs ih =>
    intro flags
    rw [List.foldl_cons]
    obtain ⟨h0, h80, h83, h89⟩ := ih (page00Switch flags c)
    rw [h0, h80, h83, h89]
    unfold page00Switch
    simp only [kINQUIRY_Page00_PageCode, kINQUIRY_Page80_PageCode, kINQUIRY_Page83_PageCode,
      kINQUIRY_Page89_PageCode, List.mem_cons]
    by_cases c0 : c = 0
    · subst c0; simp
    · by_cases c80 : c = 128
      · subst c80; simp
      · by_cases c83 : c = 131
        · subst c83; simp
        · by_cases c89 : c = 137
          · subst c89; simp
          · have e0 : (0 : Nat) ≠ c := Ne.symm c0
            have e80 : (128 : Nat) ≠ c := Ne.symm c80
            have e83 : (131 : Nat) ≠ c := Ne.symm c83
            have e89 : (137 : Nat) ≠ c := Ne.symm c89
            simp [c0, c80, c83, c89, e0, e80, e83, e89]

/-- What `deviceIsPage00SCSI` yields when the page 00h inquiry is answered. -/
theorem deviceIsPage00SCSI_of_answer (host : InquiryHost) (h : Int) (r1 : PerformResult)
    (hp : page00Inquiry host h = some r1) (hr1 : r1.result = 0) :
    deviceIsPage00SCSI host h false false =
      { result := decide (kINQUIRY_Page00_PageCode ∈ page00PageCodes r1.buffer)
          && decide (kINQUIRY_Page83_PageCode ∈ page00PageCodes r1.buffer)
        deviceSupportsPage80 := decide (kINQUIRY_Page80_PageCode ∈ page00PageCodes r1.buffer)
        deviceSupportsPage89 := decide (kINQUIRY_Page89_PageCode ∈ page00PageCodes r1.buffer)
        submissions := r1.submissions } := by
  unfold page00Inquiry at hp
  unfold deviceIsPage00SCSI
  cases ha : host.allocPage00 with
  | none => rw [ha] at hp; simp at hp
  | some raw =>
    rw [ha] at hp
    simp only [Option.map_some', Option.some.injEq] at hp
    simp only [hp, hr1, if_true]
    obtain ⟨h0, h80, h83, h89⟩ := page00Switch_foldl (page00PageCodes r1.buffer)
      { deviceSupportsPage00 := false, deviceSupportsPage80 := false,
        deviceSupportsPage83 := false, deviceSupportsPage89 := false }
    unfold parseInquiryPage00Response
    rw [h0, h80, h83, h89]
    simp only [Bool.false_or]
    split_ifs with hc
    · simp only [Bool.not_eq_true'] at hc
      simp [hc]
    · simp only [Bool.not_eq_true', Bool.not_eq_false] at hc
      simp [hc]

/-- What `deviceIsPage00SCSI` yields when the page 00h inquiry is not answered. -/
theorem deviceIsPage00SCSI_of_failure (host : InquiryHost) (h : Int)
    (hp : ∀ r1, page00Inquiry host h = some r1 → r1.result ≠ 0) :
    (deviceIsPage00SCSI host h false false).result = false
      ∧ (deviceIsPage00SCSI host h false false).deviceSupportsPage80 = false := by
  unfold page00Inquiry at hp
  unfold deviceIsPage00SCSI
  cases ha : host.allocPage00 with
  | none => simp
  | some raw =>
    rw [ha] at hp
    have hne := hp _ rfl
    simp only [if_neg hne, and_self]

theorem deviceIsPage00SCSI_submissions (host : InquiryHost) (h : Int) (a b : Bool) :
    ∀ sg ∈ (deviceIsPage00SCSI host h a b).submissions, isPage80Submission sg = false := by
  unfold deviceIsPage00SCSI
  cases ha : host.allocPage00 with
  | none => simp
  | some raw =>
    dsimp only
    split_ifs <;> exact page00_not_page80 host h _ _

theorem page00Inquiry_cases (host : InquiryHost) (h : Int) :
    (∃ r1, page00Inquiry host h = some r1 ∧ r1.result = 0)
      ∨ (∀ r1, page00Inquiry host h = some r1 → r1.result ≠ 0) := by
  cases hs : page00Inquiry host h with
  | none => right; intro r0 h0; simp at h0
  | some r =>
    by_cases hr : r.result = 0
    · left; exact ⟨r, rfl, hr⟩
    · right; intro r0 h0; simp only [Option.some.injEq] at h0; rw [← h0]; exact hr

/-- What `deviceIsPage80SCSI` yields when the page 80h inquiry does not succeed. -/
theorem deviceIsPage80SCSI_of_failure (host : InquiryHost) (h : Int) (id : List Nat)
    (di : DTA_DEVICE_INFO)
    (hp : ∀ r2, page80Inquiry host h = some r2 → r2.result ≠ 0) :
    (deviceIsPage80SCSI host h id di).result = false
      ∧ (deviceIsPage80SCSI host h id di).disk_info = di := by
  unfold page80Inquiry at hp
  unfold deviceIsPage80SCSI
  cases ha : host.allocPage80 with
  | none => simp
  | some raw =>
    rw [ha] at hp
    have hne := hp _ rfl
    simp only [if_neg hne, and_self]

/-- C13: if the Standard Inquiry succeeds and the page 00h inquiry is not answered
(its submission returns non-zero, or cannot be made), `identifyUsingSCSIInquiry`
still returns true; vendor, model and firmware revision are those copied from the
Standard Inquiry data, and the rest of the device information is as before. -/
theorem C13_page00_unanswered (host : InquiryHost) (h : Int) (id : List Nat)
    (di : DTA_DEVICE_INFO) (r0 : PerformResult)
    (hstd : standardInquiry host h = some r0) (hr0 : r0.result = 0)
    (hp00 : ∀ r1, page00Inquiry host h = some r1 → r1.result ≠ 0) :
    (identifyUsingSCSIInquiry host h id di).result = true
      ∧ (identifyUsingSCSIInquiry host h id di).disk_info =
          { di with
            vendorID := safecopy di.vendorID (readBytes (r0.buffer.drop 8) 8) 0
            firmwareRev := safecopy di.firmwareRev (readBytes (r0.buffer.drop 32) 4) 0
            modelNum := safecopy di.modelNum (readBytes (r0.buffer.drop 16) 16) 0 } := by
  have hs := deviceIsStandardSCSI_of_success host h id di r0 hstd hr0
  have hp := (deviceIsPage00SCSI_of_failure host h hp00).1
  unfold identifyUsingSCSIInquiry
  simp only [hs, hp, Bool.not_true, Bool.false_eq_true, if_false, Bool.not_false, if_true,
    true_and]
  rfl

/-- C13 on a device that answers the Standard Inquiry and rejects every VPD
inquiry. -/
theorem C13_page00_unanswered_witness :
    (identifyUsingSCSIInquiry (sampleInquiryHost none none) 3 plainId sampleDeviceInfo).result
      = true :=
  (C13_page00_unanswered (sampleInquiryHost none none) 3 plainId sampleDeviceInfo
    (inquiryStandardDataAll_SCSI (sampleInquiryHost none none) 3
      (memset (List.replicate 2048 0) 0 0 36) 36)
    rfl (by decide)
    (by
      intro r1 hr1
      simp only [page00Inquiry, sampleInquiryHost, Option.map_some', Option.some.injEq] at hr1
      rw [← hr1]
      decide)).1

/-- C14 (the claim as stated fails): a device that answers the page 00h inquiry
with a list declaring 00h and 80h but not 83h has the page 00h stage rejected,
yet `identifyUsingSCSIInquiry` returns true and `getDtaDevLinuxScsi` constructs a
SCSI device for it. -/
theorem C14_page00_incomplete_counterexample :
    (page00Inquiry (sampleInquiryHost (some page00WithoutPage83) (some shortSerialResponse))
        3).map (fun r => (r.result, page00PageCodes r.buffer)) = some (0, [0x00, 0x80])
    ∧ (deviceIsPage00SCSI
        (sampleInquiryHost (some page00WithoutPage83) (some shortSerialResponse))
        3 false false).result = false
    ∧ (identifyUsingSCSIInquiry
        (sampleInquiryHost (some page00WithoutPage83) (some shortSerialResponse))
        3 plainId sampleDeviceInfo).result = true
    ∧ (getDtaDevLinuxScsi sampleLinuxHost
        (sampleInquiryHost (some page00WithoutPage83) (some shortSerialResponse))
        sampleAtaIdentify "/dev/sdb" sampleDeviceInfo).drive
        = some (LinuxScsiDrive.DtaDevLinuxScsi 3) := by
  refine ⟨?_, ?_, ?_, ?_⟩ <;> decide

/-- C14 (amended): if the Standard Inquiry succeeds and the device answers the
page 00h inquiry with a list that omits page code 00h or 83h, then
`deviceIsPage00SCSI` returns false and no page 80h inquiry is issued, but
`identifyUsingSCSIInquiry` returns true, so `getDtaDevLinuxScsi`, once it has
opened the device, constructs a device for it. -/
theorem C14_page00_incomplete (os : LinuxHost) (host : InquiryHost)
    (ata : Int → List Nat → DTA_DEVICE_INFO → Bool × DTA_DEVICE_INFO × List SgIoHdr)
    (devref : String) (di : DTA_DEVICE_INFO) (r0 r1 : PerformResult)
    (hopen : (DtaDevLinuxDrive.openDeviceHandle os devref false).1 ≠ INVALID_HANDLE_VALUE)
    (hstd : standardInquiry host (DtaDevLinuxDrive.openDeviceHandle os devref false).1
      = some r0)
    (hr0 : r0.result = 0)
    (hp00 : page00Inquiry host (DtaDevLinuxDrive.openDeviceHandle os devref false).1
      = some r1)
    (hr1 : r1.result = 0)
    (homit : kINQUIRY_Page00_PageCode ∉ page00PageCodes r1.buffer
      ∨ kINQUIRY_Page83_PageCode ∉ page00PageCodes r1.buffer) :
    (deviceIsPage00SCSI host (DtaDevLinuxDrive.openDeviceHandle os devref false).1
        false false).result = false
      ∧ (∀ id : List Nat,
          (identifyUsingSCSIInquiry host (DtaDevLinuxDrive.openDeviceHandle os devref false).1
            id di).result = true
          ∧ ∀ sg ∈ (identifyUsingSCSIInquiry host
              (DtaDevLinuxDrive.openDeviceHandle os devref false).1 id di).submissions,
            isPage80Submission sg = false)
      ∧ (getDtaDevLinuxScsi os host ata devref di).drive ≠ none := by
  have hp := deviceIsPage00SCSI_of_answer host _ r1 hp00 hr1
  have hres : (deviceIsPage00SCSI host (DtaDevLinuxDrive.openDeviceHandle os devref false).1
      false false).result = false := by
    rw [hp]
    rcases homit with h0 | h83
    · simp [h0]
    · simp [h83]
  have hid : ∀ id : List Nat,
      (identifyUsingSCSIInquiry host (DtaDevLinuxDrive.openDeviceHandle os devref false).1
        id di).result = true
      ∧ ∀ sg ∈ (identifyUsingSCSIInquiry host
          (DtaDevLinuxDrive.openDeviceHandle os devref false).1 id di).submissions,
        isPage80Submission sg = false := by
    intro id
    have hs := deviceIsStandardSCSI_of_success host _ id di r0 hstd hr0
    unfold identifyUsingSCSIInquiry
    simp only [hs, hres, Bool.not_true, Bool.false_eq_true, if_false, Bool.not_false, if_true,
      true_and]
    intro sg hsg
    rcases List.mem_append.mp hsg with h1 | h2
    · exact standardInquiry_submissions host _ r0 hstd sg h1
    · exact deviceIsPage00SCSI_submissions host _ false false sg h2
  refine ⟨hres, hid, ?_⟩
  unfold getDtaDevLinuxScsi
  simp only [if_neg hopen, (hid _).1, Bool.not_true, Bool.false_eq_true, if_false]
  split_ifs <;> simp

/-- C14 (amended) on a device whose page 00h list declares 00h and 80h but not
83h. -/
theorem C14_page00_incomplete_witness :
    (getDtaDevLinuxScsi sampleLinuxHost
        (sampleInquiryHost (some page00WithoutPage83) (some shortSerialResponse))
        sampleAtaIdentify "/dev/sdb" sampleDeviceInfo).drive ≠ none :=
  (C14_page00_incomplete sampleLinuxHost
    (sampleInquiryHost (some page00WithoutPage83) (some shortSerialResponse))
    sampleAtaIdentify "/dev/sdb" sampleDeviceInfo
    (inquiryStandardDataAll_SCSI
      (sampleInquiryHost (some page00WithoutPage83) (some shortSerialResponse)) 3
      (memset (List.replicate 2048 0) 0 0 36) 36)
    (inquiryPage00_SCSI
      (sampleInquiryHost (some page00WithoutPage83) (some shortSerialResponse)) 3
      (memset (List.replicate 2048 0) 0 0 260) 260)
    (by decide) rfl (by decide) rfl (by decide)
    (Or.inr (by decide))).2.2

/-- If the Standard Inquiry and page 00h submissions returned 0, the page 00h
list declares 00h, 83h and 80h, and the page 80h submission cannot be made or
returns non-zero, then `identifyUsingSCSIInquiry` returns false and
`getDtaDevLinuxScsi` returns no device; the only handle operations are the open
of the device reference and the close of the handle it got. -/
theorem page80_submission_failure_rejects (os : LinuxHost) (host : InquiryHost)
    (ata : Int → List Nat → DTA_DEVICE_INFO → Bool × DTA_DEVICE_INFO × List SgIoHdr)
    (devref : String) (di : DTA_DEVICE_INFO) (r0 r1 : PerformResult)
    (hopen : (DtaDevLinuxDrive.openDeviceHandle os devref false).1 ≠ INVALID_HANDLE_VALUE)
    (hstd : standardInquiry host (DtaDevLinuxDrive.openDeviceHandle os devref false).1
      = some r0)
    (hr0 : r0.result = 0)
    (hp00 : page00Inquiry host (DtaDevLinuxDrive.openDeviceHandle os devref false).1
      = some r1)
    (hr1 : r1.result = 0)
    (h00 : kINQUIRY_Page00_PageCode ∈ page00PageCodes r1.buffer)
    (h83 : kINQUIRY_Page83_PageCode ∈ page00PageCodes r1.buffer)
    (h80 : kINQUIRY_Page80_PageCode ∈ page00PageCodes r1.buffer)
    (hp80 : ∀ r2, page80Inquiry host (DtaDevLinuxDrive.openDeviceHandle os devref false).1
      = some r2 → r2.result ≠ 0) :
    (∀ id : List Nat,
        (identifyUsingSCSIInquiry host (DtaDevLinuxDrive.openDeviceHandle os devref false).1
          id di).result = false)
      ∧ (getDtaDevLinuxScsi os host ata devref di).drive = none
      ∧ (getDtaDevLinuxScsi os host ata devref di).events.filter OsEvent.isHandleEvent
          = [OsEvent.openCall devref,
             OsEvent.closeCall (DtaDevLinuxDrive.openDeviceHandle os devref false).1] := by
  have hp := deviceIsPage00SCSI_of_answer host _ r1 hp00 hr1
  have hid : ∀ id : List Nat,
      (identifyUsingSCSIInquiry host (DtaDevLinuxDrive.openDeviceHandle os devref false).1
        id di).result = false := by
    intro id
    have hs := deviceIsStandardSCSI_of_success host _ id di r0 hstd hr0
    have h8 := (deviceIsPage80SCSI_of_failure host _
      (parseInquiryStandardDataAllResponse r0.buffer id di).1
      (parseInquiryStandardDataAllResponse r0.buffer id di).2 hp80).1
    unfold identifyUsingSCSIInquiry
    simp [hs, hp, h00, h83, h80, h8]
  refine ⟨hid, ?_, ?_⟩
  · unfold getDtaDevLinuxScsi
    simp only [if_neg hopen, hid _, Bool.not_false, if_true]
  · unfold getDtaDevLinuxScsi
    simp only [if_neg hopen, hid _, Bool.not_false, if_true]
    simp [List.filter_append, List.filter_map, OsEvent.isHandleEvent, Function.comp_def]

/-- A device whose page 00h list declares 00h, 80h and 83h and whose page 80h
submission fails in the ioctl gets no device object. -/
theorem page80_submission_failure_rejects_sample :
    (getDtaDevLinuxScsi sampleLinuxHost (sampleInquiryHost (some page00Complete) none)
        sampleAtaIdentify "/dev/sdb" sampleDeviceInfo).drive = none :=
  (page80_submission_failure_rejects sampleLinuxHost
    (sampleInquiryHost (some page00Complete) none) sampleAtaIdentify "/dev/sdb"
    sampleDeviceInfo
    (inquiryStandardDataAll_SCSI (sampleInquiryHost (some page00Complete) none) 3
      (memset (List.replicate 2048 0) 0 0 36) 36)
    (inquiryPage00_SCSI (sampleInquiryHost (some page00Complete) none) 3
      (memset (List.replicate 2048 0) 0 0 260) 260)
    (by decide) rfl (by decide) rfl (by decide)
    (by decide) (by decide) (by decide)
    (by
      intro r2 hr2
      have e : (DtaDevLinuxDrive.openDeviceHandle sampleLinuxHost "/dev/sdb" false).1 = 3 := by
        decide
      rw [e] at hr2
      simp only [page80Inquiry, sampleInquiryHost, Option.map_some', Option.some.injEq] at hr2
      rw [← hr2]
      decide)).2.1

/-- In every run of `identifyUsingSCSIInquiry`, a page 80h inquiry is submitted
only if the Standard Inquiry and page 00h submissions returned 0 and the page 00h
list declared page code 80h; in every other case `serialNum` and `passwordSalt`
are exactly as they were before the call. -/
theorem page80_submission_gate (host : InquiryHost) (h : Int) (id : List Nat)
    (di : DTA_DEVICE_INFO) :
    (∀ sg ∈ (identifyUsingSCSIInquiry host h id di).submissions,
        isPage80Submission sg = true →
        ∃ r0 r1, standardInquiry host h = some r0 ∧ r0.result = 0
          ∧ page00Inquiry host h = some r1 ∧ r1.result = 0
          ∧ kINQUIRY_Page80_PageCode ∈ page00PageCodes r1.buffer)
      ∧ ((¬ ∃ r0 r1, standardInquiry host h = some r0 ∧ r0.result = 0
            ∧ page00Inquiry host h = some r1 ∧ r1.result = 0
            ∧ kINQUIRY_Page80_PageCode ∈ page00PageCodes r1.buffer) →
          (identifyUsingSCSIInquiry host h id di).disk_info.serialNum = di.serialNum
            ∧ (identifyUsingSCSIInquiry host h id di).disk_info.passwordSalt
                = di.passwordSalt) := by
  rcases standardInquiry_cases host h with ⟨r0, hs, hr0⟩ | hsfail
  · have hstd := deviceIsStandardSCSI_of_success host h id di r0 hs hr0
    have hkeep := parseStandard_keeps_serial r0.buffer id di
    have hsub0 := standardInquiry_submissions host h r0 hs
    have hsub1 := deviceIsPage00SCSI_submissions host h false false
    rcases page00Inquiry_cases host h with ⟨r1, hp, hr1⟩ | hpfail
    · by_cases h80 : kINQUIRY_Page80_PageCode ∈ page00PageCodes r1.buffer
      · refine ⟨fun _ _ _ => ⟨r0, r1, hs, hr0, hp, hr1, h80⟩, fun hn => ?_⟩
        exact absurd ⟨r0, r1, hs, hr0, hp, hr1, h80⟩ hn
      · have hp00 := deviceIsPage00SCSI_of_answer host h r1 hp hr1
        have hflag : (deviceIsPage00SCSI host h false false).deviceSupportsPage80 = false := by
          rw [hp00]; simp [h80]
        have hid : identifyUsingSCSIInquiry host h id di =
            { result := true
              interfaceDeviceIdentification :=
                (parseInquiryStandardDataAllResponse r0.buffer id di).1
              disk_info := (parseInquiryStandardDataAllResponse r0.buffer id di).2
              submissions := r0.submissions
                ++ (deviceIsPage00SCSI host h false false).submissions } := by
          unfold identifyUsingSCSIInquiry
          simp only [hstd, hflag, Bool.not_true, Bool.false_eq_true, if_false]
          split_ifs <;> rfl
        rw [hid]
        refine ⟨fun sg hsg h8 => ?_, fun _ => hkeep⟩
        rcases List.mem_append.mp hsg with h1 | h2
        · rw [hsub0 sg h1] at h8; exact absurd h8 (by decide)
        · rw [hsub1 sg h2] at h8; exact absurd h8 (by decide)
    · have hres := (deviceIsPage00SCSI_of_failure host h hpfail).1
      have hid : identifyUsingSCSIInquiry host h id di =
          { result := true
            interfaceDeviceIdentification :=
              (parseInquiryStandardDataAllResponse r0.buffer id di).1
            disk_info := (parseInquiryStandardDataAllResponse r0.buffer id di).2
            submissions := r0.submissions
              ++ (deviceIsPage00SCSI host h false false).submissions } := by
        unfold identifyUsingSCSIInquiry
        simp only [hstd, hres, Bool.not_true, Bool.false_eq_true, if_false, Bool.not_false,
          if_true]
      rw [hid]
      refine ⟨fun sg hsg h8 => ?_, fun _ => hkeep⟩
      rcases List.mem_append.mp hsg with h1 | h2
      · rw [hsub0 sg h1] at h8; exact absurd h8 (by decide)
      · rw [hsub1 sg h2] at h8; exact absurd h8 (by decide)
  · obtain ⟨hres, hdi, hsub⟩ := deviceIsStandardSCSI_of_failure host h id di hsfail
    have hid : identifyUsingSCSIInquiry host h id di =
        { deviceIsStandardSCSI host h id di with result := false } := by
      unfold identifyUsingSCSIInquiry
      simp only [hres, Bool.not_false, if_true]
    rw [hid]
    refine ⟨fun sg hsg h8 => ?_, fun _ => ?_⟩
    · rw [hsub sg hsg] at h8; exact absurd h8 (by decide)
    · simp only [hdi, and_self]

/-- The page 80h inquiry either is submitted and returns 0, or is not submitted
or returns something else. -/
theorem page80Inquiry_cases (host : InquiryHost) (h : Int) :
    (∃ r2, page80Inquiry host h = some r2 ∧ r2.result = 0)
      ∨ (∀ r2, page80Inquiry host h = some r2 → r2.result ≠ 0) := by
  cases hs : page80Inquiry host h with
  | none => right; intro r0 h0; simp at h0
  | some r =>
    by_cases hr : r.result = 0
    · left; exact ⟨r, rfl, hr⟩
    · right; intro r0 h0; simp only [Option.some.injEq] at h0; rw [← h0]; exact hr

/-- What `deviceIsPage80SCSI` yields when the page 80h submission returns 0,
whatever target status came with it. -/
theorem deviceIsPage80SCSI_of_answer (host : InquiryHost) (h : Int) (id : List Nat)
    (di : DTA_DEVICE_INFO) (r2 : PerformResult) (hp : page80Inquiry host h = some r2)
    (hr2 : r2.result = 0) :
    deviceIsPage80SCSI host h id di =
      { result := true
        interfaceDeviceIdentification := id
        disk_info := parseInquiryPage80Response host.deviceNeedsSpecialAction id r2.buffer di
        submissions := r2.submissions } := by
  unfold page80Inquiry at hp
  unfold deviceIsPage80SCSI
  cases ha : host.allocPage80 with
  | none => rw [ha] at hp; simp at hp
  | some raw =>
    rw [ha] at hp
    simp only [Option.map_some', Option.some.injEq] at hp
    simp only [hp, hr2, if_true]

/-- The whole chain when the three submissions return 0 and the page 00h list
declares 00h, 83h and 80h: the result is true and the device information is what
the page 80h parser makes of the transfer buffer. -/
theorem identify_of_page80_answer (host : InquiryHost) (h : Int) (id : List Nat)
    (di : DTA_DEVICE_INFO) (r0 r1 r2 : PerformResult)
    (hstd : standardInquiry host h = some r0) (hr0 : r0.result = 0)
    (hp00 : page00Inquiry host h = some r1) (hr1 : r1.result = 0)
    (h00 : kINQUIRY_Page00_PageCode ∈ page00PageCodes r1.buffer)
    (h83 : kINQUIRY_Page83_PageCode ∈ page00PageCodes r1.buffer)
    (h80 : kINQUIRY_Page80_PageCode ∈ page00PageCodes r1.buffer)
    (hp80 : page80Inquiry host h = some r2) (hr2 : r2.result = 0) :
    identifyUsingSCSIInquiry host h id di =
      { result := true
        interfaceDeviceIdentification :=
          (parseInquiryStandardDataAllResponse r0.buffer id di).1
        disk_info := parseInquiryPage80Response host.deviceNeedsSpecialAction
          (parseInquiryStandardDataAllResponse r0.buffer id di).1 r2.buffer
          (parseInquiryStandardDataAllResponse r0.buffer id di).2
        submissions := r0.submissions ++ r1.submissions ++ r2.submissions } := by
  have hs := deviceIsStandardSCSI_of_success host h id di r0 hstd hr0
  have hp := deviceIsPage00SCSI_of_answer host h r1 hp00 hr1
  have h8 := deviceIsPage80SCSI_of_answer host h
    (parseInquiryStandardDataAllResponse r0.buffer id di).1
    (parseInquiryStandardDataAllResponse r0.buffer id di).2 r2 hp80 hr2
  unfold identifyUsingSCSIInquiry
  simp [hs, hp, h00, h83, h80, h8]

/-- Unless the three submissions return 0 and the page 00h list declares 00h, 83h
and 80h, the chain leaves `serialNum` and `passwordSalt` as they were. -/
theorem identify_keeps_serial (host : InquiryHost) (h : Int) (id : List Nat)
    (di : DTA_DEVICE_INFO)
    (hn : ¬ ∃ r0 r1 r2, standardInquiry host h = some r0 ∧ r0.result = 0
        ∧ page00Inquiry host h = some r1 ∧ r1.result = 0
        ∧ kINQUIRY_Page00_PageCode ∈ page00PageCodes r1.buffer
        ∧ kINQUIRY_Page83_PageCode ∈ page00PageCodes r1.buffer
        ∧ kINQUIRY_Page80_PageCode ∈ page00PageCodes r1.buffer
        ∧ page80Inquiry host h = some r2 ∧ r2.result = 0) :
    (identifyUsingSCSIInquiry host h id di).disk_info.serialNum = di.serialNum
      ∧ (identifyUsingSCSIInquiry host h id di).disk_info.passwordSalt = di.passwordSalt := by
  by_cases hg : ∃ r0 r1, standardInquiry host h = some r0 ∧ r0.result = 0
      ∧ page00Inquiry host h = some r1 ∧ r1.result = 0
      ∧ kINQUIRY_Page80_PageCode ∈ page00PageCodes r1.buffer
  · obtain ⟨r0, r1, hs, hr0, hp, hr1, h80⟩ := hg
    have hstd := deviceIsStandardSCSI_of_success host h id di r0 hs hr0
    have hp00 := deviceIsPage00SCSI_of_answer host h r1 hp hr1
    have hkeep := parseStandard_keeps_serial r0.buffer id di
    have hd : (identifyUsingSCSIInquiry host h id di).disk_info
        = (parseInquiryStandardDataAllResponse r0.buffer id di).2 := by
      by_cases h0083 : kINQUIRY_Page00_PageCode ∈ page00PageCodes r1.buffer
          ∧ kINQUIRY_Page83_PageCode ∈ page00PageCodes r1.buffer
      · have hf : ∀ r2, page80Inquiry host h = some r2 → r2.result ≠ 0 :=
          fun r2 h2 h3 => hn ⟨r0, r1, r2, hs, hr0, hp, hr1, h0083.1, h0083.2, h80, h2, h3⟩
        have h8 := deviceIsPage80SCSI_of_failure host h
          (parseInquiryStandardDataAllResponse r0.buffer id di).1
          (parseInquiryStandardDataAllResponse r0.buffer id di).2 hf
        unfold identifyUsingSCSIInquiry
        simp [hstd, hp00, h0083.1, h0083.2, h80, h8.1, h8.2]
      · have hres : (decide (kINQUIRY_Page00_PageCode ∈ page00PageCodes r1.buffer)
            && decide (kINQUIRY_Page83_PageCode ∈ page00PageCodes r1.buffer)) = false := by
          by_cases a : kINQUIRY_Page00_PageCode ∈ page00PageCodes r1.buffer
          · have b : kINQUIRY_Page83_PageCode ∉ page00PageCodes r1.buffer :=
              fun hb => h0083 ⟨a, hb⟩
            simp [a, b]
          · simp [a]
        unfold identifyUsingSCSIInquiry
        simp only [hstd, hp00, hres, Bool.not_true, Bool.false_eq_true, if_false,
          Bool.not_false, if_true]
    rw [hd]
    exact hkeep
  · exact (page80_submission_gate host h id di).2 hg

/-- With the three submissions returning 0 and the list declaring 00h, 83h and
80h, `getDtaDevLinuxScsi` builds a device and does not close the handle, whatever
target status the page 80h submission came back with. -/
theorem page80_zero_result_accepts (os : LinuxHost) (host : InquiryHost)
    (ata : Int → List Nat → DTA_DEVICE_INFO → Bool × DTA_DEVICE_INFO × List SgIoHdr)
    (devref : String) (di : DTA_DEVICE_INFO) (r0 r1 r2 : PerformResult)
    (hopen : (DtaDevLinuxDrive.openDeviceHandle os devref false).1 ≠ INVALID_HANDLE_VALUE)
    (hstd : standardInquiry host (DtaDevLinuxDrive.openDeviceHandle os devref false).1
      = some r0)
    (hr0 : r0.result = 0)
    (hp00 : page00Inquiry host (DtaDevLinuxDrive.openDeviceHandle os devref false).1
      = some r1)
    (hr1 : r1.result = 0)
    (h00 : kINQUIRY_Page00_PageCode ∈ page00PageCodes r1.buffer)
    (h83 : kINQUIRY_Page83_PageCode ∈ page00PageCodes r1.buffer)
    (h80 : kINQUIRY_Page80_PageCode ∈ page00PageCodes r1.buffer)
    (hp80 : page80Inquiry host (DtaDevLinuxDrive.openDeviceHandle os devref false).1
      = some r2)
    (hr2 : r2.result = 0) :
    (∀ id : List Nat,
        (identifyUsingSCSIInquiry host (DtaDevLinuxDrive.openDeviceHandle os devref false).1
          id di).result = true)
      ∧ (getDtaDevLinuxScsi os host ata devref di).drive.isSome = true
      ∧ (getDtaDevLinuxScsi os host ata devref di).events.filter OsEvent.isHandleEvent
          = [OsEvent.openCall devref] := by
  have hid : ∀ id : List Nat,
      (identifyUsingSCSIInquiry host (DtaDevLinuxDrive.openDeviceHandle os devref false).1
        id di).result = true := by
    intro id
    rw [identify_of_page80_answer host _ id di r0 r1 r2 hstd hr0 hp00 hr1 h00 h83 h80 hp80 hr2]
  refine ⟨hid, ?_, ?_⟩
  · unfold getDtaDevLinuxScsi
    simp only [if_neg hopen, hid _, Bool.not_true, Bool.false_eq_true, if_false]
    split_ifs <;> rfl
  · unfold getDtaDevLinuxScsi
    simp only [if_neg hopen, hid _, Bool.not_true, Bool.false_eq_true, if_false]
    split_ifs <;>
      simp [List.filter_append, List.filter_map, OsEvent.isHandleEvent, Function.comp_def]

set_option maxRecDepth 20000 in
/-- C15 (evaluation of the code): `__inquiry` hands `PerformSCSICommand` a local
`masked_status` and returns the ioctl result without looking at it, so a page
80h inquiry that the device rejects with CHECK CONDITION (ioctl result 0) counts
as answered.  Whenever the three submissions return 0 and the page 00h list
declares 00h, 83h and 80h, `identifyUsingSCSIInquiry` returns true and
`getDtaDevLinuxScsi` builds a device without closing the handle, whatever the
target status.  On the sample device that rejects the page 80h inquiry the
device is built, the handle stays open, and `serialNum` and `passwordSalt` are
overwritten with the zeros of the untouched buffer. -/
theorem C15_page80_check_condition_accepted :
    (∀ (os : LinuxHost) (host : InquiryHost)
        (ata : Int → List Nat → DTA_DEVICE_INFO → Bool × DTA_DEVICE_INFO × List SgIoHdr)
        (devref : String) (di : DTA_DEVICE_INFO) (r0 r1 r2 : PerformResult),
        (DtaDevLinuxDrive.openDeviceHandle os devref false).1 ≠ INVALID_HANDLE_VALUE →
        standardInquiry host (DtaDevLinuxDrive.openDeviceHandle os devref false).1
          = some r0 → r0.result = 0 →
        page00Inquiry host (DtaDevLinuxDrive.openDeviceHandle os devref false).1
          = some r1 → r1.result = 0 →
        kINQUIRY_Page00_PageCode ∈ page00PageCodes r1.buffer →
        kINQUIRY_Page83_PageCode ∈ page00PageCodes r1.buffer →
        kINQUIRY_Page80_PageCode ∈ page00PageCodes r1.buffer →
        page80Inquiry host (DtaDevLinuxDrive.openDeviceHandle os devref false).1
          = some r2 → r2.result = 0 →
        (∀ id : List Nat,
          (identifyUsingSCSIInquiry host
            (DtaDevLinuxDrive.openDeviceHandle os devref false).1 id di).result = true)
        ∧ (getDtaDevLinuxScsi os host ata devref di).drive.isSome = true
        ∧ (getDtaDevLinuxScsi os host ata devref di).events.filter OsEvent.isHandleEvent
            = [OsEvent.openCall devref])
    ∧ (page00Inquiry page80CheckConditionHost 3).map
        (fun r => (r.result, r.masked_status, page00PageCodes r.buffer))
        = some (0, GOOD, [0x00, 0x80, 0x83])
    ∧ (page80Inquiry page80CheckConditionHost 3).map (fun r => (r.result, r.masked_status))
        = some (0, CHECK_CONDITION)
    ∧ CHECK_CONDITION ≠ GOOD
    ∧ (identifyUsingSCSIInquiry page80CheckConditionHost 3 plainId
        identifiedDeviceInfo).result = true
    ∧ (getDtaDevLinuxScsi sampleLinuxHost page80CheckConditionHost sampleAtaIdentify
        "/dev/sdb" identifiedDeviceInfo).drive = some (LinuxScsiDrive.DtaDevLinuxScsi 3)
    ∧ (getDtaDevLinuxScsi sampleLinuxHost page80CheckConditionHost sampleAtaIdentify
        "/dev/sdb" identifiedDeviceInfo).events.filter OsEvent.isHandleEvent
        = [OsEvent.openCall "/dev/sdb"]
    ∧ identifiedDeviceInfo.serialNum = [83, 69, 82, 48, 48, 48, 49] ++ List.replicate 13 32
    ∧ (getDtaDevLinuxScsi sampleLinuxHost page80CheckConditionHost sampleAtaIdentify
        "/dev/sdb" identifiedDeviceInfo).disk_info.serialNum = List.replicate 20 0
    ∧ (getDtaDevLinuxScsi sampleLinuxHost page80CheckConditionHost sampleAtaIdentify
        "/dev/sdb" identifiedDeviceInfo).disk_info.passwordSalt = List.replicate 20 0 := by
  refine ⟨?_, by decide, by decide, by decide, by decide, by decide, ?_, by decide,
    by decide, by decide⟩
  · intro os host ata devref di r0 r1 r2 hopen hstd hr0 hp00 hr1 h00 h83 h80 hp80 hr2
    exact page80_zero_result_accepts os host ata devref di r0 r1 r2 hopen hstd hr0 hp00 hr1
      h00 h83 h80 hp80 hr2
  · exact (page80_zero_result_accepts sampleLinuxHost page80CheckConditionHost
      sampleAtaIdentify "/dev/sdb" identifiedDeviceInfo
      (inquiryStandardDataAll_SCSI page80CheckConditionHost 3
        (memset (List.replicate 2048 0) 0 0 36) 36)
      (inquiryPage00_SCSI page80CheckConditionHost 3
        (memset (List.replicate 2048 0) 0 0 260) 260)
      (inquiryPage80_SCSI page80CheckConditionHost 3
        (memset (List.replicate 2048 0) 0 0 256) 256)
      (by decide) rfl (by decide) rfl (by decide) (by decide) (by decide) (by decide)
      rfl (by decide)).2.2

set_option maxRecDepth 20000 in
/-- C16 (evaluation of the code): the chain judges each inquiry by the ioctl
result alone.  On the sample device that rejects the Standard Inquiry with CHECK
CONDITION (ioctl result 0) and answers the page 00h and 80h inquiries, the chain
goes on, its third submission is a page 80h inquiry, and `serialNum` and
`passwordSalt` are overwritten.  What does hold in every run: a page 80h inquiry
is submitted only if the Standard Inquiry and page 00h submissions returned 0 and
the list declared 80h, and otherwise the two fields are as before. -/
theorem C16_page80_after_check_condition :
    (standardInquiry standardCheckConditionHost 3).map
        (fun r => (r.result, r.masked_status)) = some (0, CHECK_CONDITION)
    ∧ CHECK_CONDITION ≠ GOOD
    ∧ (identifyUsingSCSIInquiry standardCheckConditionHost 3 plainId
        identifiedDeviceInfo).submissions.map isPage80Submission = [false, false, true]
    ∧ identifiedDeviceInfo.serialNum = [83, 69, 82, 48, 48, 48, 49] ++ List.replicate 13 32
    ∧ (identifyUsingSCSIInquiry standardCheckConditionHost 3 plainId
        identifiedDeviceInfo).disk_info.serialNum = [65, 66, 67, 68] ++ List.replicate 16 0
    ∧ (identifyUsingSCSIInquiry standardCheckConditionHost 3 plainId
        identifiedDeviceInfo).disk_info.passwordSalt = [65, 66, 67, 68] ++ List.replicate 16 0
    ∧ (∀ (host : InquiryHost) (h : Int) (id : List Nat) (di : DTA_DEVICE_INFO),
        (∀ sg ∈ (identifyUsingSCSIInquiry host h id di).submissions,
          isPage80Submission sg = true →
          ∃ r0 r1, standardInquiry host h = some r0 ∧ r0.result = 0
            ∧ page00Inquiry host h = some r1 ∧ r1.result = 0
            ∧ kINQUIRY_Page80_PageCode ∈ page00PageCodes r1.buffer)
        ∧ ((¬ ∃ r0 r1 r2, standardInquiry host h = some r0 ∧ r0.result = 0
              ∧ page00Inquiry host h = some r1 ∧ r1.result = 0
              ∧ kINQUIRY_Page00_PageCode ∈ page00PageCodes r1.buffer
              ∧ kINQUIRY_Page83_PageCode ∈ page00PageCodes r1.buffer
              ∧ kINQUIRY_Page80_PageCode ∈ page00PageCodes r1.buffer
              ∧ page80Inquiry host h = some r2 ∧ r2.result = 0) →
            (identifyUsingSCSIInquiry host h id di).disk_info.serialNum = di.serialNum
              ∧ (identifyUsingSCSIInquiry host h id di).disk_info.passwordSalt
                  = di.passwordSalt)) := by
  refine ⟨by decide, by decide, by decide, by decide, by decide, by decide, ?_⟩
  intro host h id di
  exact ⟨(page80_submission_gate host h id di).1, identify_keeps_serial host h id di⟩

/-! ### Device-reference filters and enumerators -/

/-- C17: for every string that matches no Linux device-reference pattern
(respectively neither of the macOS patterns `/dev/disk[0-9]` and
`/dev/disk[1-9][0-9]`), `isDtaDevOSDriveDevRef` returns false, asks nothing of the
system (no handle is opened or closed) and leaves `accessDenied` as it was. -/
theorem C17_nonmatching_devref_no_io (os : LinuxHost) (mac : MacOSHost) (devref : String)
    (accessDenied : Bool) :
    (DtaDevLinuxDrive.isDtaDevLinuxDriveDevRef os devref = false →
        Linux.isDtaDevOSDriveDevRef os devref accessDenied
          = { result := false, accessDenied := accessDenied, events := [] })
      ∧ (matchesMacOSDiskPattern devref = false →
        MacOS.isDtaDevOSDriveDevRef mac devref accessDenied
          = { result := false, accessDenied := accessDenied, events := [] }) := by
  constructor
  · intro hno
    unfold Linux.isDtaDevOSDriveDevRef
    simp [hno]
  · intro hno
    unfold MacOS.isDtaDevOSDriveDevRef DtaDevMacOSDrive.isDtaDevMacOSDriveDevRef
      isDtaDevMacOSBlockStorageDeviceDevRef
    simp [hno]

/-- C17 on `/dev/tty0`, which is neither a disk of the Linux sample system nor a
macOS disk reference. -/
theorem C17_nonmatching_devref_no_io_witness :
    Linux.isDtaDevOSDriveDevRef sampleLinuxHost "/dev/tty0" true
      = { result := false, accessDenied := true, events := [] } :=
  (C17_nonmatching_devref_no_io sampleLinuxHost
    { findBSDName := fun _ => 0, findParent := fun _ => 0,
      conformsToBlockStorageDeviceClass := fun _ => false, openByRegistryWalk := fun _ => -1 }
    "/dev/tty0" true).1 (by decide)

/-- C18 (evaluation of the code): the Windows filter opens the reference before it
looks at the pattern.  For `\\.\C:`, which does not match
`\\.\PhysicalDrive<digits>`, it returns false after opening and closing a handle;
for a reference that does not exist it resets a set `accessDenied` to false. -/
theorem C18_windows_filter_opens_first :
    DtaDevWindowsDrive.isDtaDevWindowsDriveDevRef "\\\\.\\C:" = false
    ∧ Windows.isDtaDevOSDriveDevRef sampleWindowsHost "\\\\.\\C:" false
        = { result := false, accessDenied := false,
            events := [OsEvent.openCall "\\\\.\\C:", OsEvent.closeCall 9] }
    ∧ DtaDevWindowsDrive.isDtaDevWindowsDriveDevRef "\\\\.\\Z:" = false
    ∧ Windows.isDtaDevOSDriveDevRef sampleWindowsHost "\\\\.\\Z:" true
        = { result := false, accessDenied := false,
            events := [OsEvent.openCall "\\\\.\\Z:"] } := by
  refine ⟨?_, ?_, ?_, ?_⟩ <;> decide

theorem enumerate_foldl (filter : String → Bool → DevRefResult) (cands : List String) :
    ∀ (L : List String) (a : Bool),
      (cands.foldl (enumerateStep filter) (L, a)).1
          = L ++ cands.filter (fun c => (filter c false).result)
        ∧ (cands.foldl (enumerateStep filter) (L, a)).2
          = (a || cands.any (fun c => !(filter c false).result && (filter c false).accessDenied))
    := by
  induction cands with
  | nil => intro L a; simp
  | cons c cs ih =>
    intro L a
    rw [List.foldl_cons]
    by_cases hr : (filter c false).result = true
    · have hstep : enumerateStep filter (L, a) c = (L ++ [c], a) := by
        simp [enumerateStep, hr]
      obtain ⟨h1, h2⟩ := ih (L ++ [c]) a
      rw [hstep, h1, h2]
      simp [List.filter_cons, hr]
    · have hr2 : (filter c false).result = false := by simpa using hr
      by_cases hd : (filter c false).accessDenied = true
      · have hstep : enumerateStep filter (L, a) c = (L, true) := by
          simp [enumerateStep, hr2, hd]
        obtain ⟨h1, h2⟩ := ih L true
        rw [hstep, h1, h2]
        simp [List.filter_cons, hr2, hd]
      · have hd2 : (filter c false).accessDenied = false := by simpa using hd
        have hstep : enumerateStep filter (L, a) c = (L, a) := by
          simp [enumerateStep, hr2, hd2]
        obtain ⟨h1, h2⟩ := ih L a
        rw [hstep, h1, h2]
        simp [List.filter_cons, hr2, hd2]

theorem dev_prefix_injective : Function.Injective (fun d_name : String => "/dev/" ++ d_name) := by
  intro a b hab
  have h := congrArg String.data hab
  simp only [String.data_append, List.append_cancel_left_eq] at h
  exact String.ext h

theorem linux_enumerate_eq (os : LinuxHost) (entries : List String) (accessDenied : Bool)
    (hdir : os.readdirDev = some entries) :
    DtaDevLinuxDrive.enumerateDtaDevLinuxDriveDevRefs os accessDenied
      = (std_sort ((entries.map (fun d_name => "/dev/" ++ d_name)).filter
            (fun c => (Linux.isDtaDevOSDriveDevRef os c false).result)),
          (accessDenied || (entries.map (fun d_name => "/dev/" ++ d_name)).any
            (fun c => !(Linux.isDtaDevOSDriveDevRef os c false).result
              && (Linux.isDtaDevOSDriveDevRef os c false).accessDenied))) := by
  unfold DtaDevLinuxDrive.enumerateDtaDevLinuxDriveDevRefs
  rw [hdir]
  dsimp only
  obtain ⟨h1, h2⟩ := enumerate_foldl (Linux.isDtaDevOSDriveDevRef os)
    (entries.map (fun d_name => "/dev/" ++ d_name)) [] accessDenied
  rw [h1, h2]
  simp

/-- C19: for every listing of `/dev` with distinct entry names, the list that
`enumerateDtaDevLinuxDriveDevRefs` returns holds exactly the `/dev/`-prefixed
entries that the reference filter accepts, without duplicates, in strictly
increasing order. -/
theorem C19_linux_enumeration_sorted (os : LinuxHost) (entries : List String)
    (accessDenied : Bool) (hdir : os.readdirDev = some entries) (hnodup : entries.Nodup) :
    (∀ s : String, s ∈ (DtaDevLinuxDrive.enumerateDtaDevLinuxDriveDevRefs os accessDenied).1 ↔
        ∃ d_name ∈ entries, s = "/dev/" ++ d_name
          ∧ (Linux.isDtaDevOSDriveDevRef os s false).result = true)
      ∧ (DtaDevLinuxDrive.enumerateDtaDevLinuxDriveDevRefs os accessDenied).1.Nodup
      ∧ (DtaDevLinuxDrive.enumerateDtaDevLinuxDriveDevRefs os accessDenied).1.Sorted
          (fun a b => a < b) := by
  rw [linux_enumerate_eq os entries accessDenied hdir]
  dsimp only
  have hperm := List.perm_insertionSort (fun a b : String => a ≤ b)
    ((entries.map (fun d_name => "/dev/" ++ d_name)).filter
      (fun c => (Linux.isDtaDevOSDriveDevRef os c false).result))
  have hnd : (std_sort ((entries.map (fun d_name => "/dev/" ++ d_name)).filter
      (fun c => (Linux.isDtaDevOSDriveDevRef os c false).result))).Nodup :=
    hperm.nodup_iff.mpr ((hnodup.map dev_prefix_injective).filter _)
  refine ⟨?_, hnd, ?_⟩
  · intro s
    unfold std_sort
    rw [hperm.mem_iff, List.mem_filter, List.mem_map]
    constructor
    · rintro ⟨⟨d, hd, rfl⟩, hacc⟩
      exact ⟨d, hd, rfl, hacc⟩
    · rintro ⟨d, hd, rfl, hacc⟩
      exact ⟨⟨d, hd, rfl⟩, hacc⟩
  · exact (List.sorted_insertionSort (fun a b : String => a ≤ b) _).lt_of_le hnd

/-- C19 on the sample listing `.`, `..`, `sdc`, `sdb`, `tty0`. -/
theorem C19_linux_enumeration_sorted_witness :
    (DtaDevLinuxDrive.enumerateDtaDevLinuxDriveDevRefs sampleLinuxHost false).1.Sorted
      (fun a b => a < b) :=
  (C19_linux_enumeration_sorted sampleLinuxHost [".", "..", "sdc", "sdb", "tty0"] false rfl
    (by decide)).2.2

/-- C20: in the Linux enumerator, a candidate that is opened and refused with
`EACCES` is absent from the returned list and `accessDenied` is true on return;
in the Windows enumerator the same holds for a candidate refused with
`ERROR_ACCESS_DENIED`; in both, a flag that is true on entry is true on
return. -/
theorem C20_access_denied_aggregated (lin : LinuxHost) (win : WindowsHost)
    (accessDenied : Bool) :
    (∀ (entries : List String) (d_name : String), lin.readdirDev = some entries →
        d_name ∈ entries →
        DtaDevLinuxDrive.isDtaDevLinuxDriveDevRef lin ("/dev/" ++ d_name) = true →
        lin.openRdwr ("/dev/" ++ d_name) = (-1, EACCES) →
        ("/dev/" ++ d_name) ∉
            (DtaDevLinuxDrive.enumerateDtaDevLinuxDriveDevRefs lin accessDenied).1
          ∧ (DtaDevLinuxDrive.enumerateDtaDevLinuxDriveDevRefs lin accessDenied).2 = true)
      ∧ (∀ i : Nat, i < win.MAX_DISKS →
        win.createFile (windowsCandidate i) = (INVALID_HANDLE_VALUE, ERROR_ACCESS_DENIED) →
        windowsCandidate i ∉
            (DtaDevWindowsDrive.enumerateDtaDevWindowsDriveDevRefs win accessDenied).1
          ∧ (DtaDevWindowsDrive.enumerateDtaDevWindowsDriveDevRefs win accessDenied).2 = true)
      ∧ (DtaDevLinuxDrive.enumerateDtaDevLinuxDriveDevRefs lin true).2 = true
      ∧ (DtaDevWindowsDrive.enumerateDtaDevWindowsDriveDevRefs win true).2 = true := by
  refine ⟨?_, ?_, ?_, ?_⟩
  · intro entries d_name hdir hmem hpat hperm
    have hf : Linux.isDtaDevOSDriveDevRef lin ("/dev/" ++ d_name) false
        = { result := false, accessDenied := true,
            events := [OsEvent.openCall ("/dev/" ++ d_name)] } := by
      unfold Linux.isDtaDevOSDriveDevRef DtaDevLinuxDrive.openDeviceHandle
      simp [hpat, hperm, INVALID_HANDLE_VALUE]
    rw [linux_enumerate_eq lin entries accessDenied hdir]
    dsimp only
    constructor
    · unfold std_sort
      rw [(List.perm_insertionSort _ _).mem_iff, List.mem_filter]
      rintro ⟨-, hacc⟩
      rw [hf] at hacc
      exact Bool.false_ne_true hacc
    · rw [Bool.or_eq_true]
      right
      rw [List.any_eq_true]
      refine ⟨"/dev/" ++ d_name, List.mem_map.mpr ⟨d_name, hmem, rfl⟩, ?_⟩
      rw [hf]
      rfl
  · intro i hi hperm
    have hf : Windows.isDtaDevOSDriveDevRef win (windowsCandidate i) false
        = { result := false, accessDenied := true,
            events := [OsEvent.openCall (windowsCandidate i)] } := by
      unfold Windows.isDtaDevOSDriveDevRef DtaDevWindowsDrive.openDeviceHandle
      simp [hperm, INVALID_HANDLE_VALUE]
    obtain ⟨h1, h2⟩ := enumerate_foldl (Windows.isDtaDevOSDriveDevRef win)
      ((List.range win.MAX_DISKS).map windowsCandidate) [] accessDenied
    unfold DtaDevWindowsDrive.enumerateDtaDevWindowsDriveDevRefs
    rw [h1, h2]
    constructor
    · rw [List.nil_append, List.mem_filter]
      rintro ⟨-, hacc⟩
      rw [hf] at hacc
      exact Bool.false_ne_true hacc
    · rw [Bool.or_eq_true]
      right
      rw [List.any_eq_true]
      refine ⟨windowsCandidate i, List.mem_map.mpr ⟨i, List.mem_range.mpr hi, rfl⟩, ?_⟩
      rw [hf]
      rfl
  · unfold DtaDevLinuxDrive.enumerateDtaDevLinuxDriveDevRefs
    cases hdir : lin.readdirDev with
    | none => rfl
    | some entries =>
      dsimp only
      rw [(enumerate_foldl (Linux.isDtaDevOSDriveDevRef lin) _ [] true).2]
      rfl
  · unfold DtaDevWindowsDrive.enumerateDtaDevWindowsDriveDevRefs
    rw [(enumerate_foldl (Windows.isDtaDevOSDriveDevRef win) _ [] true).2]
    rfl

/-- C20 on the sample systems: `/dev/sdc` and `\\.\PhysicalDrive1` are refused for
lack of permission, while `/dev/sdb` and `\\.\PhysicalDrive0` open. -/
theorem C20_access_denied_aggregated_witness :
    ("/dev/" ++ "sdc") ∉ (DtaDevLinuxDrive.enumerateDtaDevLinuxDriveDevRefs sampleLinuxHost
        false).1
      ∧ (DtaDevLinuxDrive.enumerateDtaDevLinuxDriveDevRefs sampleLinuxHost false).2 = true :=
  (C20_access_denied_aggregated sampleLinuxHost sampleWindowsHost false).1
    [".", "..", "sdc", "sdb", "tty0"] "sdc" rfl (by decide) (by decide) (by decide)

/-! ### Invalid handle, page 00h loop, page 80h bounds -/

/-- C28 (evaluation of the code): on a drive whose handle is
`INVALID_HANDLE_VALUE`, `PerformSCSICommand` returns the positive `EBADF` without
a submission and without touching `masked_status`, and `sendCmd`, which tests
`result < 0`, returns the success byte `0x00` for `IF_RECV` and for `IF_SEND`. -/
theorem C28_sendCmd_invalid_handle (ioctl : Int → SgIoHdr → SgReply) (timeout : Nat)
    (p c : Nat) (buf : List Nat) (n : Nat) :
    sendCmd ioctl timeout INVALID_HANDLE_VALUE .IF_RECV p c buf n
        = { status := 0x00, buffer := buf, submissions := [] }
      ∧ sendCmd ioctl timeout INVALID_HANDLE_VALUE .IF_SEND p c buf n
        = { status := 0x00, buffer := buf, submissions := [] }
      ∧ (∀ (dir : DxferDirection) (cdb : List Nat),
          (sendCmdPerform ioctl timeout INVALID_HANDLE_VALUE dir cdb buf n).result = EBADF
          ∧ (sendCmdPerform ioctl timeout INVALID_HANDLE_VALUE dir cdb buf n).masked_status
              = GOOD
          ∧ (sendCmdPerform ioctl timeout INVALID_HANDLE_VALUE dir cdb buf n).submissions
              = [])
      ∧ (0 : Int) < EBADF := by
  refine ⟨?_, ?_, ?_, by decide⟩
  · simp [sendCmd, sendCmdCdb, sendCmdPerform, PerformSCSICommand, EBADF, GOOD]
  · simp [sendCmd, sendCmdCdb, sendCmdPerform, PerformSCSICommand, EBADF, GOOD]
  · intro dir cdb
    simp [sendCmdPerform, PerformSCSICommand]

theorem readBytes_eq_map_range (src : List Nat) (n : Nat) :
    readBytes src n = (List.range n).map (fun i => src.getD i 0) := by
  apply List.ext_getElem?
  intro i
  rw [readBytes_getElem_opt, List.getElem?_map]
  by_cases hi : i < n
  · rw [if_pos hi, List.getElem?_range hi]; rfl
  · rw [if_neg hi, List.getElem?_eq_none (by simpa using hi)]; rfl

theorem getD_drop (l : List Nat) (k i : Nat) : (l.drop k).getD i 0 = l.getD (k + i) 0 := by
  rw [List.getD_eq_getElem?_getD, List.getD_eq_getElem?_getD, List.getElem?_drop]

theorem page00PageCodes_eq (response : List Nat) :
    page00PageCodes response
      = (List.range (page00PageLength response)).map (fun i => response.getD (4 + i) 0) := by
  unfold page00PageCodes
  rw [readBytes_eq_map_range]
  apply List.map_congr_left
  intro i _
  exact getD_drop response 4 i

theorem parseInquiryPage00Loop_eq (response : List Nat) (pLast : Nat) :
    ∀ (fuel p : Nat) (flags : Page00Flags) (reads : List Nat), pLast - p ≤ fuel →
      parseInquiryPage00Loop fuel response p pLast flags reads
        = (((List.range (pLast - p)).map (fun i => response.getD (p + 1 + i) 0)).foldl
              page00Switch flags,
            reads ++ (List.range (pLast - p)).map (fun i => p + 1 + i)) := by
  intro fuel
  induction fuel with
  | zero =>
    intro p flags reads h
    have h0 : pLast - p = 0 := by omega
    simp [parseInquiryPage00Loop, h0]
  | succ fuel ih =>
    intro p flags reads h
    unfold parseInquiryPage00Loop
    by_cases hp : p + 1 ≤ pLast
    · rw [if_pos hp, ih (p + 1) _ _ (by omega)]
      have e : pLast - p = (pLast - (p + 1)) + 1 := by omega
      rw [e, List.range_succ_eq_map]
      simp only [List.map_cons, List.map_map, List.foldl_cons, List.append_assoc,
        List.singleton_append, Nat.add_zero]
      have e1 : (fun i => response.getD (p + 1 + 1 + i) 0)
          = (fun i => response.getD (p + 1 + i) 0) ∘ Nat.succ := by
        funext i
        simp only [Function.comp, Nat.succ_eq_add_one]
        congr 1
        omega
      have e2 : (fun i => p + 1 + 1 + i) = (fun i => p + 1 + i) ∘ Nat.succ := by
        funext i
        simp only [Function.comp, Nat.succ_eq_add_one]
        omega
      rw [e1, e2]
    · rw [if_neg hp]
      have h0 : pLast - p = 0 := by omega
      simp [h0]

theorem page00Switch_foldl_mono (codes : List Nat) (flags : Page00Flags) :
    (flags.deviceSupportsPage00 = true →
        (codes.foldl page00Switch flags).deviceSupportsPage00 = true)
      ∧ (flags.deviceSupportsPage80 = true →
        (codes.foldl page00Switch flags).deviceSupportsPage80 = true)
      ∧ (flags.deviceSupportsPage83 = true →
        (codes.foldl page00Switch flags).deviceSupportsPage83 = true)
      ∧ (flags.deviceSupportsPage89 = true →
        (codes.foldl page00Switch flags).deviceSupportsPage89 = true) := by
  obtain ⟨h0, h80, h83, h89⟩ := page00Switch_foldl codes flags
  rw [h0, h80, h83, h89]
  refine ⟨?_, ?_, ?_, ?_⟩ <;> intro h <;> simp [h]

/-- C27: the loop of `parseInquiryPage00Response` visits exactly the `PAGE_LENGTH`
bytes after the 4-byte header; starting from all flags false, each of the four
flags is true afterwards exactly when its page code is among those bytes; a set
flag stays set; other page codes change nothing; and every index read is below
260. -/
theorem C27_page00_parse (response : List Nat) :
    (∀ fuel : Nat, page00PageLength response ≤ fuel →
        parseInquiryPage00Trace fuel response page00FlagsInit
          = (parseInquiryPage00Response response page00FlagsInit,
              3 :: (List.range (page00PageLength response)).map (fun i => 4 + i)))
      ∧ page00PageCodes response
          = (List.range (page00PageLength response)).map (fun i => response.getD (4 + i) 0)
      ∧ ((parseInquiryPage00Response response page00FlagsInit).deviceSupportsPage00 = true
          ↔ kINQUIRY_Page00_PageCode ∈ page00PageCodes response)
      ∧ ((parseInquiryPage00Response response page00FlagsInit).deviceSupportsPage80 = true
          ↔ kINQUIRY_Page80_PageCode ∈ page00PageCodes response)
      ∧ ((parseInquiryPage00Response response page00FlagsInit).deviceSupportsPage83 = true
          ↔ kINQUIRY_Page83_PageCode ∈ page00PageCodes response)
      ∧ ((parseInquiryPage00Response response page00FlagsInit).deviceSupportsPage89 = true
          ↔ kINQUIRY_Page89_PageCode ∈ page00PageCodes response)
      ∧ (∀ flags : Page00Flags,
          (flags.deviceSupportsPage00 = true →
            (parseInquiryPage00Response response flags).deviceSupportsPage00 = true)
          ∧ (flags.deviceSupportsPage80 = true →
            (parseInquiryPage00Response response flags).deviceSupportsPage80 = true)
          ∧ (flags.deviceSupportsPage83 = true →
            (parseInquiryPage00Response response flags).deviceSupportsPage83 = true)
          ∧ (flags.deviceSupportsPage89 = true →
            (parseInquiryPage00Response response flags).deviceSupportsPage89 = true))
      ∧ (∀ (flags : Page00Flags) (pageCode : Nat),
          pageCode ≠ kINQUIRY_Page00_PageCode → pageCode ≠ kINQUIRY_Page80_PageCode →
          pageCode ≠ kINQUIRY_Page83_PageCode → pageCode ≠ kINQUIRY_Page89_PageCode →
          page00Switch flags pageCode = flags)
      ∧ (∀ fuel : Nat, page00PageLength response ≤ fuel →
          ∀ i ∈ (parseInquiryPage00Trace fuel response page00FlagsInit).2, i < 260) := by
  have hPL : page00PageLength response < 256 := by
    unfold page00PageLength; omega
  have htrace : ∀ fuel : Nat, page00PageLength response ≤ fuel →
      parseInquiryPage00Trace fuel response page00FlagsInit
        = (parseInquiryPage00Response response page00FlagsInit,
            3 :: (List.range (page00PageLength response)).map (fun i => 4 + i)) := by
    intro fuel hfuel
    unfold parseInquiryPage00Trace
    rw [parseInquiryPage00Loop_eq response _ fuel 3 _ _ (by omega)]
    have e : 3 + page00PageLength response - 3 = page00PageLength response := by omega
    rw [e]
    unfold parseInquiryPage00Response
    rw [page00PageCodes_eq]
    rfl
  obtain ⟨h0, h80, h83, h89⟩ := page00Switch_foldl (page00PageCodes response) page00FlagsInit
  refine ⟨htrace, page00PageCodes_eq response, ?_, ?_, ?_, ?_, ?_, ?_, ?_⟩
  · unfold parseInquiryPage00Response; rw [h0]; simp [page00FlagsInit]
  · unfold parseInquiryPage00Response; rw [h80]; simp [page00FlagsInit]
  · unfold parseInquiryPage00Response; rw [h83]; simp [page00FlagsInit]
  · unfold parseInquiryPage00Response; rw [h89]; simp [page00FlagsInit]
  · intro flags
    exact page00Switch_foldl_mono (page00PageCodes response) flags
  · intro flags pageCode n0 n80 n83 n89
    unfold page00Switch
    rw [if_neg n0, if_neg n80, if_neg n83, if_neg n89]
  · intro fuel hfuel i hi
    rw [htrace fuel hfuel] at hi
    simp only [List.mem_cons, List.mem_map, List.mem_range] at hi
    rcases hi with rfl | ⟨j, hj, rfl⟩
    · omega
    · omega

theorem strlen_le_of_zero : ∀ (s : List Nat) (k : Nat), k < s.length → s.getD k 0 = 0 →
    strlen s ≤ k := by
  intro s
  induction s with
  | nil => intro k hk; simp at hk
  | cons x xs ih =>
    intro k hk hz
    by_cases hx : x = 0
    · simp [strlen, List.takeWhile_cons, hx]
    · cases k with
      | zero => simp at hz; exact absurd hz hx
      | succ k =>
        have hk2 : k < xs.length := by simpa using hk
        have hz2 : xs.getD k 0 = 0 := by simpa using hz
        have := ih k hk2 hz2
        simp only [strlen, List.takeWhile_cons, bne_iff_ne, ne_eq, hx, not_false_eq_true,
          decide_True, if_true, List.length_cons] at this ⊢
        omega

theorem page80SerialNumber_length (response : List Nat) :
    (page80SerialNumber response).length = 257 := by
  have hPL : page80PageLength response < 256 := by
    unfold page80PageLength; omega
  rw [page80SerialNumber_eq, List.length_append, readBytes_length, List.length_replicate]
  omega

set_option maxRecDepth 20000 in
/-- C30 (evaluation of the code): for every `PAGE_LENGTH` at most 255 bytes go
into the 257-byte buffer, which keeps NULs in its last two bytes, so `strlen` is
at most 255 and the reversal keeps the buffer's length; but with
`PAGE_LENGTH = 255` the byte at index 258 of the response is read, and two
transfers that agree on all 256 bytes requested give, under the reversal quirk,
different serial numbers. -/
theorem C30_page80_reads_past_transfer :
    (∀ response : List Nat, page80PageLength response ≤ 255)
    ∧ (∀ response : List Nat,
        (page80SerialNumber response).length = 257
          ∧ (page80SerialNumber response).getD 255 0 = 0
          ∧ (page80SerialNumber response).getD 256 0 = 0
          ∧ strlen (page80SerialNumber response) ≤ 255
          ∧ (strrev (page80SerialNumber response)).length = 257)
    ∧ (∀ response : List Nat, page80PageLength response = 255 →
        (page80SerialNumber response).getD 254 0 = response.getD 258 0)
    ∧ (fullLengthSerialResponse [70, 71, 72]).take 256
        = (fullLengthSerialResponse [1, 2, 3]).take 256
    ∧ (parseInquiryPage80Response sampleQuirks quirkyId (fullLengthSerialResponse [70, 71, 72])
        sampleDeviceInfo).serialNum = [72, 71, 70] ++ List.replicate 17 65
    ∧ (parseInquiryPage80Response sampleQuirks quirkyId (fullLengthSerialResponse [1, 2, 3])
        sampleDeviceInfo).serialNum = [3, 2, 1] ++ List.replicate 17 65 := by
  have hPL : ∀ response : List Nat, page80PageLength response ≤ 255 := by
    intro response; unfold page80PageLength; omega
  refine ⟨hPL, ?_, ?_, ?_, ?_, ?_⟩
  · intro response
    have h255 : (page80SerialNumber response).getD 255 0 = 0 := by
      rw [page80SerialNumber_getD, if_neg (by have := hPL response; omega)]
    have h256 : (page80SerialNumber response).getD 256 0 = 0 := by
      rw [page80SerialNumber_getD, if_neg (by have := hPL response; omega)]
    refine ⟨page80SerialNumber_length response, h255, h256, ?_, ?_⟩
    · exact strlen_le_of_zero _ 255 (by rw [page80SerialNumber_length]; omega) h255
    · rw [strrev_eq_cstrReverse, cstrReverse_length, page80SerialNumber_length]
  · intro response h
    rw [page80SerialNumber_getD, if_pos (by omega)]
  · decide
  · decide
  · decide

/-! ### What the chain writes into the device information -/

/-- C21: `discovery0` (Linux and Windows alike), once its buffer is allocated,
makes exactly one call `sendCmd(IF_RECV, 0x01, 0x0001, buffer, MIN_BUFFER_LENGTH)`
on a buffer whose first `MIN_BUFFER_LENGTH` bytes are zero; a non-zero status
gives `DTAERROR_COMMAND_ERROR` with no call of the feature parser and the device
information unchanged; the result is `DTAERROR_SUCCESS` exactly when the status
was 0, and then the parser ran once, on the buffer `sendCmd` left. -/
theorem C21_discovery0_status (host : Discovery0Host) (raw : List Nat)
    (disk_info : DTA_DEVICE_INFO) (halloc : host.alloc = some raw) :
    DtaDevWindowsDrive.discovery0 host disk_info = DtaDevLinuxDrive.discovery0 host disk_info
    ∧ (DtaDevLinuxDrive.discovery0 host disk_info).sendCmdCalls
        = [{ cmd := .IF_RECV, protocol := 0x01, comID := 0x0001,
             buffer := memset raw 0 0 host.MIN_BUFFER_LENGTH,
             bufferlen := host.MIN_BUFFER_LENGTH }]
    ∧ (memset raw 0 0 host.MIN_BUFFER_LENGTH).take host.MIN_BUFFER_LENGTH
        = List.replicate host.MIN_BUFFER_LENGTH 0
    ∧ ((host.sendCmd .IF_RECV 0x01 0x0001 (memset raw 0 0 host.MIN_BUFFER_LENGTH)
          host.MIN_BUFFER_LENGTH).1 ≠ 0 →
        (DtaDevLinuxDrive.discovery0 host disk_info).rc = .DTAERROR_COMMAND_ERROR
        ∧ (DtaDevLinuxDrive.discovery0 host disk_info).parserCalls = []
        ∧ (DtaDevLinuxDrive.discovery0 host disk_info).disk_info = disk_info)
    ∧ ((DtaDevLinuxDrive.discovery0 host disk_info).rc = .DTAERROR_SUCCESS ↔
        (host.sendCmd .IF_RECV 0x01 0x0001 (memset raw 0 0 host.MIN_BUFFER_LENGTH)
          host.MIN_BUFFER_LENGTH).1 = 0)
    ∧ ((host.sendCmd .IF_RECV 0x01 0x0001 (memset raw 0 0 host.MIN_BUFFER_LENGTH)
          host.MIN_BUFFER_LENGTH).1 = 0 →
        (DtaDevLinuxDrive.discovery0 host disk_info).parserCalls
          = [(host.sendCmd .IF_RECV 0x01 0x0001 (memset raw 0 0 host.MIN_BUFFER_LENGTH)
                host.MIN_BUFFER_LENGTH).2]
        ∧ (DtaDevLinuxDrive.discovery0 host disk_info).disk_info
          = host.parseDiscovery0Features
              (host.sendCmd .IF_RECV 0x01 0x0001 (memset raw 0 0 host.MIN_BUFFER_LENGTH)
                host.MIN_BUFFER_LENGTH).2 disk_info) := by
  refine ⟨?_, ?_, ?_, ?_, ?_, ?_⟩
  · rfl
  · unfold DtaDevLinuxDrive.discovery0
    rw [halloc]
    by_cases hs : (host.sendCmd .IF_RECV 0x01 0x0001 (memset raw 0 0 host.MIN_BUFFER_LENGTH)
        host.MIN_BUFFER_LENGTH).1 = 0
    · simp [hs]
    · simp [hs]
  · simp [memset]
  · intro hs
    unfold DtaDevLinuxDrive.discovery0
    rw [halloc]
    simp [hs]
  · unfold DtaDevLinuxDrive.discovery0
    rw [halloc]
    by_cases hs : (host.sendCmd .IF_RECV 0x01 0x0001 (memset raw 0 0 host.MIN_BUFFER_LENGTH)
        host.MIN_BUFFER_LENGTH).1 = 0
    · simp [hs]
    · simp [hs]
  · intro hs
    unfold DtaDevLinuxDrive.discovery0
    rw [halloc]
    simp [hs]

/-- C21 (witness): on the sample host whose `sendCmd` reports status 1, both
results are those the theorem gives. -/
theorem C21_discovery0_status_witness :
    (sampleDiscovery0Host 1).alloc = some (List.replicate 2048 0xAA)
    ∧ (DtaDevLinuxDrive.discovery0 (sampleDiscovery0Host 1) sampleDeviceInfo).rc
        = .DTAERROR_COMMAND_ERROR
    ∧ (DtaDevLinuxDrive.discovery0 (sampleDiscovery0Host 1) sampleDeviceInfo).disk_info
        = sampleDeviceInfo :=
  ⟨rfl,
   ((C21_discovery0_status (sampleDiscovery0Host 1) (List.replicate 2048 0xAA)
      sampleDeviceInfo rfl).2.2.2.1 (by decide)).1,
   ((C21_discovery0_status (sampleDiscovery0Host 1) (List.replicate 2048 0xAA)
      sampleDeviceInfo rfl).2.2.2.1 (by decide)).2.2⟩

/-! ### The identification entry point -/

/-- C22: `getDtaDevOS(devref, pdev, genericIfNotTPer)` returns
`DTAERROR_DEVICE_ACCESS_DENIED` exactly when drive acquisition reported access
denied; `DTAERROR_COMMAND_ERROR` when access was not denied and either no drive
or no device object was produced; `DTAERROR_SUCCESS` when a drive and a device
object were produced; `*pdev` is set exactly when the result is
`DTAERROR_SUCCESS`; and two values of `genericIfNotTPer` for which device
construction has the same outcome give the same result. -/
theorem C22_getDtaDevOS_result_codes {Drive Dev : Type} (host : EntryHost Drive Dev)
    (devref : String) (genericIfNotTPer : Bool) :
    ((DtaDevOS.getDtaDevOS host devref genericIfNotTPer).rc = .DTAERROR_DEVICE_ACCESS_DENIED ↔
        (host.getDtaDevOSDrive devref host.zeroedDeviceInfo false).2.2 = true)
    ∧ ((host.getDtaDevOSDrive devref host.zeroedDeviceInfo false).2.2 = false →
        (host.getDtaDevOSDrive devref host.zeroedDeviceInfo false).1 = none →
        (DtaDevOS.getDtaDevOS host devref genericIfNotTPer).rc = .DTAERROR_COMMAND_ERROR)
    ∧ (∀ drive, (host.getDtaDevOSDrive devref host.zeroedDeviceInfo false).2.2 = false →
        (host.getDtaDevOSDrive devref host.zeroedDeviceInfo false).1 = some drive →
        host.getDtaDevOS_withDrive devref drive
          (host.getDtaDevOSDrive devref host.zeroedDeviceInfo false).2.1 genericIfNotTPer
          = none →
        (DtaDevOS.getDtaDevOS host devref genericIfNotTPer).rc = .DTAERROR_COMMAND_ERROR)
    ∧ (∀ drive dev, (host.getDtaDevOSDrive devref host.zeroedDeviceInfo false).2.2 = false →
        (host.getDtaDevOSDrive devref host.zeroedDeviceInfo false).1 = some drive →
        host.getDtaDevOS_withDrive devref drive
          (host.getDtaDevOSDrive devref host.zeroedDeviceInfo false).2.1 genericIfNotTPer
          = some dev →
        (DtaDevOS.getDtaDevOS host devref genericIfNotTPer).rc = .DTAERROR_SUCCESS
        ∧ (DtaDevOS.getDtaDevOS host devref genericIfNotTPer).pdev = some dev)
    ∧ ((DtaDevOS.getDtaDevOS host devref genericIfNotTPer).pdev.isSome = true ↔
        (DtaDevOS.getDtaDevOS host devref genericIfNotTPer).rc = .DTAERROR_SUCCESS)
    ∧ (∀ other : Bool,
        (∀ drive, (host.getDtaDevOS_withDrive devref drive
            (host.getDtaDevOSDrive devref host.zeroedDeviceInfo false).2.1 other).isSome
          = (host.getDtaDevOS_withDrive devref drive
            (host.getDtaDevOSDrive devref host.zeroedDeviceInfo false).2.1
              genericIfNotTPer).isSome) →
        (DtaDevOS.getDtaDevOS host devref other).rc
          = (DtaDevOS.getDtaDevOS host devref genericIfNotTPer).rc) := by
  have key : ∀ g : Bool, (DtaDevOS.getDtaDevOS host devref g).rc =
      (if (host.getDtaDevOSDrive devref host.zeroedDeviceInfo false).2.2 = true then
        DTAERROR.DTAERROR_DEVICE_ACCESS_DENIED
      else match (host.getDtaDevOSDrive devref host.zeroedDeviceInfo false).1 with
        | none => DTAERROR.DTAERROR_COMMAND_ERROR
        | some drive =>
            if (host.getDtaDevOS_withDrive devref drive
                (host.getDtaDevOSDrive devref host.zeroedDeviceInfo false).2.1 g).isSome = true
            then DTAERROR.DTAERROR_SUCCESS else DTAERROR.DTAERROR_COMMAND_ERROR)
      ∧ ((DtaDevOS.getDtaDevOS host devref g).pdev =
      (if (host.getDtaDevOSDrive devref host.zeroedDeviceInfo false).2.2 = true then none
      else match (host.getDtaDevOSDrive devref host.zeroedDeviceInfo false).1 with
        | none => none
        | some drive => host.getDtaDevOS_withDrive devref drive
                (host.getDtaDevOSDrive devref host.zeroedDeviceInfo false).2.1 g)) := by
    intro g
    simp only [DtaDevOS.getDtaDevOS]
    generalize host.getDtaDevOSDrive devref host.zeroedDeviceInfo false = acq
    obtain ⟨dr, di, acc⟩ := acq
    cases dr with
    | none => cases acc <;> simp
    | some d =>
        cases acc with
        | true => simp
        | false =>
            simp only [Bool.false_eq_true, if_false]
            cases hw : host.getDtaDevOS_withDrive devref d di g <;> simp
  have keyg := key genericIfNotTPer
  generalize hacq : host.getDtaDevOSDrive devref host.zeroedDeviceInfo false = acq at key keyg ⊢
  obtain ⟨dr, di, acc⟩ := acq
  simp only at key keyg ⊢
  refine ⟨?_, ?_, ?_, ?_, ?_, ?_⟩
  · rw [keyg.1]
    cases acc with
    | true => simp
    | false =>
        cases dr with
        | none => simp
        | some d =>
            simp only [Bool.false_eq_true, if_false]
            cases (host.getDtaDevOS_withDrive devref d di genericIfNotTPer) <;> simp
  · intro hacc hdr
    rw [keyg.1, hacc, hdr]
    simp
  · intro d hacc hdr hw
    rw [keyg.1, hacc, hdr]
    simp [hw]
  · intro d dev hacc hdr hw
    rw [keyg.1, keyg.2, hacc, hdr]
    simp [hw]
  · rw [keyg.1, keyg.2]
    cases acc with
    | true => simp
    | false =>
        cases dr with
        | none => simp
        | some d =>
            simp only [Bool.false_eq_true, if_false]
            cases (host.getDtaDevOS_withDrive devref d di genericIfNotTPer) <;> simp
  · intro other hsame
    rw [(key other).1, keyg.1]
    cases acc with
    | true => simp
    | false =>
        cases dr with
        | none => simp
        | some d =>
            simp only [Bool.false_eq_true, if_false]
            rw [hsame d]

/-! ### Handle release -/

/-- A drive whose handle is already invalid is not open for any class. -/
theorem isOpen_invalid (cls : DriveClass) (alive : Int → Bool) :
    isOpen cls alive { osDeviceHandle := INVALID_HANDLE_VALUE } = false := by
  cases cls <;> simp [isOpen, DtaDevOSDrive.isOpen]

/-- The two possible outcomes of `closeDrive`. -/
theorem closeDrive_cases (cls : DriveClass) (alive : Int → Bool) (d : DriveState) :
    closeDrive cls alive d = (d, [])
    ∨ closeDrive cls alive d
        = ({ osDeviceHandle := INVALID_HANDLE_VALUE }, [OsEvent.closeCall d.osDeviceHandle]) := by
  unfold closeDrive
  by_cases h : isOpen cls alive d = true
  · right; rw [if_pos h]
  · left; rw [if_neg h]

/-- On an invalid handle `closeDrive` does nothing. -/
theorem closeDrive_invalid (cls : DriveClass) (alive : Int → Bool) :
    closeDrive cls alive { osDeviceHandle := INVALID_HANDLE_VALUE }
      = ({ osDeviceHandle := INVALID_HANDLE_VALUE }, []) := by
  unfold closeDrive
  rw [isOpen_invalid]
  rfl

/-- The two possible outcomes of destruction. -/
theorem destroyDrive_cases (cls : DriveClass) (alive : Int → Bool) (d : DriveState) :
    destroyDrive cls alive d = (d, [])
    ∨ destroyDrive cls alive d
        = ({ osDeviceHandle := INVALID_HANDLE_VALUE }, [OsEvent.closeCall d.osDeviceHandle]) := by
  cases cls with
  | DtaDevWindowsDrive =>
      have e : destroyDrive .DtaDevWindowsDrive alive d
          = ((closeDrive .DtaDevOSDrive alive (closeDrive .DtaDevWindowsDrive alive d).1).1,
             (closeDrive .DtaDevWindowsDrive alive d).2
               ++ (closeDrive .DtaDevOSDrive alive
                    (closeDrive .DtaDevWindowsDrive alive d).1).2) := rfl
      rw [e]
      rcases closeDrive_cases .DtaDevWindowsDrive alive d with h | h
      · rw [h]
        rcases closeDrive_cases .DtaDevOSDrive alive d with h2 | h2
        · left; simp [h2]
        · right; simp [h2]
      · rw [h]
        right
        simp [closeDrive_invalid]
  | DtaDevOSDrive => exact closeDrive_cases .DtaDevOSDrive alive d
  | DtaDevLinuxDrive => exact closeDrive_cases .DtaDevOSDrive alive d
  | DtaDevMacOSDrive => exact closeDrive_cases .DtaDevOSDrive alive d

/-- Unfolding of `runDriveOps` at a `closeDrive` step. -/
theorem runDriveOps_close (cls : DriveClass) (alive : Int → Bool) (ops : List DriveOp)
    (d : DriveState) :
    runDriveOps (.close cls alive :: ops) d
      = ((runDriveOps ops (closeDrive cls alive d).1).1,
         (closeDrive cls alive d).2 ++ (runDriveOps ops (closeDrive cls alive d).1).2) := rfl

/-- Unfolding of `runDriveOps` at a destruction step. -/
theorem runDriveOps_destroy (cls : DriveClass) (alive : Int → Bool) (ops : List DriveOp)
    (d : DriveState) :
    runDriveOps (.destroy cls alive :: ops) d
      = ((runDriveOps ops (destroyDrive cls alive d).1).1,
         (destroyDrive cls alive d).2 ++ (runDriveOps ops (destroyDrive cls alive d).1).2) := rfl

/-- Once the handle is invalid no sequence of steps calls `closeDeviceHandle`. -/
theorem runDriveOps_invalid (ops : List DriveOp) :
    runDriveOps ops { osDeviceHandle := INVALID_HANDLE_VALUE }
      = ({ osDeviceHandle := INVALID_HANDLE_VALUE }, []) := by
  induction ops with
  | nil => rfl
  | cons op ops ih =>
      cases op with
      | close cls alive =>
          rw [runDriveOps_close]
          simp [closeDrive_invalid, ih]
      | destroy cls alive =>
          rw [runDriveOps_destroy]
          rcases destroyDrive_cases cls alive { osDeviceHandle := INVALID_HANDLE_VALUE }
            with h | h
          · simp [h, ih]
          · have h0 : (destroyDrive cls alive { osDeviceHandle := INVALID_HANDLE_VALUE }).2
                = [] := by
              cases cls <;> simp [destroyDrive, closeDrive_invalid]
            rw [h] at h0
            simp at h0

/-- Any sequence of steps calls `closeDeviceHandle` not at all, or once and on the
handle the drive started with. -/
theorem runDriveOps_events (ops : List DriveOp) (d : DriveState) :
    (runDriveOps ops d).2 = []
    ∨ (runDriveOps ops d).2 = [OsEvent.closeCall d.osDeviceHandle] := by
  induction ops with
  | nil => left; rfl
  | cons op ops ih =>
      cases op with
      | close cls alive =>
          rw [runDriveOps_close]
          rcases closeDrive_cases cls alive d with h | h
          · simpa [h] using ih
          · right; simp [h, runDriveOps_invalid]
      | destroy cls alive =>
          rw [runDriveOps_destroy]
          rcases destroyDrive_cases cls alive d with h | h
          · simpa [h] using ih
          · right; simp [h, runDriveOps_invalid]

/-- C23: handle release is idempotent.  For every drive state and class,
`closeDrive` followed by `closeDrive` has the effect of one `closeDrive`; over
any sequence of `closeDrive` calls and destructions (the Windows destructor chain
included) `closeDeviceHandle` is called at most once, and only on the handle the
drive held; the Windows destructor chain on its own calls it at most once; and
after `closeDrive` on an open drive the handle is `INVALID_HANDLE_VALUE`, the
base `isOpen()` is false and `closeDeviceHandle` was called once. -/
theorem C23_closeDrive_idempotent (cls : DriveClass) (alive : Int → Bool) (d : DriveState)
    (ops : List DriveOp) :
    runDriveOps [.close cls alive, .close cls alive] d = runDriveOps [.close cls alive] d
    ∧ (runDriveOps ops d).2.length ≤ 1
    ∧ (∀ e ∈ (runDriveOps ops d).2, e = OsEvent.closeCall d.osDeviceHandle)
    ∧ (destroyDrive .DtaDevWindowsDrive alive d).2.length ≤ 1
    ∧ (isOpen cls alive d = true →
        (closeDrive cls alive d).1.osDeviceHandle = INVALID_HANDLE_VALUE
        ∧ DtaDevOSDrive.isOpen (closeDrive cls alive d).1 = false
        ∧ (closeDrive cls alive d).2 = [OsEvent.closeCall d.osDeviceHandle]
        ∧ ∀ more, (runDriveOps more (closeDrive cls alive d).1).2 = []) := by
  refine ⟨?_, ?_, ?_, ?_, ?_⟩
  · rw [runDriveOps_close, runDriveOps_close, runDriveOps_close]
    unfold closeDrive
    by_cases h : isOpen cls alive d = true
    · simp [h, isOpen_invalid, runDriveOps]
    · simp [h, runDriveOps]
  · rcases runDriveOps_events ops d with h | h <;> simp [h]
  · intro e he
    rcases runDriveOps_events ops d with h | h
    · rw [h] at he; simp at he
    · rw [h] at he; simpa using he
  · rcases destroyDrive_cases .DtaDevWindowsDrive alive d with h | h <;> simp [h]
  · intro hopen
    unfold closeDrive
    rw [if_pos hopen]
    refine ⟨rfl, ?_, rfl, ?_⟩
    · simp [DtaDevOSDrive.isOpen]
    · intro more
      show (runDriveOps more { osDeviceHandle := INVALID_HANDLE_VALUE }).2 = []
      rw [runDriveOps_invalid]

/-! ### `openAndCheckDeviceHandle` on Linux -/

/-- C29: `DtaDevLinuxDrive::openAndCheckDeviceHandle` tests the pattern the wrong
way round.  A device reference that matches a Linux pattern gets
`INVALID_HANDLE_VALUE` with `accessDenied` untouched and nothing opened, even
when it is accessible and would open (`/dev/sdb`, which opens as descriptor 3);
a reference that does not match goes on to `access` and `open`, and when both
succeed its handle is returned (`/dev/tty0`, opened as descriptor 4). -/
theorem C29_openAndCheck_inverted_test (os : LinuxHost) (devref : String) (accessDenied : Bool) :
    (DtaDevLinuxDrive.isDtaDevLinuxDriveDevRef os devref = true →
      DtaDevLinuxDrive.openAndCheckDeviceHandle os devref accessDenied
        = (INVALID_HANDLE_VALUE, accessDenied, []))
    ∧ (DtaDevLinuxDrive.isDtaDevLinuxDriveDevRef os devref = false →
        os.access devref = 0 → 0 ≤ (os.openRdwr devref).1 →
        DtaDevLinuxDrive.openAndCheckDeviceHandle os devref accessDenied
          = ((os.openRdwr devref).1, false, [OsEvent.openCall devref]))
    ∧ DtaDevLinuxDrive.isDtaDevLinuxDriveDevRef sampleLinuxHostTty "/dev/sdb" = true
    ∧ sampleLinuxHostTty.access "/dev/sdb" = 0
    ∧ DtaDevLinuxDrive.openDeviceHandle sampleLinuxHostTty "/dev/sdb" false = (3, false)
    ∧ DtaDevLinuxDrive.openAndCheckDeviceHandle sampleLinuxHostTty "/dev/sdb" false
        = (INVALID_HANDLE_VALUE, false, [])
    ∧ DtaDevLinuxDrive.isDtaDevLinuxDriveDevRef sampleLinuxHostTty "/dev/tty0" = false
    ∧ DtaDevLinuxDrive.openAndCheckDeviceHandle sampleLinuxHostTty "/dev/tty0" false
        = (4, false, [OsEvent.openCall "/dev/tty0"]) := by
  refine ⟨?_, ?_, by decide, by decide, by decide, by decide, by decide, by decide⟩
  · intro h
    unfold DtaDevLinuxDrive.openAndCheckDeviceHandle
    rw [if_pos h]
  · intro h hacc hopen
    unfold DtaDevLinuxDrive.openAndCheckDeviceHandle
    rw [if_neg (by simp [h]), if_neg (by simp [hacc])]
    have hne : (os.openRdwr devref).1 ≠ -1 := by omega
    have ho : DtaDevLinuxDrive.openDeviceHandle os devref false
        = ((os.openRdwr devref).1, false) := by
      unfold DtaDevLinuxDrive.openDeviceHandle
      simp [hne]
    rw [ho]
    simp only [Bool.false_eq_true, if_false]
    rw [if_neg (by omega)]

/-! ### The Linux introspector -/

/-- Reading a key other than the one just inserted by `operator[]` is unaffected
by the insertion. -/
theorem index_afterIndex (d : dictionary) (key other : String) (hne : key ≠ other) :
    dictionary.index (dictionary.afterIndex d key) other = dictionary.index d other := by
  unfold dictionary.index dictionary.afterIndex
  by_cases h : (d.lookup key).isSome = true
  · rw [if_pos h]
  · rw [if_neg h]
    have e : List.lookup other (d ++ [(key, "")]) = List.lookup other d := by
      induction d with
      | nil =>
          have hb : (other == key) = false := by
            simpa using fun h2 : other = key => hne h2.symm
          simp [List.lookup, hb]
      | cons kv d ih =>
          obtain ⟨k, v⟩ := kv
          by_cases hk : (other == k) = true
          · simp [List.lookup, hk]
          · have hk2 : (other == k) = false := by simpa using hk
            simp only [List.cons_append, List.lookup, hk2]
            have hd : ¬ (List.lookup key d).isSome = true := by
              by_cases hkk : (key == k) = true
              · simp [List.lookup, hkk] at h
              · have hkk2 : (key == k) = false := by simpa using hkk
                simpa [List.lookup, hkk2] using h
            exact ih hd
    rw [e]

/-- The introspector fails exactly when no device record can be obtained. -/
theorem getOSSpecificInformation_parameters (udev : UdevHost) (osDeviceHandle : Int)
    (devref : String) (id : List Nat) (di : DTA_DEVICE_INFO) :
    (Linux.getOSSpecificInformation udev osDeviceHandle devref id di).parameters = none ↔
      (udev.sd_device_new_from_devname devref).1 < 0 := by
  simp only [Linux.getOSSpecificInformation]
  by_cases h : (udev.sd_device_new_from_devname devref).1 < 0
  · simp [h]
  · simp [h]

/-- The device type the introspector reports when the device record is found. -/
theorem getOSSpecificInformation_devType (udev : UdevHost) (osDeviceHandle : Int)
    (devref : String) (id : List Nat) (di : DTA_DEVICE_INFO)
    (hrec : 0 ≤ (udev.sd_device_new_from_devname devref).1) :
    (Linux.getOSSpecificInformation udev osDeviceHandle devref id di).device_info.devType
      = devTypeOfBus
          (dictionary.index ((udev.sd_device_new_from_devname devref).2.foldl
            (fun d kv => dictionary.assign d kv.1 kv.2) []) "ID_BUS")
          (dictionary.index ((udev.sd_device_new_from_devname devref).2.foldl
            (fun d kv => dictionary.assign d kv.1 kv.2) []) "ID_USB_DRIVER")
          .DEVICE_TYPE_OTHER := by
  simp only [Linux.getOSSpecificInformation]
  rw [if_neg (by omega)]
  simp only
  rw [index_afterIndex _ "ID_BUS" "ID_USB_DRIVER" (by decide)]

/-- The device information when no device record can be obtained. -/
theorem getOSSpecificInformation_failed (udev : UdevHost) (osDeviceHandle : Int)
    (devref : String) (id : List Nat) (di : DTA_DEVICE_INFO)
    (hrec : (udev.sd_device_new_from_devname devref).1 < 0) :
    (Linux.getOSSpecificInformation udev osDeviceHandle devref id di).device_info.devType
      = .DEVICE_TYPE_OTHER := by
  simp only [Linux.getOSSpecificInformation]
  rw [if_pos hrec]

set_option maxRecDepth 20000 in
/-- C24 (counterexample): on `/dev/sdb`, which opens as descriptor 3, the size
ioctl fails while the device record is found with bus `scsi`: the introspector
returns a dictionary, not `NULL`, and the factory attempts the SCSI transport
and returns its drive. -/
theorem C24_size_failure_counterexample :
    (failingSizeUdev.blkgetsize64 3).1 < 0
    ∧ (Linux.getOSSpecificInformation failingSizeUdev 3 "/dev/sdb"
        (List.replicate sizeof_InterfaceDeviceID 0) sampleDeviceInfo).parameters ≠ none
    ∧ (DtaDevLinuxDrive.getDtaDevLinuxDrive sampleLinuxHost failingSizeUdev sampleHost
        "/dev/sdb" sampleDeviceInfo false ()).drive = some 1
    ∧ (DtaDevLinuxDrive.getDtaDevLinuxDrive sampleLinuxHost failingSizeUdev sampleHost
        "/dev/sdb" sampleDeviceInfo false ()).attempts = [Variant.Scsi] := by
  refine ⟨by decide, ?_, by decide, by decide⟩
  intro h
  have := (getOSSpecificInformation_parameters failingSizeUdev 3 "/dev/sdb"
    (List.replicate sizeof_InterfaceDeviceID 0) sampleDeviceInfo).mp h
  revert this
  decide

/-- C24 (amended): the Linux introspector returns `NULL` exactly when
`sd_device_new_from_devname` fails, whatever the size ioctl did; in that case
`getDtaDevLinuxDrive` returns no drive, attempts no transport and leaves the
world as it was; a failed size ioctl alone leaves `devSize` as the ioctl left it
and the introspector still succeeds; and whenever the device opens and the
record is found, the drive returned and the transports attempted are those of
the `devType` dispatch on what the introspector reported. -/
theorem C24_record_failure_returns_null {Drive W : Type} (os : LinuxHost) (udev : UdevHost)
    (host : FactoryHost Drive W) (devref : String) (device_info : DTA_DEVICE_INFO)
    (accessDenied : Bool) (world : W) (osDeviceHandle : Int) (id : List Nat) :
    ((Linux.getOSSpecificInformation udev osDeviceHandle devref id device_info).parameters
        = none ↔ (udev.sd_device_new_from_devname devref).1 < 0)
    ∧ ((udev.sd_device_new_from_devname devref).1 < 0 →
        (DtaDevLinuxDrive.getDtaDevLinuxDrive os udev host devref device_info accessDenied
          world).drive = none
        ∧ (DtaDevLinuxDrive.getDtaDevLinuxDrive os udev host devref device_info accessDenied
          world).attempts = []
        ∧ (DtaDevLinuxDrive.getDtaDevLinuxDrive os udev host devref device_info accessDenied
          world).world = world)
    ∧ ((udev.blkgetsize64 osDeviceHandle).1 < 0 →
        0 ≤ (udev.sd_device_new_from_devname devref).1 →
        (Linux.getOSSpecificInformation udev osDeviceHandle devref id device_info).parameters
          ≠ none
        ∧ (Linux.getOSSpecificInformation udev osDeviceHandle devref id
            device_info).device_info.devSize = (udev.blkgetsize64 osDeviceHandle).2)
    ∧ ((DtaDevLinuxDrive.openDeviceHandle os devref accessDenied).1 ≠ INVALID_HANDLE_VALUE →
        (DtaDevLinuxDrive.openDeviceHandle os devref accessDenied).2 = false →
        0 ≤ (udev.sd_device_new_from_devname devref).1 →
        (DtaDevLinuxDrive.getDtaDevLinuxDrive os udev host devref device_info accessDenied
            world).drive
          = (getDtaDevLinuxDrive_switch host devref
              (Linux.getOSSpecificInformation udev
                (DtaDevLinuxDrive.openDeviceHandle os devref accessDenied).1 devref
                (List.replicate sizeof_InterfaceDeviceID 0)
                device_info).interfaceDeviceIdentification
              (Dispatch.start
                (Linux.getOSSpecificInformation udev
                  (DtaDevLinuxDrive.openDeviceHandle os devref accessDenied).1 devref
                  (List.replicate sizeof_InterfaceDeviceID 0) device_info).device_info
                world)).drive
        ∧ (DtaDevLinuxDrive.getDtaDevLinuxDrive os udev host devref device_info accessDenied
            world).attempts
          = (getDtaDevLinuxDrive_switch host devref
              (Linux.getOSSpecificInformation udev
                (DtaDevLinuxDrive.openDeviceHandle os devref accessDenied).1 devref
                (List.replicate sizeof_InterfaceDeviceID 0)
                device_info).interfaceDeviceIdentification
              (Dispatch.start
                (Linux.getOSSpecificInformation udev
                  (DtaDevLinuxDrive.openDeviceHandle os devref accessDenied).1 devref
                  (List.replicate sizeof_InterfaceDeviceID 0) device_info).device_info
                world)).attempts) := by
  refine ⟨getOSSpecificInformation_parameters udev osDeviceHandle devref id device_info, ?_, ?_,
    ?_⟩
  · intro hrec
    have hnone : ∀ h i, (Linux.getOSSpecificInformation udev h devref i device_info).parameters
        = none := fun h i =>
      (getOSSpecificInformation_parameters udev h devref i device_info).mpr hrec
    simp only [DtaDevLinuxDrive.getDtaDevLinuxDrive]
    by_cases hopen : (DtaDevLinuxDrive.openDeviceHandle os devref accessDenied).1
        = INVALID_HANDLE_VALUE ∨ (DtaDevLinuxDrive.openDeviceHandle os devref accessDenied).2
        = true
    · rw [if_pos hopen]
      exact ⟨rfl, rfl, rfl⟩
    · rw [if_neg hopen]
      rw [hnone]
      exact ⟨rfl, rfl, rfl⟩
  · intro _ hrec
    refine ⟨?_, ?_⟩
    · intro hn
      have := (getOSSpecificInformation_parameters udev osDeviceHandle devref id
        device_info).mp hn
      omega
    · simp only [Linux.getOSSpecificInformation]
      rw [if_neg (by omega)]
  · intro hopen hacc hrec
    have hsome : ∀ h i, ∃ d, (Linux.getOSSpecificInformation udev h devref i
        device_info).parameters = some d := by
      intro h i
      cases hp : (Linux.getOSSpecificInformation udev h devref i device_info).parameters with
      | none =>
          have := (getOSSpecificInformation_parameters udev h devref i device_info).mp hp
          omega
      | some d => exact ⟨d, rfl⟩
    have hnot : ¬ ((DtaDevLinuxDrive.openDeviceHandle os devref accessDenied).1
        = INVALID_HANDLE_VALUE ∨ (DtaDevLinuxDrive.openDeviceHandle os devref accessDenied).2
        = true) := by
      rintro (h1 | h2)
      · exact hopen h1
      · rw [hacc] at h2; exact Bool.false_ne_true h2
    obtain ⟨d, hd⟩ := hsome (DtaDevLinuxDrive.openDeviceHandle os devref accessDenied).1
      (List.replicate sizeof_InterfaceDeviceID 0)
    simp only [DtaDevLinuxDrive.getDtaDevLinuxDrive]
    rw [if_neg hnot]
    simp only [hd]
    exact ⟨trivial, trivial⟩

/-- C24 (witness): with a udev that cannot allocate the device record, the factory
returns no drive for `/dev/sdb` and attempts no transport. -/
theorem C24_record_failure_returns_null_witness :
    (failingRecordUdev.sd_device_new_from_devname "/dev/sdb").1 < 0
    ∧ (DtaDevLinuxDrive.getDtaDevLinuxDrive sampleLinuxHost failingRecordUdev sampleHost
        "/dev/sdb" sampleDeviceInfo false ()).drive = none
    ∧ (DtaDevLinuxDrive.getDtaDevLinuxDrive sampleLinuxHost failingRecordUdev sampleHost
        "/dev/sdb" sampleDeviceInfo false ()).attempts = [] :=
  ⟨by decide,
   ((C24_record_failure_returns_null sampleLinuxHost failingRecordUdev sampleHost "/dev/sdb"
      sampleDeviceInfo false () 3 []).2.1 (by decide)).1,
   ((C24_record_failure_returns_null sampleLinuxHost failingRecordUdev sampleHost "/dev/sdb"
      sampleDeviceInfo false () 3 []).2.1 (by decide)).2.1⟩

/-- C26: when the device record is found, the Linux introspector's `devType` is
determined by the values the property dictionary holds for `ID_BUS` and
`ID_USB_DRIVER` (the empty string for a missing key): `scsi` gives SCSI; `usb`
gives SAS with driver `uas` and OTHER without; `ata` gives SATA with driver `uas`
and ATA without; `nvme` gives NVMe; any other bus gives OTHER.  It is never USB
nor UNKNOWN. -/
theorem C26_linux_devType_mapping (udev : UdevHost) (osDeviceHandle : Int) (devref : String)
    (id : List Nat) (di : DTA_DEVICE_INFO)
    (hrec : 0 ≤ (udev.sd_device_new_from_devname devref).1) :
    let deviceProperties : dictionary := (udev.sd_device_new_from_devname devref).2.foldl
      (fun d kv => dictionary.assign d kv.1 kv.2) []
    let bus := dictionary.index deviceProperties "ID_BUS"
    let usbDriver := dictionary.index deviceProperties "ID_USB_DRIVER"
    let devType :=
      (Linux.getOSSpecificInformation udev osDeviceHandle devref id di).device_info.devType
    (bus = "scsi" → devType = .DEVICE_TYPE_SCSI)
    ∧ (bus = "usb" → usbDriver = "uas" → devType = .DEVICE_TYPE_SAS)
    ∧ (bus = "usb" → usbDriver ≠ "uas" → devType = .DEVICE_TYPE_OTHER)
    ∧ (bus = "ata" → usbDriver = "uas" → devType = .DEVICE_TYPE_SATA)
    ∧ (bus = "ata" → usbDriver ≠ "uas" → devType = .DEVICE_TYPE_ATA)
    ∧ (bus = "nvme" → devType = .DEVICE_TYPE_NVME)
    ∧ (bus ≠ "scsi" → bus ≠ "usb" → bus ≠ "ata" → bus ≠ "nvme" →
        devType = .DEVICE_TYPE_OTHER)
    ∧ devType ≠ .DEVICE_TYPE_USB ∧ devType ≠ .DEVICE_TYPE_UNKNOWN := by
  intro deviceProperties bus usbDriver devType
  have e : devType = devTypeOfBus bus usbDriver .DEVICE_TYPE_OTHER :=
    getOSSpecificInformation_devType udev osDeviceHandle devref id di hrec
  rw [e]
  generalize bus = b
  generalize usbDriver = u
  unfold devTypeOfBus
  refine ⟨?_, ?_, ?_, ?_, ?_, ?_, ?_, ?_, ?_⟩
  · intro hb; subst hb; simp
  · intro hb hu; subst hb; subst hu; simp
  · intro hb hu; subst hb; simp [hu]
  · intro hb hu; subst hb; subst hu; simp
  · intro hb hu; subst hb; simp [hu]
  · intro hb; subst hb; simp
  · intro h1 h2 h3 h4; simp [h1, h2, h3, h4]
  · by_cases h1 : b = "scsi" <;> by_cases h2 : b = "usb" <;> by_cases h3 : b = "ata"
      <;> by_cases h4 : b = "nvme" <;> by_cases h5 : u = "uas"
      <;> simp [h1, h2, h3, h4, h5]
  · by_cases h1 : b = "scsi" <;> by_cases h2 : b = "usb" <;> by_cases h3 : b = "ata"
      <;> by_cases h4 : b = "nvme" <;> by_cases h5 : u = "uas"
      <;> simp [h1, h2, h3, h4, h5]

/-- C26 (witness): a record with `ID_BUS=usb` and `ID_USB_DRIVER=uas` is reported
as SAS. -/
theorem C26_linux_devType_mapping_witness :
    0 ≤ ((sampleUdev [("ID_BUS", "usb"), ("ID_USB_DRIVER", "uas")]).sd_device_new_from_devname
      "/dev/sdb").1
    ∧ (Linux.getOSSpecificInformation (sampleUdev [("ID_BUS", "usb"), ("ID_USB_DRIVER", "uas")])
        3 "/dev/sdb" (List.replicate sizeof_InterfaceDeviceID 0)
        sampleDeviceInfo).device_info.devType = .DEVICE_TYPE_SAS :=
  ⟨by decide,
   (C26_linux_devType_mapping (sampleUdev [("ID_BUS", "usb"), ("ID_USB_DRIVER", "uas")])
      3 "/dev/sdb" (List.replicate sizeof_InterfaceDeviceID 0) sampleDeviceInfo
      (by decide)).2.1 (by decide) (by decide)⟩

end Sedutil
